import Mathlib

/-!
# Registration layer of SIFT3D (`reg/reg.c`)

A shallow embedding of the coordinate converters, the feature scaler and the
registration session of `reg.c`, followed by the properties established about
them.

Conventions of the embedding.

* `double` and `float` values are elements of a linearly ordered field `K`
  in exact arithmetic: rounding, and the cast between the two widths, are the
  identity.  Concrete evaluations take `K = ℚ`.  Where rounding decides a
  property (the round trip of `im2mm`), the products are rounded by `binary64`.
* A C function that mutates through pointers and returns a status becomes a
  function returning the status together with the new values.
* Functions of the library that `reg.c` calls but does not define (detector,
  matcher, estimator, matrix allocation, ...) are fields of `Collab`; they
  may read and write an environment `W` (heap, random generator, `stderr`).
* `types.h` and `macros.h` are not part of the sources: the records below
  carry the fields `reg.c` touches, the rest is a type parameter.
-/

namespace SIFT3D

/-! ## Constants and matrices -/

/-- Spatial dimensionality (`IM_NDIMS` of `types.h`). -/
abbrev IM_NDIMS : Nat := 3

/-- Status returned on success (`macros.h`). -/
def SIFT3D_SUCCESS : Int := 0

/-- Status returned on failure (`macros.h`). -/
def SIFT3D_FAILURE : Int := -1

/-- Element type tag of a matrix. -/
inductive Mat_rm_type where
  | DOUBLE
  | FLOAT
  | INT
  deriving DecidableEq, Repr

/-- Row-major dense matrix: shape, element type and the flat data buffer. -/
structure Mat_rm (K : Type) where
  num_rows : Nat
  num_cols : Nat
  type : Mat_rm_type
  data : List K
  deriving DecidableEq, Repr

/-- Value returned by a call that runs in an environment: the environment
after the call, the status, and what the call wrote through its pointers. -/
structure Ret (E α : Type) where
  env : E
  ret : Int
  val : α

section Matrices

variable {K : Type} [LinearOrderedField K]

/-- The buffer holds exactly `num_rows * num_cols` elements. -/
def Mat_rm.WF (m : Mat_rm K) : Prop := m.data.length = m.num_rows * m.num_cols

instance (m : Mat_rm K) : Decidable m.WF := by unfold Mat_rm.WF; infer_instance

/-- Read access `SIFT3D_MAT_RM_GET(m, i, j, type)`: element `i * num_cols + j`
of the buffer. -/
def Mat_rm.GET (m : Mat_rm K) (i j : Nat) : K := m.data.getD (i * m.num_cols + j) 0

/-- Write access through `SIFT3D_MAT_RM_GET(m, i, j, type)`. -/
def Mat_rm.SET (m : Mat_rm K) (i j : Nat) (v : K) : Mat_rm K :=
  { m with data := m.data.set (i * m.num_cols + j) v }

/-- Inner loop of `SIFT3D_MAT_RM_LOOP_START`: `for (j = 0; j < n; j++)` in row
`i`, the body replacing entry `(i, j)` by `upd i j` of its current value. -/
def Mat_rm.loop_cols (upd : Nat → Nat → K → K) (i : Nat) : Nat → Mat_rm K → Mat_rm K
  | 0, m => m
  | j + 1, m =>
    let m1 := Mat_rm.loop_cols upd i j m
    m1.SET i j (upd i j (m1.GET i j))

/-- Outer loop of `SIFT3D_MAT_RM_LOOP_START`: `for (i = 0; i < n; i++)`. -/
def Mat_rm.loop_rows (upd : Nat → Nat → K → K) : Nat → Mat_rm K → Mat_rm K
  | 0, m => m
  | i + 1, m =>
    let m1 := Mat_rm.loop_rows upd i m
    Mat_rm.loop_cols upd i m1.num_cols m1

/-- `SIFT3D_MAT_RM_LOOP_START(m, i, j) GET(m, i, j) = upd(i, j, GET(m, i, j));
SIFT3D_MAT_RM_LOOP_END`. -/
def SIFT3D_MAT_RM_LOOP (m : Mat_rm K) (upd : Nat → Nat → K → K) : Mat_rm K :=
  Mat_rm.loop_rows upd m.num_rows m

/-- Element `j` of a C array of `IM_NDIMS` doubles.  No path of `reg.c` reads
past the array when the shape checks pass; the filler stands for such a read. -/
def at_ (u : Fin IM_NDIMS → K) (j : Nat) : K :=
  if h : j < IM_NDIMS then u ⟨j, h⟩ else 0

end Matrices

/-! ## Transforms, keypoints, descriptors, images -/

/-- Type tag of a transform (`tform_type`). -/
inductive tform_type where
  | AFFINE
  | TPS
  deriving DecidableEq, Repr

/-- Affine transform: the matrix `A` of `x' = A x`. -/
structure Affine (K : Type) where
  A : Mat_rm K
  deriving DecidableEq, Repr

/-- Thin-plate spline transform, the other tagged variant. -/
structure Tps (K : Type) where
  params : Mat_rm K
  kp_src : Mat_rm K
  dim : Int
  deriving DecidableEq, Repr

/-- What a `void *tform` points to: the constructor is the type tag. -/
inductive Tform (K : Type) where
  | affine (aff : Affine K)
  | tps (t : Tps K)
  deriving DecidableEq, Repr

/-- Tag of a transform (`tform_get_type`). -/
def tform_get_type {K : Type} : Tform K → tform_type
  | .affine _ => .AFFINE
  | .tps _ => .TPS

/-- Keypoint: orientation matrix `R`, sub-voxel coordinates, scale, pyramid
indices. -/
structure Keypoint (K : Type) where
  R : Mat_rm K
  xd : K
  yd : K
  zd : K
  sd : K
  o : Int
  s : Int
  deriving DecidableEq, Repr

/-- Descriptor: the feature content `hists`, coordinates and scale. -/
structure SIFT3D_Descriptor (K H : Type) where
  hists : H
  xd : K
  yd : K
  zd : K
  sd : K
  deriving DecidableEq, Repr

/-- Slab allocator header; `reg.c` reads its element count. -/
structure Slab where
  num : Int
  deriving DecidableEq, Repr

/-- Keypoint store: the buffer, its slab, the image dimensions. -/
structure Keypoint_store (K : Type) where
  buf : List (Keypoint K)
  slab : Slab
  nx : Int
  ny : Int
  nz : Int
  deriving DecidableEq, Repr

/-- Descriptor store: the buffer, the number of descriptors, the image
dimensions. -/
structure SIFT3D_Descriptor_store (K H : Type) where
  buf : List (SIFT3D_Descriptor K H)
  num : Int
  nx : Int
  ny : Int
  nz : Int
  deriving DecidableEq, Repr

/-- Image: the per-axis units read by `SIFT3D_IM_GET_UNITS`, and the rest
(voxel data, dimensions). -/
structure Image (K I : Type) where
  units : Fin IM_NDIMS → K
  rest : I

/-- Interpolation mode handed to the resampler. -/
inductive interp_type where
  | LINEAR
  | LANCZOS2
  deriving DecidableEq, Repr

/-- Which of the two images a step works on. -/
inductive Side where
  | src
  | ref
  deriving DecidableEq, Repr

/-- Calls recorded in the log of the environment, in program order: the
library calls made by `reg.c` and the runs of its three internal helpers. -/
inductive Call where
  | init_SIFT3D
  | init_Mat_rm
  | copy_Ransac
  | copy_SIFT3D
  | detect_keypoints
  | extract_descriptors
  | nn_match_fb
  | matches_to_Mat_rm
  | copy_Mat_rm
  | find_tform_ransac
  | cleanup_Mat_rm (s : Side)
  | im_resample (s : Side)
  | im_free (s : Side)
  | im2mm (s : Side)
  | mm2im
  | scale_SIFT3D (s : Side)
  deriving DecidableEq, Repr

/-- Environment of a run: the state `w` owned by the library (heap, random
generator) and the log of calls made so far. -/
structure Env (W : Type) where
  w : W
  log : List Call

/-- Registration session (`Reg_SIFT3D`). `matches_` is the `int *matches` match
list, `none` for `NULL`. -/
structure Reg_SIFT3D (K S Rn H : Type) where
  sift3d : S
  ran : Rn
  kp_src : Keypoint_store K
  kp_ref : Keypoint_store K
  desc_src : SIFT3D_Descriptor_store K H
  desc_ref : SIFT3D_Descriptor_store K H
  match_src : Mat_rm K
  match_ref : Mat_rm K
  matches_ : Option (List Int)
  nn_thresh : K
  src_units : Fin IM_NDIMS → K
  ref_units : Fin IM_NDIMS → K
  verbose : Int

/-- The library functions called by `reg.c` (`pow` is that of `math.h`), with
arbitrary behaviour.  Each takes the library state and the values behind its pointer arguments, and gives
back the new library state, its status and the values it wrote. -/
structure Collab (W K S Rn H I : Type) where
  init_Keypoint_store : Keypoint_store K → Keypoint_store K
  init_SIFT3D_Descriptor_store : SIFT3D_Descriptor_store K H → SIFT3D_Descriptor_store K H
  init_Ransac : Rn → Rn
  init_SIFT3D : W → S → Ret W S
  init_Mat_rm : W → Nat → Nat → Mat_rm_type → Bool → Ret W (Mat_rm K)
  copy_Ransac : W → Rn → Rn → Ret W Rn
  copy_SIFT3D : W → S → S → Ret W S
  SIFT3D_detect_keypoints : W → S → Image K I → Keypoint_store K → Ret W (S × Keypoint_store K)
  SIFT3D_extract_descriptors : W → S → Keypoint_store K → SIFT3D_Descriptor_store K H →
    Ret W (S × SIFT3D_Descriptor_store K H)
  SIFT3D_nn_match_fb : W → SIFT3D_Descriptor_store K H → SIFT3D_Descriptor_store K H → K →
    Option (List Int) → Ret W (Option (List Int))
  SIFT3D_matches_to_Mat_rm : W → SIFT3D_Descriptor_store K H → SIFT3D_Descriptor_store K H →
    Option (List Int) → Mat_rm K → Mat_rm K → Ret W (Mat_rm K × Mat_rm K)
  copy_Mat_rm : W → Mat_rm K → Mat_rm K → Ret W (Mat_rm K)
  find_tform_ransac : W → Rn → Mat_rm K → Mat_rm K → Tform K → Ret W (Tform K)
  cleanup_Mat_rm : W → Mat_rm K → W
  pow : K → K → K
  init_im : Image K I
  im_resample : W → Image K I → (Fin IM_NDIMS → K) → interp_type → Image K I → Ret W (Image K I)
  im_free : W → Image K I → W

section Program

variable {W K S Rn H I : Type} [LinearOrderedField K]

/-- Run a library function in the environment and record the call. -/
def call {α : Type} (tag : Call) (f : W → Ret W α) (e : Env W) : Ret (Env W) α :=
  let r := f e.w
  { env := { w := r.env, log := e.log ++ [tag] }, ret := r.ret, val := r.val }

/-- Run a library function without status in the environment and record the
call. -/
def call_void (tag : Call) (f : W → W) (e : Env W) : Env W :=
  { w := f e.w, log := e.log ++ [tag] }

/-- Record the run of an internal helper. -/
def note (tag : Call) (e : Env W) : Env W := { e with log := e.log ++ [tag] }

/-! ## Coordinate converter -/

/-- `im2mm`: convert an `[m x IM_NDIMS]` coordinate matrix `im` from image
space to mm, into `mm`.  Messages on `stderr` are not modelled. -/
def im2mm (c : Collab W K S Rn H I) (e : Env W) (im : Mat_rm K) (units : Fin IM_NDIMS → K)
    (mm : Mat_rm K) : Ret (Env W) (Mat_rm K) :=
  if im.num_cols ≠ IM_NDIMS then
    { env := e, ret := SIFT3D_FAILURE, val := mm }
  else if im.type ≠ Mat_rm_type.DOUBLE then
    { env := e, ret := SIFT3D_FAILURE, val := mm }
  else
    let r := call Call.copy_Mat_rm (fun w => c.copy_Mat_rm w im mm) e
    if r.ret ≠ 0 then
      { env := r.env, ret := SIFT3D_FAILURE, val := r.val }
    else
      { env := r.env, ret := SIFT3D_SUCCESS,
        val := SIFT3D_MAT_RM_LOOP r.val (fun _ j a => a * at_ units j) }

/-- `im2mm` with the product of the loop body rounded by `fl`: the statement
`SIFT3D_MAT_RM_GET(mm, i, j, double) *= units[j]` stores the rounded product.
With `fl = id` this is `im2mm`; with `fl = binary64` it is `im2mm` in double
arithmetic. -/
def im2mm_fl (fl : K → K) (c : Collab W K S Rn H I) (e : Env W) (im : Mat_rm K)
    (units : Fin IM_NDIMS → K) (mm : Mat_rm K) : Ret (Env W) (Mat_rm K) :=
  if im.num_cols ≠ IM_NDIMS then
    { env := e, ret := SIFT3D_FAILURE, val := mm }
  else if im.type ≠ Mat_rm_type.DOUBLE then
    { env := e, ret := SIFT3D_FAILURE, val := mm }
  else
    let r := call Call.copy_Mat_rm (fun w => c.copy_Mat_rm w im mm) e
    if r.ret ≠ 0 then
      { env := r.env, ret := SIFT3D_FAILURE, val := r.val }
    else
      { env := r.env, ret := SIFT3D_SUCCESS,
        val := SIFT3D_MAT_RM_LOOP r.val (fun _ j a => fl (a * at_ units j)) }

/-- `mm2im`: convert a transformation from mm to image space, in place.  The
two statements of the loop body are `A(i,j) *= j < IM_NDIMS ? ref_units[j] : 1.0`
and `A(i,j) /= src_units[i]`. -/
def mm2im (src_units ref_units : Fin IM_NDIMS → K) (tform : Tform K) : Int × Tform K :=
  match tform with
  | .affine aff =>
    if aff.A.num_rows ≠ IM_NDIMS then
      (SIFT3D_FAILURE, tform)
    else
      (SIFT3D_SUCCESS, .affine { aff with A := SIFT3D_MAT_RM_LOOP aff.A (fun i j a =>
          a * (if j < IM_NDIMS then at_ ref_units j else 1) / at_ src_units i) })
  | .tps _ => (SIFT3D_FAILURE, tform)

/-! ## Session construction and configuration -/

/-- Default matching threshold. -/
def SIFT3D_nn_thresh_default : K := 0.8

/-- `init_Reg_SIFT3D`: `reg` is the memory the caller hands in, with any
content. -/
def init_Reg_SIFT3D (c : Collab W K S Rn H I) (e : Env W) (reg : Reg_SIFT3D K S Rn H) :
    Ret (Env W) (Reg_SIFT3D K S Rn H) :=
  let reg0 : Reg_SIFT3D K S Rn H :=
    { reg with
      matches_ := none
      nn_thresh := SIFT3D_nn_thresh_default
      kp_src := c.init_Keypoint_store reg.kp_src
      kp_ref := c.init_Keypoint_store reg.kp_ref
      desc_src := c.init_SIFT3D_Descriptor_store reg.desc_src
      desc_ref := c.init_SIFT3D_Descriptor_store reg.desc_ref
      ran := c.init_Ransac reg.ran }
  let r1 := call Call.init_SIFT3D (fun w => c.init_SIFT3D w reg0.sift3d) e
  let reg1 := { reg0 with sift3d := r1.val }
  if r1.ret ≠ 0 then
    { env := r1.env, ret := SIFT3D_FAILURE, val := reg1 }
  else
    let r2 := call Call.init_Mat_rm (fun w => c.init_Mat_rm w 0 0 Mat_rm_type.DOUBLE false) r1.env
    let reg2 := { reg1 with match_src := r2.val }
    if r2.ret ≠ 0 then
      { env := r2.env, ret := SIFT3D_FAILURE, val := reg2 }
    else
      let r3 := call Call.init_Mat_rm (fun w => c.init_Mat_rm w 0 0 Mat_rm_type.DOUBLE false) r2.env
      let reg3 := { reg2 with match_ref := r3.val }
      if r3.ret ≠ 0 then
        { env := r3.env, ret := SIFT3D_FAILURE, val := reg3 }
      else
        { env := r3.env, ret := SIFT3D_SUCCESS, val := reg3 }

/-- `set_nn_thresh_Reg_SIFT3D`: set the matching threshold. -/
def set_nn_thresh_Reg_SIFT3D (reg : Reg_SIFT3D K S Rn H) (nn_thresh : K) :
    Int × Reg_SIFT3D K S Rn H :=
  if nn_thresh ≤ 0 ∨ nn_thresh > 1 then
    (SIFT3D_FAILURE, reg)
  else
    (SIFT3D_SUCCESS, { reg with nn_thresh := nn_thresh })

/-- `set_Ransac_Reg_SIFT3D`: the status is that of `copy_Ransac`. -/
def set_Ransac_Reg_SIFT3D (c : Collab W K S Rn H I) (e : Env W) (reg : Reg_SIFT3D K S Rn H)
    (ran : Rn) : Ret (Env W) (Reg_SIFT3D K S Rn H) :=
  let r := call Call.copy_Ransac (fun w => c.copy_Ransac w ran reg.ran) e
  { env := r.env, ret := r.ret, val := { reg with ran := r.val } }

/-- `set_SIFT3D_Reg_SIFT3D`: the status is that of `copy_SIFT3D`. -/
def set_SIFT3D_Reg_SIFT3D (c : Collab W K S Rn H I) (e : Env W) (reg : Reg_SIFT3D K S Rn H)
    (sift3d : S) : Ret (Env W) (Reg_SIFT3D K S Rn H) :=
  let r := call Call.copy_SIFT3D (fun w => c.copy_SIFT3D w sift3d reg.sift3d) e
  { env := r.env, ret := r.ret, val := { reg with sift3d := r.val } }

/-- `set_src_Reg_SIFT3D`: save the units, detect keypoints, extract
descriptors. -/
def set_src_Reg_SIFT3D (c : Collab W K S Rn H I) (e : Env W) (reg : Reg_SIFT3D K S Rn H)
    (src : Image K I) : Ret (Env W) (Reg_SIFT3D K S Rn H) :=
  let reg0 := { reg with src_units := src.units }
  let r1 := call Call.detect_keypoints
    (fun w => c.SIFT3D_detect_keypoints w reg0.sift3d src reg0.kp_src) e
  let reg1 := { reg0 with sift3d := r1.val.1, kp_src := r1.val.2 }
  if r1.ret ≠ 0 then
    { env := r1.env, ret := SIFT3D_FAILURE, val := reg1 }
  else
    let r2 := call Call.extract_descriptors
      (fun w => c.SIFT3D_extract_descriptors w reg1.sift3d reg1.kp_src reg1.desc_src) r1.env
    let reg2 := { reg1 with sift3d := r2.val.1, desc_src := r2.val.2 }
    if r2.ret ≠ 0 then
      { env := r2.env, ret := SIFT3D_FAILURE, val := reg2 }
    else
      { env := r2.env, ret := SIFT3D_SUCCESS, val := reg2 }

/-- `set_ref_Reg_SIFT3D`: as `set_src_Reg_SIFT3D`, for the reference image. -/
def set_ref_Reg_SIFT3D (c : Collab W K S Rn H I) (e : Env W) (reg : Reg_SIFT3D K S Rn H)
    (ref : Image K I) : Ret (Env W) (Reg_SIFT3D K S Rn H) :=
  let reg0 := { reg with ref_units := ref.units }
  let r1 := call Call.detect_keypoints
    (fun w => c.SIFT3D_detect_keypoints w reg0.sift3d ref reg0.kp_ref) e
  let reg1 := { reg0 with sift3d := r1.val.1, kp_ref := r1.val.2 }
  if r1.ret ≠ 0 then
    { env := r1.env, ret := SIFT3D_FAILURE, val := reg1 }
  else
    let r2 := call Call.extract_descriptors
      (fun w => c.SIFT3D_extract_descriptors w reg1.sift3d reg1.kp_ref reg1.desc_ref) r1.env
    let reg2 := { reg1 with sift3d := r2.val.1, desc_ref := r2.val.2 }
    if r2.ret ≠ 0 then
      { env := r2.env, ret := SIFT3D_FAILURE, val := reg2 }
    else
      { env := r2.env, ret := SIFT3D_SUCCESS, val := reg2 }

/-! ## Single-resolution pipeline -/

/-- The exit path `register_SIFT3D_quit`: release both temporaries, fail. -/
def register_SIFT3D_quit {α : Type} (c : Collab W K S Rn H I) (e : Env W)
    (match_src_mm match_ref_mm : Mat_rm K) (out : α) : Ret (Env W) α :=
  let e1 := call_void (Call.cleanup_Mat_rm Side.src) (fun w => c.cleanup_Mat_rm w match_src_mm) e
  let e2 := call_void (Call.cleanup_Mat_rm Side.ref) (fun w => c.cleanup_Mat_rm w match_ref_mm) e1
  { env := e2, ret := SIFT3D_FAILURE, val := out }

/-- The part of `register_SIFT3D` that follows `if (tform == NULL) return
SIFT3D_SUCCESS;`, from `// Initialize intermediates` to the end: `t` is what
the non-null `tform` points to, `reg` the session after the first two steps. -/
def register_SIFT3D_tform (c : Collab W K S Rn H I) (e : Env W) (reg : Reg_SIFT3D K S Rn H)
    (t : Tform K) : Ret (Env W) (Reg_SIFT3D K S Rn H × Option (Tform K)) :=
  let r3 := call Call.init_Mat_rm (fun w => c.init_Mat_rm w 0 0 Mat_rm_type.DOUBLE false) e
  if r3.ret ≠ 0 then
    { env := r3.env, ret := SIFT3D_FAILURE, val := (reg, some t) }
  else
    let r4 := call Call.init_Mat_rm (fun w => c.init_Mat_rm w 0 0 Mat_rm_type.DOUBLE false) r3.env
    if r4.ret ≠ 0 then
      { env := r4.env, ret := SIFT3D_FAILURE, val := (reg, some t) }
    else
      let r5 := im2mm c (note (Call.im2mm Side.src) r4.env) reg.match_src reg.src_units r3.val
      if r5.ret ≠ 0 then
        register_SIFT3D_quit c r5.env r5.val r4.val (reg, some t)
      else
        let r6 := im2mm c (note (Call.im2mm Side.ref) r5.env) reg.match_ref reg.ref_units r4.val
        if r6.ret ≠ 0 then
          register_SIFT3D_quit c r6.env r5.val r6.val (reg, some t)
        else
          let r7 := call Call.find_tform_ransac
            (fun w => c.find_tform_ransac w reg.ran r5.val r6.val t) r6.env
          if r7.ret ≠ 0 then
            register_SIFT3D_quit c r7.env r5.val r6.val (reg, some r7.val)
          else
            let r8 := mm2im reg.src_units reg.ref_units r7.val
            let e8 := note Call.mm2im r7.env
            if r8.1 ≠ 0 then
              register_SIFT3D_quit c e8 r5.val r6.val (reg, some r8.2)
            else
              let e9 := call_void (Call.cleanup_Mat_rm Side.src)
                (fun w => c.cleanup_Mat_rm w r5.val) e8
              let e10 := call_void (Call.cleanup_Mat_rm Side.ref)
                (fun w => c.cleanup_Mat_rm w r6.val) e9
              { env := e10, ret := SIFT3D_SUCCESS, val := (reg, some r8.2) }

/-- `register_SIFT3D`: run the registration procedure.  `tform` is `none` for
a `NULL` pointer; the value returned with the session is what the caller's
transform holds afterwards. -/
def register_SIFT3D (c : Collab W K S Rn H I) (e : Env W) (reg : Reg_SIFT3D K S Rn H)
    (tform : Option (Tform K)) : Ret (Env W) (Reg_SIFT3D K S Rn H × Option (Tform K)) :=
  if reg.desc_src.num ≤ 0 then
    { env := e, ret := SIFT3D_FAILURE, val := (reg, tform) }
  else if reg.desc_ref.num ≤ 0 then
    { env := e, ret := SIFT3D_FAILURE, val := (reg, tform) }
  else
    let r1 := call Call.nn_match_fb
      (fun w => c.SIFT3D_nn_match_fb w reg.desc_src reg.desc_ref reg.nn_thresh reg.matches_) e
    let reg1 := { reg with matches_ := r1.val }
    if r1.ret ≠ 0 then
      { env := r1.env, ret := SIFT3D_FAILURE, val := (reg1, tform) }
    else
      let r2 := call Call.matches_to_Mat_rm
        (fun w => c.SIFT3D_matches_to_Mat_rm w reg1.desc_src reg1.desc_ref reg1.matches_
          reg1.match_src reg1.match_ref) r1.env
      let reg2 := { reg1 with match_src := r2.val.1, match_ref := r2.val.2 }
      if r2.ret ≠ 0 then
        { env := r2.env, ret := SIFT3D_FAILURE, val := (reg2, tform) }
      else
        match tform with
        | none => { env := r2.env, ret := SIFT3D_SUCCESS, val := (reg2, none) }
        | some t => register_SIFT3D_tform c r2.env reg2 t

/-! ## Feature scaler -/

/-- The loop `for (k = 0; k < n; k++) body(buf + k)` over the first `n` cells
of a buffer. -/
def for_cells {α : Type} (body : α → α) : Nat → List α → List α
  | 0, xs => xs
  | _ + 1, [] => []
  | n + 1, x :: xs => body x :: for_cells body n xs

/-- Body of the keypoint loop of `scale_SIFT3D`. -/
def scale_Keypoint (factors : Fin IM_NDIMS → K) (det scale_factor : K) (key : Keypoint K) :
    Keypoint K :=
  { key with
    xd := key.xd * factors 0
    yd := key.yd * factors 1
    zd := key.zd * factors 2
    sd := key.sd * scale_factor
    R := SIFT3D_MAT_RM_LOOP key.R (fun _ j a => a * (at_ factors j / det)) }

/-- Body of the descriptor loop of `scale_SIFT3D`. -/
def scale_Descriptor (factors : Fin IM_NDIMS → K) (scale_factor : K)
    (desc : SIFT3D_Descriptor K H) : SIFT3D_Descriptor K H :=
  { desc with
    xd := desc.xd * factors 0
    yd := desc.yd * factors 1
    zd := desc.zd * factors 2
    sd := desc.sd * scale_factor }

/-- Determinant of the scaling: `det = 1.0; for (i...) det *= factors[i]`. -/
def scale_det (factors : Fin IM_NDIMS → K) : K :=
  (List.range IM_NDIMS).foldl (fun det i => det * at_ factors i) 1

/-- `scale_SIFT3D`: scale the keypoints and descriptors by the given factors.
`pow` is the function of `math.h`. -/
def scale_SIFT3D (pow : K → K → K) (factors : Fin IM_NDIMS → K) (kp : Keypoint_store K)
    (d : SIFT3D_Descriptor_store K H) : Keypoint_store K × SIFT3D_Descriptor_store K H :=
  let det := scale_det factors
  let scale_factor := pow det (-1 / (IM_NDIMS : K))
  ({ kp with buf := for_cells (scale_Keypoint factors det scale_factor) kp.slab.num.toNat kp.buf },
   { d with buf := for_cells (scale_Descriptor factors scale_factor) d.num.toNat d.buf })

/-! ## Multi-resolution pipeline -/

/-- `SIFT3D_MIN(a, b)`. -/
def SIFT3D_MIN (a b : K) : K := if a < b then a else b

/-- The exit path `register_interp_quit`: free both resampled images, fail. -/
def register_interp_quit {α : Type} (c : Collab W K S Rn H I) (e : Env W)
    (src_interp ref_interp : Image K I) (out : α) : Ret (Env W) α :=
  let e1 := call_void (Call.im_free Side.src) (fun w => c.im_free w src_interp) e
  let e2 := call_void (Call.im_free Side.ref) (fun w => c.im_free w ref_interp) e1
  { env := e2, ret := SIFT3D_FAILURE, val := out }

/-- `register_SIFT3D_resample`: like `register_SIFT3D`, but resamples the
input images to the same physical resolution before extracting features. -/
def register_SIFT3D_resample (c : Collab W K S Rn H I) (e : Env W) (reg : Reg_SIFT3D K S Rn H)
    (src ref : Image K I) (interp : interp_type) (tform : Option (Tform K)) :
    Ret (Env W) (Reg_SIFT3D K S Rn H × Option (Tform K)) :=
  if src.units = ref.units then
    let r1 := set_src_Reg_SIFT3D c e reg src
    if r1.ret ≠ 0 then
      { env := r1.env, ret := SIFT3D_FAILURE, val := (r1.val, tform) }
    else
      let r2 := set_ref_Reg_SIFT3D c r1.env r1.val ref
      if r2.ret ≠ 0 then
        { env := r2.env, ret := SIFT3D_FAILURE, val := (r2.val, tform) }
      else
        let r3 := register_SIFT3D c r2.env r2.val tform
        { env := r3.env, ret := if r3.ret ≠ 0 then SIFT3D_FAILURE else SIFT3D_SUCCESS,
          val := r3.val }
  else
    let units_min : Fin IM_NDIMS → K := fun i => SIFT3D_MIN (src.units i) (ref.units i)
    let factors_src : Fin IM_NDIMS → K := fun i => units_min i / src.units i
    let factors_ref : Fin IM_NDIMS → K := fun i => units_min i / ref.units i
    let q1 := call (Call.im_resample Side.src)
      (fun w => c.im_resample w src units_min interp c.init_im) e
    if q1.ret ≠ 0 then
      register_interp_quit c q1.env q1.val c.init_im (reg, tform)
    else
      let q2 := call (Call.im_resample Side.ref)
        (fun w => c.im_resample w ref units_min interp c.init_im) q1.env
      if q2.ret ≠ 0 then
        register_interp_quit c q2.env q1.val q2.val (reg, tform)
      else
        let r1 := set_src_Reg_SIFT3D c q2.env reg q1.val
        if r1.ret ≠ 0 then
          register_interp_quit c r1.env q1.val q2.val (r1.val, tform)
        else
          let r2 := set_ref_Reg_SIFT3D c r1.env r1.val q2.val
          if r2.ret ≠ 0 then
            register_interp_quit c r2.env q1.val q2.val (r2.val, tform)
          else
            let s1 := scale_SIFT3D c.pow factors_src r2.val.kp_src r2.val.desc_src
            let s2 := scale_SIFT3D c.pow factors_ref r2.val.kp_ref r2.val.desc_ref
            let reg3 := { r2.val with
              kp_src := s1.1, desc_src := s1.2, kp_ref := s2.1, desc_ref := s2.2 }
            let e3 := note (Call.scale_SIFT3D Side.ref) (note (Call.scale_SIFT3D Side.src) r2.env)
            let r3 := register_SIFT3D c e3 reg3 tform
            if r3.ret ≠ 0 then
              register_interp_quit c r3.env q1.val q2.val r3.val
            else
              let e4 := call_void (Call.im_free Side.src) (fun w => c.im_free w q1.val) r3.env
              let e5 := call_void (Call.im_free Side.ref) (fun w => c.im_free w q2.val) e4
              { env := e5, ret := SIFT3D_SUCCESS, val := r3.val }

/-! ## Match accessor -/

/-- `get_matches_Reg_SIFT3D`: copy the matched coordinates into the caller's
`match_src` and `match_ref`.  The status after the null check is the value of
`copy_Mat_rm(..) || copy_Mat_rm(..)`. -/
def get_matches_Reg_SIFT3D (c : Collab W K S Rn H I) (e : Env W) (reg : Reg_SIFT3D K S Rn H)
    (match_src match_ref : Mat_rm K) : Ret (Env W) (Mat_rm K × Mat_rm K) :=
  match reg.matches_ with
  | none => { env := e, ret := SIFT3D_FAILURE, val := (match_src, match_ref) }
  | some _ =>
    let r1 := call Call.copy_Mat_rm (fun w => c.copy_Mat_rm w reg.match_src match_src) e
    if r1.ret ≠ 0 then
      { env := r1.env, ret := 1, val := (r1.val, match_ref) }
    else
      let r2 := call Call.copy_Mat_rm (fun w => c.copy_Mat_rm w reg.match_ref match_ref) r1.env
      { env := r2.env, ret := if r2.ret ≠ 0 then 1 else 0, val := (r1.val, r2.val) }

/-! ## Sequences of session operations -/

/-- One call of the session interface made after `init_Reg_SIFT3D`; a register
call carries the transform the caller passes, `none` for `NULL`. -/
inductive Op (K S Rn I : Type) where
  | set_nn_thresh (t : K)
  | set_Ransac (ran : Rn)
  | set_SIFT3D (sift3d : S)
  | set_src (im : Image K I)
  | set_ref (im : Image K I)
  | register (tform : Option (Tform K))
  | register_resample (src ref : Image K I) (interp : interp_type) (tform : Option (Tform K))

/-- Perform one operation on the session. -/
def step (c : Collab W K S Rn H I) (e : Env W) (reg : Reg_SIFT3D K S Rn H) :
    Op K S Rn I → Ret (Env W) (Reg_SIFT3D K S Rn H)
  | .set_nn_thresh t =>
    let r := set_nn_thresh_Reg_SIFT3D reg t
    { env := e, ret := r.1, val := r.2 }
  | .set_Ransac ran => set_Ransac_Reg_SIFT3D c e reg ran
  | .set_SIFT3D s => set_SIFT3D_Reg_SIFT3D c e reg s
  | .set_src im => set_src_Reg_SIFT3D c e reg im
  | .set_ref im => set_ref_Reg_SIFT3D c e reg im
  | .register tform =>
    let r := register_SIFT3D c e reg tform
    { env := r.env, ret := r.ret, val := r.val.1 }
  | .register_resample src ref interp tform =>
    let r := register_SIFT3D_resample c e reg src ref interp tform
    { env := r.env, ret := r.ret, val := r.val.1 }

/-- Perform a sequence of operations; the result carries the final
environment and session, and the status of every operation in order. -/
def run (c : Collab W K S Rn H I) (e : Env W) (reg : Reg_SIFT3D K S Rn H) :
    List (Op K S Rn I) → Ret (Env W) (Reg_SIFT3D K S Rn H) × List Int
  | [] => ({ env := e, ret := SIFT3D_SUCCESS, val := reg }, [])
  | op :: ops =>
    let r := step c e reg op
    let rest := run c r.env r.val ops
    (rest.1, r.ret :: rest.2)

/-- Whether an operation is a register call. -/
def Op.is_register : Op K S Rn I → Bool
  | .register _ => true
  | .register_resample _ _ _ _ => true
  | _ => false

end Program

/-! ## Vocabulary of the statements -/

section Vocabulary

variable {W K S Rn H I : Type} [LinearOrderedField K]

/-- Row `i` of `A·[p; 1]` for a matrix `A` with four columns: the affine map
`x' = A x` applied to the point `p` in homogeneous coordinates. -/
def apply_Affine (A : Mat_rm K) (p : Fin IM_NDIMS → K) (i : Nat) : K :=
  A.GET i 0 * p 0 + A.GET i 1 * p 1 + A.GET i 2 * p 2 + A.GET i 3

/-- Component-wise reciprocal `1/u` of a vector. -/
def recip (u : Fin IM_NDIMS → K) : Fin IM_NDIMS → K := fun i => 1 / u i

/-- Contract of `copy_Mat_rm`: a copy that reports success has left in the
destination the shape, type and entries of the source. -/
def Collab.copy_faithful (c : Collab W K S Rn H I) : Prop :=
  ∀ (w : W) (src dst : Mat_rm K),
    (c.copy_Mat_rm w src dst).ret = 0 → (c.copy_Mat_rm w src dst).val = src

/-- The single-resolution pipeline called directly, in the words of the
specification: `setSource(src)`, then `setReference(ref)`, then register, each
later call made only if the earlier ones succeeded; the status is that of the
last call made. -/
def direct_register (c : Collab W K S Rn H I) (e : Env W) (reg : Reg_SIFT3D K S Rn H)
    (src ref : Image K I) (tform : Option (Tform K)) :
    Ret (Env W) (Reg_SIFT3D K S Rn H × Option (Tform K)) :=
  let r1 := set_src_Reg_SIFT3D c e reg src
  if r1.ret ≠ SIFT3D_SUCCESS then
    { env := r1.env, ret := r1.ret, val := (r1.val, tform) }
  else
    let r2 := set_ref_Reg_SIFT3D c r1.env r1.val ref
    if r2.ret ≠ SIFT3D_SUCCESS then
      { env := r2.env, ret := r2.ret, val := (r2.val, tform) }
    else
      register_SIFT3D c r2.env r2.val tform

/-- The log `after` is the log `before` followed by calls that all satisfy
`P`. -/
def grows_by (P : Call → Prop) (before after : List Call) : Prop :=
  ∃ l : List Call, after = before ++ l ∧ ∀ x ∈ l, P x

/-- Calls of the resampler and runs of the feature scaler. -/
def Call.resamples : Call → Bool
  | .im_resample _ => true
  | .scale_SIFT3D _ => true
  | _ => false

/-- Whether an operation is a call of the multi-resolution pipeline. -/
def Op.is_resample : Op K S Rn I → Bool
  | .register_resample _ _ _ _ => true
  | _ => false

/-- Units of the image passed to the last `set_src` call of a sequence of
operations, successful or not; `u0` when the sequence has none. -/
def last_src_units (u0 : Fin IM_NDIMS → K) (ops : List (Op K S Rn I)) : Fin IM_NDIMS → K :=
  ops.foldl (fun u op => match op with
    | .set_src im => im.units
    | _ => u) u0

/-- Units of the image passed to the last `set_ref` call of a sequence of
operations, successful or not; `u0` when the sequence has none. -/
def last_ref_units (u0 : Fin IM_NDIMS → K) (ops : List (Op K S Rn I)) : Fin IM_NDIMS → K :=
  ops.foldl (fun u op => match op with
    | .set_ref im => im.units
    | _ => u) u0

/-- What the steps of `register_SIFT3D` work on: the environment, the session,
the caller's transform and the two temporary physical-space matrices. -/
structure Pipe (W K S Rn H : Type) where
  env : Env W
  reg : Reg_SIFT3D K S Rn H
  tform : Tform K
  src_mm : Mat_rm K
  ref_mm : Mat_rm K

/-- A strict failure chain, in the words of the specification: the steps run
in order, each a hard gate; the first step whose status is not 0 ends the
chain with that status, and no later step is attempted. -/
def failure_chain {σ : Type} : List (σ → Int × σ) → σ → Int × σ
  | [], p => (0, p)
  | s :: rest, p => if (s p).1 ≠ 0 then s p else failure_chain rest (s p).2

/-- Step 1: match the descriptors, store the list in the session. -/
def step_match (c : Collab W K S Rn H I) (p : Pipe W K S Rn H) : Int × Pipe W K S Rn H :=
  let r := call Call.nn_match_fb (fun w => c.SIFT3D_nn_match_fb w p.reg.desc_src p.reg.desc_ref
    p.reg.nn_thresh p.reg.matches_) p.env
  (r.ret, { p with env := r.env, reg := { p.reg with matches_ := r.val } })

/-- Step 2: extract the coordinate matrices, store them in the session. -/
def step_coords (c : Collab W K S Rn H I) (p : Pipe W K S Rn H) : Int × Pipe W K S Rn H :=
  let r := call Call.matches_to_Mat_rm (fun w => c.SIFT3D_matches_to_Mat_rm w p.reg.desc_src
    p.reg.desc_ref p.reg.matches_ p.reg.match_src p.reg.match_ref) p.env
  (r.ret, { p with env := r.env, reg := { p.reg with match_src := r.val.1, match_ref := r.val.2 } })

/-- Initialise the temporary for the source side. -/
def step_init_src (c : Collab W K S Rn H I) (p : Pipe W K S Rn H) : Int × Pipe W K S Rn H :=
  let r := call Call.init_Mat_rm (fun w => c.init_Mat_rm w 0 0 Mat_rm_type.DOUBLE false) p.env
  (r.ret, { p with env := r.env, src_mm := r.val })

/-- Initialise the temporary for the reference side. -/
def step_init_ref (c : Collab W K S Rn H I) (p : Pipe W K S Rn H) : Int × Pipe W K S Rn H :=
  let r := call Call.init_Mat_rm (fun w => c.init_Mat_rm w 0 0 Mat_rm_type.DOUBLE false) p.env
  (r.ret, { p with env := r.env, ref_mm := r.val })

/-- Step 4, source side: `toPhysical` of `match_src` with the stored source
units. -/
def step_toPhysical_src (c : Collab W K S Rn H I) (p : Pipe W K S Rn H) :
    Int × Pipe W K S Rn H :=
  let r := im2mm c (note (Call.im2mm Side.src) p.env) p.reg.match_src p.reg.src_units p.src_mm
  (r.ret, { p with env := r.env, src_mm := r.val })

/-- Step 4, reference side: `toPhysical` of `match_ref` with the stored
reference units. -/
def step_toPhysical_ref (c : Collab W K S Rn H I) (p : Pipe W K S Rn H) :
    Int × Pipe W K S Rn H :=
  let r := im2mm c (note (Call.im2mm Side.ref) p.env) p.reg.match_ref p.reg.ref_units p.ref_mm
  (r.ret, { p with env := r.env, ref_mm := r.val })

/-- Step 5: the robust estimator on the two physical-space matrices. -/
def step_estimate (c : Collab W K S Rn H I) (p : Pipe W K S Rn H) : Int × Pipe W K S Rn H :=
  let r := call Call.find_tform_ransac
    (fun w => c.find_tform_ransac w p.reg.ran p.src_mm p.ref_mm p.tform) p.env
  (r.ret, { p with env := r.env, tform := r.val })

/-- Step 6: `toVoxel` of the transform with both stored unit vectors. -/
def step_toVoxel (p : Pipe W K S Rn H) : Int × Pipe W K S Rn H :=
  let r := mm2im p.reg.src_units p.reg.ref_units p.tform
  (r.1, { p with env := note Call.mm2im p.env, tform := r.2 })

/-- Step 7: release the two temporaries, each once. -/
def release (c : Collab W K S Rn H I) (p : Pipe W K S Rn H) : Env W :=
  call_void (Call.cleanup_Mat_rm Side.ref) (fun w => c.cleanup_Mat_rm w p.ref_mm)
    (call_void (Call.cleanup_Mat_rm Side.src) (fun w => c.cleanup_Mat_rm w p.src_mm) p.env)

/-- The steps up to the initialisation of the two temporaries. -/
def chain_head (c : Collab W K S Rn H I) : List (Pipe W K S Rn H → Int × Pipe W K S Rn H) :=
  [step_match c, step_coords c, step_init_src c, step_init_ref c]

/-- The steps that run with the two temporaries initialised. -/
def chain_tail (c : Collab W K S Rn H I) : List (Pipe W K S Rn H → Int × Pipe W K S Rn H) :=
  [step_toPhysical_src c, step_toPhysical_ref c, step_estimate c, step_toVoxel]

/-- The single-resolution pipeline with a non-null transform, in the words of
the specification: a strict failure chain of the steps, and the release of the
two temporaries on every exit taken once both are initialised.  `u` is the
content of the two local matrices before their initialisation. -/
def register_chain (c : Collab W K S Rn H I) (e : Env W) (reg : Reg_SIFT3D K S Rn H)
    (t : Tform K) (u : Mat_rm K) : Ret (Env W) (Reg_SIFT3D K S Rn H × Option (Tform K)) :=
  let a := failure_chain (chain_head c)
    { env := e, reg := reg, tform := t, src_mm := u, ref_mm := u }
  if a.1 ≠ 0 then
    { env := a.2.env, ret := SIFT3D_FAILURE, val := (a.2.reg, some a.2.tform) }
  else
    let b := failure_chain (chain_tail c) a.2
    { env := release c b.2, ret := if b.1 ≠ 0 then SIFT3D_FAILURE else SIFT3D_SUCCESS,
      val := (b.2.reg, some b.2.tform) }

/-- The six steps proper of the pipeline, among the calls of the log. -/
def Call.is_step : Call → Bool
  | .nn_match_fb => true
  | .matches_to_Mat_rm => true
  | .im2mm _ => true
  | .find_tform_ransac => true
  | .mm2im => true
  | _ => false

/-- The six steps in the order of the specification: match, coordinate
extraction, `toPhysical(src)`, `toPhysical(ref)`, robust estimation,
`toVoxel`. -/
def pipeline_steps : List Call :=
  [Call.nn_match_fb, Call.matches_to_Mat_rm, Call.im2mm Side.src, Call.im2mm Side.ref,
   Call.find_tform_ransac, Call.mm2im]

/-- The step `s` adds to the log calls whose steps proper are `ts`, and no
release of a temporary. -/
def Step_logs (s : Pipe W K S Rn H → Int × Pipe W K S Rn H) (ts : List Call) : Prop :=
  ∀ p : Pipe W K S Rn H, ∃ l : List Call,
    (s p).2.env.log = p.env.log ++ l ∧ l.filter Call.is_step = ts ∧
      ∀ x : Side, Call.cleanup_Mat_rm x ∉ l

/-- The chain `f` adds to the log calls whose steps proper are an initial
segment of `ts`, all of `ts` when its status is 0, and no release of a
temporary. -/
def Chain_logs (f : Pipe W K S Rn H → Int × Pipe W K S Rn H) (ts : List Call) : Prop :=
  ∀ p : Pipe W K S Rn H, ∃ (l : List Call) (n : Nat),
    (f p).2.env.log = p.env.log ++ l ∧ l.filter Call.is_step = ts.take n ∧
      ((f p).1 = 0 → l.filter Call.is_step = ts) ∧ ∀ x : Side, Call.cleanup_Mat_rm x ∉ l

/-- Coordinates of a keypoint, by axis. -/
def Keypoint.coord (key : Keypoint K) : Fin IM_NDIMS → K := ![key.xd, key.yd, key.zd]

/-- Coordinates of a descriptor, by axis. -/
def SIFT3D_Descriptor.coord (d : SIFT3D_Descriptor K H) : Fin IM_NDIMS → K :=
  ![d.xd, d.yd, d.zd]

/-- The harmonised units of the specification: `unitsMin[i] = min(srcUnits[i],
refUnits[i])`. -/
def units_min (src_units ref_units : Fin IM_NDIMS → K) : Fin IM_NDIMS → K :=
  fun i => min (src_units i) (ref_units i)

/-- The harmonisation factors of the specification for an image with units
`u`: `factors[i] = unitsMin[i] / u[i]`. -/
def factors (umin u : Fin IM_NDIMS → K) : Fin IM_NDIMS → K := fun i => umin i / u i

/-- The `[1 x IM_NDIMS]` coordinate matrix of doubles holding the point `q`. -/
def point_row (q : Fin IM_NDIMS → K) : Mat_rm K :=
  { num_rows := 1, num_cols := IM_NDIMS, type := Mat_rm_type.DOUBLE, data := [q 0, q 1, q 2] }

/-- Round to the nearest integer, ties to even. -/
def round_even (q : ℚ) : ℤ :=
  if q - ⌊q⌋ < 1 / 2 then ⌊q⌋
  else if 1 / 2 < q - ⌊q⌋ then ⌊q⌋ + 1
  else if ⌊q⌋ % 2 = 0 then ⌊q⌋ else ⌊q⌋ + 1

/-- Exponent `e` of the binary64 format for `x`: `2^e ≤ |x| < 2^(e+1)` in the normal range,
`-1022` for the subnormals (zero rounds to zero whatever the exponent). -/
def binary64_exponent (x : ℚ) : ℤ := max (Int.log 2 |x|) (-1022)

/-- The C type `double` rounds every arithmetic result to IEEE 754 binary64, to nearest
with ties to even: a multiple of the quantum `2^(e-52)`, 53 significant bits.  Overflow to
an infinity is not represented: beyond the largest finite double the value is the one an
unbounded exponent range gives. -/
def binary64 (x : ℚ) : ℚ :=
  round_even (x / 2 ^ (binary64_exponent x - 52)) * 2 ^ (binary64_exponent x - 52)

end Vocabulary

/-! ## Concrete data for evaluation -/

namespace Sample

/-- The 3 x 4 matrix `[I | 0]`. -/
def A : Mat_rm ℚ :=
  { num_rows := 3, num_cols := 4, type := Mat_rm_type.DOUBLE,
    data := [1, 0, 0, 0, 0, 1, 0, 0, 0, 0, 1, 0] }

/-- Source voxels of 2 mm. -/
def units2 : Fin IM_NDIMS → ℚ := ![2, 2, 2]

/-- Reference voxels of 1 mm. -/
def units1 : Fin IM_NDIMS → ℚ := ![1, 1, 1]

/-- The voxel `(1, 0, 0)`. -/
def p : Fin IM_NDIMS → ℚ := ![1, 0, 0]

/-- Two points as a 2 x 3 coordinate matrix. -/
def P : Mat_rm ℚ :=
  { num_rows := 2, num_cols := 3, type := Mat_rm_type.DOUBLE, data := [1, 2, 3, 4, 5, 6] }

/-- An empty matrix, as left by `init_Mat_rm(&m, 0, 0, DOUBLE, SIFT3D_FALSE)`. -/
def empty : Mat_rm ℚ :=
  { num_rows := 0, num_cols := 0, type := Mat_rm_type.DOUBLE, data := [] }

/-- One keypoint at voxel `(1, 2, 3)` with scale 2 and the identity frame. -/
def key (K : Type) [LinearOrderedField K] : Keypoint K :=
  { R := { num_rows := 3, num_cols := 3, type := Mat_rm_type.FLOAT,
           data := [1, 0, 0, 0, 1, 0, 0, 0, 1] },
    xd := 1, yd := 2, zd := 3, sd := 2, o := 0, s := 0 }

/-- A keypoint store holding `key`. -/
def kp (K : Type) [LinearOrderedField K] : Keypoint_store K :=
  { buf := [key K], slab := { num := 1 }, nx := 8, ny := 8, nz := 8 }

/-- The descriptor store that goes with `kp`. -/
def desc (K : Type) [LinearOrderedField K] : SIFT3D_Descriptor_store K Unit :=
  { buf := [{ hists := (), xd := 1, yd := 2, zd := 3, sd := 2 }],
    num := 1, nx := 8, ny := 8, nz := 8 }

/-- Factors `(2, 2, 2)`, of determinant 8. -/
def factors2 (K : Type) [LinearOrderedField K] : Fin IM_NDIMS → K := ![2, 2, 2]

/-- Coordinates of the descriptors of a store, one row each. -/
def coords (d : SIFT3D_Descriptor_store ℚ Unit) : Mat_rm ℚ :=
  { num_rows := d.buf.length, num_cols := 3, type := Mat_rm_type.DOUBLE,
    data := d.buf.foldr (fun x acc => x.xd :: x.yd :: x.zd :: acc) [] }

/-- Values of `pow(x, -1/3)` at `x = 8`, `x = 1/8` and `x = 1`. -/
def pow (x _y : ℚ) : ℚ := if x = 8 then 1 / 2 else if x = 1 / 8 then 2 else 1

/-- A library in which every image has the single keypoint `key`, the
matcher pairs it with itself, allocations succeed, and the robust estimator
returns the status `est` and leaves the transform as it was. -/
def collab (est : Int) : Collab Unit ℚ Unit Unit Unit Unit :=
  { init_Keypoint_store := fun _ => { buf := [], slab := { num := 0 }, nx := 0, ny := 0, nz := 0 }
    init_SIFT3D_Descriptor_store := fun _ => { buf := [], num := 0, nx := 0, ny := 0, nz := 0 }
    init_Ransac := fun r => r
    init_SIFT3D := fun w s => { env := w, ret := 0, val := s }
    init_Mat_rm := fun w r c t _ =>
      { env := w, ret := 0,
        val := { num_rows := r, num_cols := c, type := t, data := List.replicate (r * c) 0 } }
    copy_Ransac := fun w src _ => { env := w, ret := 0, val := src }
    copy_SIFT3D := fun w src _ => { env := w, ret := 0, val := src }
    SIFT3D_detect_keypoints := fun w s _ _ =>
      { env := w, ret := 0, val := (s, kp ℚ) }
    SIFT3D_extract_descriptors := fun w s kp _ =>
      { env := w, ret := 0,
        val := (s, { buf := kp.buf.map (fun k =>
                       { hists := (), xd := k.xd, yd := k.yd, zd := k.zd, sd := k.sd }),
                     num := kp.slab.num, nx := kp.nx, ny := kp.ny, nz := kp.nz }) }
    SIFT3D_nn_match_fb := fun w _ _ _ _ => { env := w, ret := 0, val := some [0] }
    SIFT3D_matches_to_Mat_rm := fun w ds dr _ _ _ =>
      { env := w, ret := 0, val := (coords ds, coords dr) }
    copy_Mat_rm := fun w src _ => { env := w, ret := 0, val := src }
    find_tform_ransac := fun w _ _ _ t => { env := w, ret := est, val := t }
    cleanup_Mat_rm := fun w _ => w
    pow := pow
    init_im := { units := ![1, 1, 1], rest := () }
    im_resample := fun w im u _ _ => { env := w, ret := 0, val := { units := u, rest := im.rest } }
    im_free := fun w _ => w }

/-- The environment before any call. -/
def env0 : Env Unit := { w := (), log := [] }

/-- A session whose stores are empty and whose match list is absent. -/
def blank : Reg_SIFT3D ℚ Unit Unit Unit :=
  { sift3d := (), ran := ()
    kp_src := { buf := [], slab := { num := 0 }, nx := 0, ny := 0, nz := 0 }
    kp_ref := { buf := [], slab := { num := 0 }, nx := 0, ny := 0, nz := 0 }
    desc_src := { buf := [], num := 0, nx := 0, ny := 0, nz := 0 }
    desc_ref := { buf := [], num := 0, nx := 0, ny := 0, nz := 0 }
    match_src := empty, match_ref := empty
    matches_ := none
    nn_thresh := 4 / 5
    src_units := units1, ref_units := units1
    verbose := 0 }

/-- A session holding the features of a source image with 2 mm voxels and of
a reference image with 1 mm voxels. -/
def loaded : Reg_SIFT3D ℚ Unit Unit Unit :=
  { blank with
    kp_src := kp ℚ, kp_ref := kp ℚ, desc_src := desc ℚ, desc_ref := desc ℚ
    src_units := units2, ref_units := units1 }

/-- An image with 2 mm voxels. -/
def im2 : Image ℚ Unit := { units := units2, rest := () }

/-- An image with 1 mm voxels. -/
def im1 : Image ℚ Unit := { units := units1, rest := () }

/-- Set both images, then register with an affine transform to fill. -/
def ops_register : List (Op ℚ Unit Unit Unit) :=
  [Op.set_src im2, Op.set_ref im1, Op.register (some (Tform.affine { A := A }))]

/-- Configure, set the source image only, then register. -/
def ops_no_reference : List (Op ℚ Unit Unit Unit) :=
  [Op.set_nn_thresh 1, Op.set_src im2, Op.register none]

/-- The session `loaded` after a matching-only registration. -/
def matched : Reg_SIFT3D ℚ Unit Unit Unit :=
  (register_SIFT3D (collab 0) env0 loaded none).val.1

/-- The library `collab 0` with a detector that fails on the images whose
voxel size is `bad`, leaving the keypoint store as it was. -/
def rejecting (bad : Fin IM_NDIMS → ℚ) : Collab Unit ℚ Unit Unit Unit Unit :=
  { collab 0 with
    SIFT3D_detect_keypoints := fun w s im k =>
      if im.units = bad then { env := w, ret := -1, val := (s, k) }
      else { env := w, ret := 0, val := (s, kp ℚ) } }

/-- Set the source image to one with 1 mm voxels, then to one with 2 mm
voxels. -/
def ops_two_sources : List (Op ℚ Unit Unit Unit) :=
  [Op.set_src im1, Op.set_src im2]

/-- Configure, set both images, register, then set the source image again. -/
def ops_plain : List (Op ℚ Unit Unit Unit) :=
  [Op.set_nn_thresh 1, Op.set_src im1, Op.set_ref im1, Op.register none, Op.set_src im2]

/-- The library `collab 0` with a library state that records the two matrices
handed to the robust estimator. -/
def probe : Collab (List (Mat_rm ℚ)) ℚ Unit Unit Unit Unit :=
  { init_Keypoint_store := (collab 0).init_Keypoint_store
    init_SIFT3D_Descriptor_store := (collab 0).init_SIFT3D_Descriptor_store
    init_Ransac := fun r => r
    init_SIFT3D := fun w s => { env := w, ret := 0, val := s }
    init_Mat_rm := fun w r c t _ =>
      { env := w, ret := 0,
        val := { num_rows := r, num_cols := c, type := t, data := List.replicate (r * c) 0 } }
    copy_Ransac := fun w src _ => { env := w, ret := 0, val := src }
    copy_SIFT3D := fun w src _ => { env := w, ret := 0, val := src }
    SIFT3D_detect_keypoints := fun w s _ _ => { env := w, ret := 0, val := (s, kp ℚ) }
    SIFT3D_extract_descriptors := fun w s k _ =>
      { env := w, ret := 0,
        val := (s, { buf := k.buf.map (fun x =>
                       { hists := (), xd := x.xd, yd := x.yd, zd := x.zd, sd := x.sd }),
                     num := k.slab.num, nx := k.nx, ny := k.ny, nz := k.nz }) }
    SIFT3D_nn_match_fb := fun w _ _ _ _ => { env := w, ret := 0, val := some [0] }
    SIFT3D_matches_to_Mat_rm := fun w ds dr _ _ _ =>
      { env := w, ret := 0, val := (coords ds, coords dr) }
    copy_Mat_rm := fun w src _ => { env := w, ret := 0, val := src }
    find_tform_ransac := fun w _ src_mm ref_mm t => { env := w ++ [src_mm, ref_mm], ret := 0, val := t }
    cleanup_Mat_rm := fun w _ => w
    pow := pow
    init_im := { units := ![1, 1, 1], rest := () }
    im_resample := fun w im u _ _ => { env := w, ret := 0, val := { units := u, rest := im.rest } }
    im_free := fun w _ => w }

/-- The environment before any call, for `probe`. -/
def probe_env0 : Env (List (Mat_rm ℚ)) := { w := [], log := [] }

/-- The affine matrix `[2·I | 0]`. -/
def A2 : Mat_rm ℚ :=
  { num_rows := 3, num_cols := 4, type := Mat_rm_type.DOUBLE,
    data := [2, 0, 0, 0, 0, 2, 0, 0, 0, 0, 2, 0] }

/-- The double nearest to 0.1. -/
def tenth : ℚ := 3602879701896397 / 36028797018963968

/-- Voxels of 0.1 mm in each dimension, as doubles. -/
def units_tenth : Fin IM_NDIMS → ℚ := ![tenth, tenth, tenth]

/-- The one-row coordinate matrix `(3, 3, 3)`. -/
def P3 : Mat_rm ℚ :=
  { num_rows := 1, num_cols := 3, type := Mat_rm_type.DOUBLE, data := [3, 3, 3] }

end Sample

end SIFT3D

namespace SIFT3D

/-! ## The matrix loop in closed form -/

section LoopLemmas

variable {K : Type} [LinearOrderedField K]

theorem loop_cols_eq (upd : Nat → Nat → K → K) (i n : Nat) (m : Mat_rm K) :
    Mat_rm.loop_cols upd i n m =
      { m with data := m.data.mapIdx (fun k a =>
          if i * m.num_cols ≤ k ∧ k < i * m.num_cols + n then upd i (k - i * m.num_cols) a
          else a) } := by
  induction n with
  | zero =>
    simp only [Mat_rm.loop_cols]
    cases m with
    | mk r nc t d =>
      simp only [Mat_rm.mk.injEq, true_and]
      apply List.ext_getElem?
      intro k
      simp only [List.getElem?_mapIdx]
      have : ¬ (i * nc ≤ k ∧ k < i * nc) := by omega
      rcases d[k]? with _ | a <;> simp [this]
  | succ n ih =>
    simp only [Mat_rm.loop_cols, ih, Mat_rm.SET, Mat_rm.GET]
    cases m with
    | mk r nc t d =>
      simp only [Mat_rm.mk.injEq, true_and]
      apply List.ext_getElem?
      intro k
      simp only [List.getElem?_set, List.getElem?_mapIdx, List.length_mapIdx,
        List.getD_eq_getElem?_getD]
      by_cases hk : i * nc + n = k
      · subst hk
        have h1 : ¬ (i * nc ≤ i * nc + n ∧ i * nc + n < i * nc + n) := by omega
        have h2 : (i * nc ≤ i * nc + n ∧ i * nc + n < i * nc + (n + 1)) := by omega
        rcases hd : d[i * nc + n]? with _ | a
        · have : ¬ (i * nc + n < d.length) := by
            intro hlt
            rw [List.getElem?_eq_getElem hlt] at hd
            exact Option.noConfusion hd
          simp [this]
        · have : i * nc + n < d.length := by
            by_contra hge
            rw [List.getElem?_eq_none (by omega)] at hd
            exact Option.noConfusion hd
          simp [this, h1, h2]
      · simp only [hk, if_false]
        have : (i * nc ≤ k ∧ k < i * nc + n) ↔ (i * nc ≤ k ∧ k < i * nc + (n + 1)) := by
          constructor <;> intro h <;> omega
        simp only [this]

theorem loop_rows_eq (upd : Nat → Nat → K → K) (n : Nat) (m : Mat_rm K) :
    Mat_rm.loop_rows upd n m =
      { m with data := m.data.mapIdx (fun k a =>
          if k < n * m.num_cols then upd (k / m.num_cols) (k % m.num_cols) a else a) } := by
  induction n with
  | zero =>
    simp only [Mat_rm.loop_rows]
    cases m with
    | mk r nc t d =>
      simp only [Mat_rm.mk.injEq, true_and]
      apply List.ext_getElem?
      intro k
      simp
  | succ n ih =>
    simp only [Mat_rm.loop_rows, ih, loop_cols_eq]
    cases m with
    | mk r nc t d =>
      simp only [Mat_rm.mk.injEq, true_and]
      apply List.ext_getElem?
      intro k
      simp only [List.getElem?_mapIdx, Option.map_map]
      congr 1
      funext a
      simp only [Function.comp]
      by_cases h1 : k < n * nc
      · have h2 : ¬ (n * nc ≤ k ∧ k < n * nc + nc) := by omega
        have h3 : k < (n + 1) * nc := by rw [Nat.succ_mul]; omega
        simp [h1, h2, h3]
      · by_cases h3 : k < (n + 1) * nc
        · have h2 : (n * nc ≤ k ∧ k < n * nc + nc) := by rw [Nat.succ_mul] at h3; omega
          have hpos : 0 < nc := by
            rcases Nat.eq_zero_or_pos nc with h0 | h0
            · subst h0; simp at h3
            · exact h0
          have hdiv : k / nc = n := by
            exact Nat.div_eq_of_lt_le h2.1 h3
          have hmod : k % nc = k - n * nc := by
            have := Nat.div_add_mod k nc
            rw [hdiv, Nat.mul_comm] at this
            omega
          simp [h1, h2, h3, hdiv, hmod]
        · have h2 : ¬ (n * nc ≤ k ∧ k < n * nc + nc) := by rw [Nat.succ_mul] at h3; omega
          simp [h1, h2, h3]

/-- On a well-formed matrix the loop maps every buffer cell `k`, which is
entry `(k / num_cols, k % num_cols)`, through the body. -/
theorem SIFT3D_MAT_RM_LOOP_eq (upd : Nat → Nat → K → K) (m : Mat_rm K) (h : m.WF) :
    SIFT3D_MAT_RM_LOOP m upd =
      { m with data := m.data.mapIdx (fun k a => upd (k / m.num_cols) (k % m.num_cols) a) } := by
  unfold SIFT3D_MAT_RM_LOOP
  rw [loop_rows_eq]
  cases m with
  | mk r nc t d =>
    simp only [Mat_rm.WF] at h
    simp only [Mat_rm.mk.injEq, true_and]
    apply List.ext_getElem?
    intro k
    simp only [List.getElem?_mapIdx]
    by_cases hk : k < d.length
    · have : k < r * nc := by omega
      simp [this]
    · rw [List.getElem?_eq_none (by omega)]
      simp

theorem SIFT3D_MAT_RM_LOOP_shape (upd : Nat → Nat → K → K) (m : Mat_rm K) :
    (SIFT3D_MAT_RM_LOOP m upd).num_rows = m.num_rows ∧
    (SIFT3D_MAT_RM_LOOP m upd).num_cols = m.num_cols ∧
    (SIFT3D_MAT_RM_LOOP m upd).type = m.type ∧
    (SIFT3D_MAT_RM_LOOP m upd).data.length = m.data.length := by
  unfold SIFT3D_MAT_RM_LOOP
  rw [loop_rows_eq]
  simp

theorem SIFT3D_MAT_RM_LOOP_WF (upd : Nat → Nat → K → K) (m : Mat_rm K) (h : m.WF) :
    (SIFT3D_MAT_RM_LOOP m upd).WF := by
  obtain ⟨h1, h2, _, h4⟩ := SIFT3D_MAT_RM_LOOP_shape upd m
  unfold Mat_rm.WF at *
  rw [h1, h2, h4, h]

/-- Entry `(i, j)` after the loop is the body applied to entry `(i, j)`. -/
theorem SIFT3D_MAT_RM_LOOP_GET (upd : Nat → Nat → K → K) (m : Mat_rm K) (h : m.WF)
    (i j : Nat) (hi : i < m.num_rows) (hj : j < m.num_cols) :
    (SIFT3D_MAT_RM_LOOP m upd).GET i j = upd i j (m.GET i j) := by
  rw [SIFT3D_MAT_RM_LOOP_eq upd m h]
  cases m with
  | mk r nc t d =>
    simp only [Mat_rm.WF] at h
    simp only at hi hj
    have hlt : i * nc + j < d.length := by
      rw [h]
      calc i * nc + j < i * nc + nc := by omega
        _ = (i + 1) * nc := by rw [Nat.succ_mul]
        _ ≤ r * nc := Nat.mul_le_mul_right nc hi
    have hdiv : (i * nc + j) / nc = i :=
      Nat.div_eq_of_lt_le (by omega) (by rw [Nat.succ_mul]; omega)
    have hmod : (i * nc + j) % nc = j := by
      rw [Nat.add_comm, Nat.add_mul_mod_self_right, Nat.mod_eq_of_lt hj]
    simp [Mat_rm.GET, List.getElem?_mapIdx, List.getElem?_eq_getElem hlt, hdiv, hmod]

end LoopLemmas

end SIFT3D

namespace SIFT3D

/-! ## Coordinate converter: `mm2im` and `im2mm` -/

section Converter

variable {W K S Rn H I : Type} [LinearOrderedField K]

theorem at_val (u : Fin IM_NDIMS → K) (j : Fin IM_NDIMS) : at_ u j.val = u j := by
  simp [at_]

theorem mm2im_affine (A : Mat_rm K) (src_units ref_units : Fin IM_NDIMS → K)
    (hrows : A.num_rows = IM_NDIMS) :
    mm2im src_units ref_units (Tform.affine { A := A }) =
      (SIFT3D_SUCCESS, Tform.affine { A := SIFT3D_MAT_RM_LOOP A (fun i j a =>
        a * (if j < IM_NDIMS then at_ ref_units j else 1) / at_ src_units i) }) := by
  simp [mm2im, hrows]

/-- C1, as the code has it: for a well-formed 3 x 4 affine matrix `A` and
positive units, `mm2im` succeeds and the matrix `A'` it leaves sends a
reference voxel `q` to `(A·[q∘ref_units; 1])` divided component-wise by
`src_units`: the converted transform takes reference voxels to source voxels,
the input side being the reference image and the output side the source. -/
theorem mm2im_maps_ref_voxel_to_src_voxel (A : Mat_rm K)
    (src_units ref_units q : Fin IM_NDIMS → K)
    (hwf : A.WF) (hrows : A.num_rows = IM_NDIMS) (hcols : A.num_cols = IM_NDIMS + 1)
    (_hsrc : ∀ i, 0 < src_units i) (_href : ∀ i, 0 < ref_units i) :
    ∃ A' : Mat_rm K,
      mm2im src_units ref_units (Tform.affine { A := A }) =
        (SIFT3D_SUCCESS, Tform.affine { A := A' }) ∧
      ∀ i : Fin IM_NDIMS,
        apply_Affine A' q i = apply_Affine A (fun j => q j * ref_units j) i / src_units i := by
  refine ⟨_, mm2im_affine A src_units ref_units hrows, ?_⟩
  intro i
  have hi : i.val < A.num_rows := by rw [hrows]; exact i.isLt
  have g : ∀ j, j < 4 → (SIFT3D_MAT_RM_LOOP A (fun i j a =>
        a * (if j < IM_NDIMS then at_ ref_units j else 1) / at_ src_units i)).GET i j =
        A.GET i j * (if j < IM_NDIMS then at_ ref_units j else 1) / at_ src_units i := by
    intro j hj
    exact SIFT3D_MAT_RM_LOOP_GET _ A hwf i j hi (by rw [hcols]; exact hj)
  simp only [apply_Affine, g 0 (by omega), g 1 (by omega), g 2 (by omega), g 3 (by omega)]
  have e0 : at_ ref_units 0 = ref_units 0 := at_val ref_units 0
  have e1 : at_ ref_units 1 = ref_units 1 := at_val ref_units 1
  have e2 : at_ ref_units 2 = ref_units 2 := at_val ref_units 2
  simp only [e0, e1, e2, at_val src_units i]
  norm_num
  ring

/-- C1, witness: the statement at `[I | 0]`, 2 mm source and 1 mm reference
voxels and the voxel `(1, 0, 0)`. -/
theorem mm2im_maps_ref_voxel_to_src_voxel_witness :
    Sample.A.WF ∧ Sample.A.num_rows = IM_NDIMS ∧ Sample.A.num_cols = IM_NDIMS + 1 ∧
    (∀ i, 0 < Sample.units2 i) ∧ (∀ i, 0 < Sample.units1 i) ∧
    ∃ A' : Mat_rm ℚ,
      mm2im Sample.units2 Sample.units1 (Tform.affine { A := Sample.A }) =
        (SIFT3D_SUCCESS, Tform.affine { A := A' }) ∧
      ∀ i : Fin IM_NDIMS,
        apply_Affine A' Sample.p i =
          apply_Affine Sample.A (fun j => Sample.p j * Sample.units1 j) i / Sample.units2 i :=
  ⟨by decide, by decide, by decide, by decide, by decide,
    mm2im_maps_ref_voxel_to_src_voxel Sample.A Sample.units2 Sample.units1 Sample.p
      (by decide) (by decide) (by decide) (by decide) (by decide)⟩

/-- C1, counterexample: with `A = [I | 0]`, source voxels of 2 mm and
reference voxels of 1 mm, `mm2im` leaves `A'` with `A'(0,0) = 1/2`, so
`A'·[p; 1]` has first component `1/2` at the source voxel `p = (1, 0, 0)`,
whereas `(A·[p∘src_units; 1]) / ref_units` has first component `2`. -/
theorem mm2im_src_to_ref_counterexample :
    ∃ A' : Mat_rm ℚ,
      mm2im Sample.units2 Sample.units1 (Tform.affine { A := Sample.A }) =
        (SIFT3D_SUCCESS, Tform.affine { A := A' }) ∧
      apply_Affine A' Sample.p 0 = 1 / 2 ∧
      apply_Affine Sample.A (fun j => Sample.p j * Sample.units2 j) 0 / Sample.units1 0 = 2 ∧
      apply_Affine A' Sample.p 0 ≠
        apply_Affine Sample.A (fun j => Sample.p j * Sample.units2 j) 0 / Sample.units1 0 := by
  refine ⟨{ Sample.A with data := [1 / 2, 0, 0, 0, 0, 1 / 2, 0, 0, 0, 0, 1 / 2, 0] }, ?_, ?_, ?_, ?_⟩
  · simp [mm2im, SIFT3D_MAT_RM_LOOP, Mat_rm.loop_rows, Mat_rm.loop_cols, Mat_rm.SET, Mat_rm.GET,
      at_, Sample.A, Sample.units2, Sample.units1]
  · simp [apply_Affine, Mat_rm.GET, Sample.A, Sample.p]
  · simp [apply_Affine, Mat_rm.GET, Sample.A, Sample.p, Sample.units2, Sample.units1]
  · simp [apply_Affine, Mat_rm.GET, Sample.A, Sample.p, Sample.units2, Sample.units1]
    norm_num

/-- C2: for an affine transform whose well-formed matrix `A` has exactly 3
rows, and non-zero `src_units`, `mm2im` succeeds and leaves a matrix of the
same shape, type and buffer length whose entry `(i, j)` is
`A(i,j)·ref_units[j]/src_units[i]` when `j < 3` and `A(i,j)/src_units[i]`
when `j >= 3`; the matrix is all an affine transform holds. -/
theorem mm2im_entries (A : Mat_rm K) (src_units ref_units : Fin IM_NDIMS → K)
    (hwf : A.WF) (hrows : A.num_rows = IM_NDIMS) (_hsrc : ∀ i, src_units i ≠ 0) :
    ∃ A' : Mat_rm K,
      mm2im src_units ref_units (Tform.affine { A := A }) =
        (SIFT3D_SUCCESS, Tform.affine { A := A' }) ∧
      A'.num_rows = A.num_rows ∧ A'.num_cols = A.num_cols ∧ A'.type = A.type ∧
      A'.data.length = A.data.length ∧
      ∀ (i : Fin IM_NDIMS) (j : Nat), j < A.num_cols →
        A'.GET i j =
          if h : j < IM_NDIMS then A.GET i j * ref_units ⟨j, h⟩ / src_units i
          else A.GET i j / src_units i := by
  refine ⟨_, mm2im_affine A src_units ref_units hrows, ?_⟩
  obtain ⟨h1, h2, h3, h4⟩ := SIFT3D_MAT_RM_LOOP_shape (fun i j a =>
        a * (if j < IM_NDIMS then at_ ref_units j else 1) / at_ src_units i) A
  refine ⟨h1, h2, h3, h4, ?_⟩
  intro i j hj
  have hi : i.val < A.num_rows := by rw [hrows]; exact i.isLt
  rw [SIFT3D_MAT_RM_LOOP_GET _ A hwf i j hi hj, at_val src_units i]
  by_cases h : j < IM_NDIMS
  · simp [h, at_]
  · simp [h]

/-- C2, witness: the statement at `[I | 0]` with 2 mm source and 1 mm
reference voxels. -/
theorem mm2im_entries_witness :
    Sample.A.WF ∧ Sample.A.num_rows = IM_NDIMS ∧ (∀ i, Sample.units2 i ≠ 0) ∧
    ∃ A' : Mat_rm ℚ,
      mm2im Sample.units2 Sample.units1 (Tform.affine { A := Sample.A }) =
        (SIFT3D_SUCCESS, Tform.affine { A := A' }) ∧
      A'.num_rows = Sample.A.num_rows ∧ A'.num_cols = Sample.A.num_cols ∧
      A'.type = Sample.A.type ∧ A'.data.length = Sample.A.data.length ∧
      ∀ (i : Fin IM_NDIMS) (j : Nat), j < Sample.A.num_cols →
        A'.GET i j =
          if h : j < IM_NDIMS then Sample.A.GET i j * Sample.units1 ⟨j, h⟩ / Sample.units2 i
          else Sample.A.GET i j / Sample.units2 i :=
  ⟨by decide, by decide, by decide,
    mm2im_entries Sample.A Sample.units2 Sample.units1 (by decide) (by decide) (by decide)⟩

theorem im2mm_ok (c : Collab W K S Rn H I) (e : Env W) (P : Mat_rm K)
    (u : Fin IM_NDIMS → K) (mm : Mat_rm K)
    (hcols : P.num_cols = IM_NDIMS) (htype : P.type = Mat_rm_type.DOUBLE)
    (hok : (c.copy_Mat_rm e.w P mm).ret = 0) (hcopy : c.copy_faithful) :
    im2mm c e P u mm =
      { env := { w := (c.copy_Mat_rm e.w P mm).env, log := e.log ++ [Call.copy_Mat_rm] },
        ret := SIFT3D_SUCCESS,
        val := SIFT3D_MAT_RM_LOOP P (fun _ j a => a * at_ u j) } := by
  simp [im2mm, hcols, htype, call, hok, hcopy e.w P mm hok]

/-- C3: for an N x 3 matrix `P` of doubles and units `u`, when the copy
succeeds `im2mm` succeeds and writes a matrix with the rows, columns, type and
buffer length of `P` whose entry `(i, j)` is `P(i,j)·u[j]`, rows in the same
order.  `P` is passed read-only and is not part of what `im2mm` writes. -/
theorem im2mm_scales_columns (c : Collab W K S Rn H I) (e : Env W) (P : Mat_rm K)
    (u : Fin IM_NDIMS → K) (mm : Mat_rm K)
    (hwf : P.WF) (hcols : P.num_cols = IM_NDIMS) (htype : P.type = Mat_rm_type.DOUBLE)
    (hok : (c.copy_Mat_rm e.w P mm).ret = 0) (hcopy : c.copy_faithful) :
    (im2mm c e P u mm).ret = SIFT3D_SUCCESS ∧
    (im2mm c e P u mm).val.num_rows = P.num_rows ∧
    (im2mm c e P u mm).val.num_cols = P.num_cols ∧
    (im2mm c e P u mm).val.type = P.type ∧
    (im2mm c e P u mm).val.data.length = P.data.length ∧
    ∀ (i : Nat) (j : Fin IM_NDIMS), i < P.num_rows →
      (im2mm c e P u mm).val.GET i j = P.GET i j * u j := by
  rw [im2mm_ok c e P u mm hcols htype hok hcopy]
  obtain ⟨h1, h2, h3, h4⟩ := SIFT3D_MAT_RM_LOOP_shape (fun _ j a => a * at_ u j) P
  refine ⟨rfl, h1, h2, h3, h4, ?_⟩
  intro i j hi
  simp only
  rw [SIFT3D_MAT_RM_LOOP_GET _ P hwf i j hi (by rw [hcols]; exact j.isLt), at_val]

theorem Sample.collab_copy_faithful (est : Int) : (Sample.collab est).copy_faithful := by
  intro w src dst _
  rfl

/-- C3, witness: the statement at a 2 x 3 matrix and 2 mm voxels. -/
theorem im2mm_scales_columns_witness :
    Sample.P.WF ∧ Sample.P.num_cols = IM_NDIMS ∧ Sample.P.type = Mat_rm_type.DOUBLE ∧
    ((Sample.collab 0).copy_Mat_rm Sample.env0.w Sample.P Sample.empty).ret = 0 ∧
    (Sample.collab 0).copy_faithful ∧
    (im2mm (Sample.collab 0) Sample.env0 Sample.P Sample.units2 Sample.empty).ret
      = SIFT3D_SUCCESS ∧
    (im2mm (Sample.collab 0) Sample.env0 Sample.P Sample.units2 Sample.empty).val.num_rows
      = Sample.P.num_rows ∧
    (im2mm (Sample.collab 0) Sample.env0 Sample.P Sample.units2 Sample.empty).val.num_cols
      = Sample.P.num_cols ∧
    (im2mm (Sample.collab 0) Sample.env0 Sample.P Sample.units2 Sample.empty).val.type
      = Sample.P.type ∧
    (im2mm (Sample.collab 0) Sample.env0 Sample.P Sample.units2 Sample.empty).val.data.length
      = Sample.P.data.length ∧
    ∀ (i : Nat) (j : Fin IM_NDIMS), i < Sample.P.num_rows →
      (im2mm (Sample.collab 0) Sample.env0 Sample.P Sample.units2 Sample.empty).val.GET i j
        = Sample.P.GET i j * Sample.units2 j :=
  ⟨by decide, by decide, by decide, by decide, Sample.collab_copy_faithful 0,
    im2mm_scales_columns (Sample.collab 0) Sample.env0 Sample.P Sample.units2 Sample.empty
      (by decide) (by decide) (by decide) (by decide) (Sample.collab_copy_faithful 0)⟩

theorem mapIdx_mapIdx_id {α : Type} (d : List α) (f g : Nat → α → α)
    (h : ∀ k a, g k (f k a) = a) : (d.mapIdx f).mapIdx g = d := by
  apply List.ext_getElem?
  intro k
  simp only [List.getElem?_mapIdx, Option.map_map]
  rcases d[k]? with _ | a
  · rfl
  · simp [h]

/-- In exact arithmetic (no rounding), for an N x 3 matrix `P` of doubles and
positive units `u`, converting `P` with `u` and the result with `1/u` (both
copies succeeding) gives back `P`: same shape, type and entries. -/
theorem im2mm_round_trip_exact (c : Collab W K S Rn H I) (e : Env W) (P : Mat_rm K)
    (u : Fin IM_NDIMS → K) (mm mm' : Mat_rm K)
    (hwf : P.WF) (hcols : P.num_cols = IM_NDIMS) (htype : P.type = Mat_rm_type.DOUBLE)
    (hu : ∀ i, 0 < u i) (hcopy : c.copy_faithful)
    (hok : (c.copy_Mat_rm e.w P mm).ret = 0)
    (hok' : (c.copy_Mat_rm (im2mm c e P u mm).env.w (im2mm c e P u mm).val mm').ret = 0) :
    (im2mm c e P u mm).ret = SIFT3D_SUCCESS ∧
    (im2mm c (im2mm c e P u mm).env (im2mm c e P u mm).val (recip u) mm').ret = SIFT3D_SUCCESS ∧
    (im2mm c (im2mm c e P u mm).env (im2mm c e P u mm).val (recip u) mm').val = P := by
  have h1 := im2mm_ok c e P u mm hcols htype hok hcopy
  obtain ⟨s1, s2, s3, _⟩ := SIFT3D_MAT_RM_LOOP_shape (fun _ j a => a * at_ u j) P
  have hwf1 := SIFT3D_MAT_RM_LOOP_WF (fun _ j a => a * at_ u j) P hwf
  rw [h1] at hok' ⊢
  have h2 := im2mm_ok c { w := (c.copy_Mat_rm e.w P mm).env, log := e.log ++ [Call.copy_Mat_rm] }
    (SIFT3D_MAT_RM_LOOP P (fun _ j a => a * at_ u j)) (recip u) mm'
    (by rw [s2, hcols]) (by rw [s3, htype]) hok' hcopy
  simp only at h2 ⊢
  rw [h2]
  simp only [true_and]
  rw [SIFT3D_MAT_RM_LOOP_eq _ _ hwf1, SIFT3D_MAT_RM_LOOP_eq _ _ hwf]
  cases P with
  | mk r nc t d =>
    simp only at hcols
    subst hcols
    simp only [Mat_rm.mk.injEq, true_and]
    apply mapIdx_mapIdx_id
    intro k a
    have hk : k % IM_NDIMS < IM_NDIMS := Nat.mod_lt k (by decide)
    have e1 : at_ u (k % IM_NDIMS) = u ⟨k % IM_NDIMS, hk⟩ := at_val u ⟨k % IM_NDIMS, hk⟩
    have e2 : at_ (recip u) (k % IM_NDIMS) = 1 / u ⟨k % IM_NDIMS, hk⟩ :=
      at_val (recip u) ⟨k % IM_NDIMS, hk⟩
    rw [e1, e2]
    have hne : u ⟨k % IM_NDIMS, hk⟩ ≠ 0 := ne_of_gt (hu _)
    field_simp

end Converter

end SIFT3D

namespace SIFT3D

/-! ## Feature scaler: `scale_SIFT3D` -/

section Scaler

variable {K H : Type} [LinearOrderedField K]

theorem for_cells_length {α : Type} (body : α → α) (xs : List α) :
    for_cells body xs.length xs = xs.map body := by
  induction xs with
  | nil => rfl
  | cons x xs ih => simp [for_cells, ih]

theorem forall₂_map_of_forall {α : Type} (body : α → α) (Rel : α → α → Prop) (xs : List α)
    (h : ∀ x ∈ xs, Rel x (body x)) : List.Forall₂ Rel xs (xs.map body) := by
  induction xs with
  | nil => exact List.Forall₂.nil
  | cons x xs ih =>
    exact List.Forall₂.cons (h x (List.mem_cons_self x xs))
      (ih (fun y hy => h y (List.mem_cons_of_mem x hy)))

theorem scale_det_eq (f : Fin IM_NDIMS → K) : scale_det f = f 0 * f 1 * f 2 := by
  have e0 : at_ f 0 = f 0 := at_val f 0
  have e1 : at_ f 1 = f 1 := at_val f 1
  have e2 : at_ f 2 = f 2 := at_val f 2
  simp only [scale_det, List.range, List.range.loop, List.foldl, e0, e1, e2, one_mul]

/-- C4: for factors `f` and a store pair whose counts are the buffer lengths
and whose orientation matrices are well formed with at most 3 columns, with
`det = f[0]·f[1]·f[2]` and `scaleFactor = pow(det, -1/3)`, `scale_SIFT3D`
multiplies each keypoint's `x, y, z` by `f[0], f[1], f[2]`, its scale by
`scaleFactor` and entry `(i, j)` of its orientation matrix by `f[j]/det`,
keeping the shape of the matrix and the pyramid indices; it multiplies each
descriptor's `x, y, z` by `f[0], f[1], f[2]` and its scale by `scaleFactor`
and keeps its feature content; the buffers keep their length and order, the
stores their counts. -/
theorem scale_SIFT3D_spec (pow : K → K → K) (f : Fin IM_NDIMS → K) (kp : Keypoint_store K)
    (d : SIFT3D_Descriptor_store K H)
    (hkp : kp.slab.num = kp.buf.length) (hd : d.num = d.buf.length)
    (hR : ∀ key ∈ kp.buf, key.R.WF ∧ key.R.num_cols ≤ IM_NDIMS) :
    List.Forall₂ (fun key key' : Keypoint K =>
        key'.xd = key.xd * f 0 ∧ key'.yd = key.yd * f 1 ∧ key'.zd = key.zd * f 2 ∧
        key'.sd = key.sd * pow (f 0 * f 1 * f 2) (-1 / 3) ∧
        key'.o = key.o ∧ key'.s = key.s ∧
        key'.R.num_rows = key.R.num_rows ∧ key'.R.num_cols = key.R.num_cols ∧
        key'.R.type = key.R.type ∧
        ∀ (i : Nat) (j : Fin IM_NDIMS), i < key.R.num_rows → j.val < key.R.num_cols →
          key'.R.GET i j = key.R.GET i j * (f j / (f 0 * f 1 * f 2)))
      kp.buf (scale_SIFT3D pow f kp d).1.buf ∧
    List.Forall₂ (fun x x' : SIFT3D_Descriptor K H =>
        x'.xd = x.xd * f 0 ∧ x'.yd = x.yd * f 1 ∧ x'.zd = x.zd * f 2 ∧
        x'.sd = x.sd * pow (f 0 * f 1 * f 2) (-1 / 3) ∧ x'.hists = x.hists)
      d.buf (scale_SIFT3D pow f kp d).2.buf ∧
    (scale_SIFT3D pow f kp d).1.slab = kp.slab ∧
    (scale_SIFT3D pow f kp d).2.num = d.num := by
  have hk : kp.slab.num.toNat = kp.buf.length := by rw [hkp]; exact Int.toNat_ofNat _
  have hdn : d.num.toNat = d.buf.length := by rw [hd]; exact Int.toNat_ofNat _
  have h3' : (-1 : K) / ((IM_NDIMS : Nat) : K) = -1 / 3 := by norm_num
  have e : scale_SIFT3D pow f kp d =
      (({ kp with
          buf := List.map (scale_Keypoint f (f 0 * f 1 * f 2) (pow (f 0 * f 1 * f 2) (-1 / 3)))
            kp.buf } : Keypoint_store K),
       ({ d with
          buf := List.map (scale_Descriptor f (pow (f 0 * f 1 * f 2) (-1 / 3))) d.buf } :
        SIFT3D_Descriptor_store K H)) := by
    simp only [scale_SIFT3D, hk, hdn, for_cells_length, scale_det_eq, h3']
  rw [e]
  refine ⟨?_, ?_, rfl, rfl⟩
  · apply forall₂_map_of_forall
    intro key hkey
    obtain ⟨hwf, hnc⟩ := hR key hkey
    obtain ⟨h1, h2, h3, _⟩ := SIFT3D_MAT_RM_LOOP_shape
      (fun _ j a => a * (at_ f j / (f 0 * f 1 * f 2))) key.R
    refine ⟨rfl, rfl, rfl, rfl, rfl, rfl, h1, h2, h3, ?_⟩
    · intro i j hi hj
      simp only [scale_Keypoint]
      rw [SIFT3D_MAT_RM_LOOP_GET _ key.R hwf i j hi hj, at_val]
  · apply forall₂_map_of_forall
    intro x _
    exact ⟨rfl, rfl, rfl, rfl, rfl⟩

theorem for_cells_for_cells_id {α : Type} (f g : α → α) (n : Nat) (xs : List α)
    (h : ∀ x ∈ xs, g (f x) = x) : for_cells g n (for_cells f n xs) = xs := by
  induction n generalizing xs with
  | zero => rfl
  | succ n ih =>
    cases xs with
    | nil => rfl
    | cons x xs =>
      simp only [for_cells]
      rw [h x (List.mem_cons_self x xs), ih xs (fun y hy => h y (List.mem_cons_of_mem x hy))]

theorem mapIdx_mapIdx_id_of_lt {α : Type} (d : List α) (f g : Nat → α → α)
    (h : ∀ k a, k < d.length → g k (f k a) = a) : (d.mapIdx f).mapIdx g = d := by
  apply List.ext_getElem?
  intro k
  simp only [List.getElem?_mapIdx, Option.map_map]
  by_cases hk : k < d.length
  · rw [List.getElem?_eq_getElem hk]
    simp [h k _ hk]
  · rw [List.getElem?_eq_none (by omega)]
    rfl

theorem scale_factor_round_trip (f : Fin IM_NDIMS → ℝ) (hf : ∀ i, 0 < f i) (y : ℝ) :
    Real.rpow (scale_det f) y * Real.rpow (scale_det (recip f)) y = 1 := by
  have h0 := hf 0
  have h1 := hf 1
  have h2 := hf 2
  have hpos : 0 < f 0 * f 1 * f 2 := by positivity
  have hinv : scale_det (recip f) = (f 0 * f 1 * f 2)⁻¹ := by
    rw [scale_det_eq]
    simp only [recip]
    field_simp
  rw [scale_det_eq, hinv, Real.rpow_eq_pow, Real.rpow_eq_pow,
    ← Real.mul_rpow (le_of_lt hpos) (le_of_lt (inv_pos.mpr hpos)),
    mul_inv_cancel₀ (ne_of_gt hpos), Real.one_rpow]

theorem scale_Keypoint_round_trip (f : Fin IM_NDIMS → ℝ) (hf : ∀ i, 0 < f i) (y : ℝ)
    (key : Keypoint ℝ) (hwf : key.R.WF) (hnc : key.R.num_cols ≤ IM_NDIMS) :
    scale_Keypoint (recip f) (scale_det (recip f)) (Real.rpow (scale_det (recip f)) y)
      (scale_Keypoint f (scale_det f) (Real.rpow (scale_det f) y) key) = key := by
  have h0 := hf 0
  have h1 := hf 1
  have h2 := hf 2
  have hsf := scale_factor_round_trip f hf y
  cases key with
  | mk R xd yd zd sd o s =>
    simp only at hwf hnc
    have hwf1 := SIFT3D_MAT_RM_LOOP_WF (fun _ j a => a * (at_ f j / scale_det f)) R hwf
    simp only [scale_Keypoint, Keypoint.mk.injEq, and_true]
    refine ⟨?_, ?_, ?_, ?_, ?_⟩
    · rw [SIFT3D_MAT_RM_LOOP_eq _ _ hwf1, SIFT3D_MAT_RM_LOOP_eq _ _ hwf]
      cases R with
      | mk r nc t d =>
        simp only [Mat_rm.WF] at hwf
        simp only at hnc
        simp only [Mat_rm.mk.injEq, true_and]
        apply mapIdx_mapIdx_id_of_lt
        intro k a hk
        have hncpos : 0 < nc := by
          rcases Nat.eq_zero_or_pos nc with h | h
          · subst h; simp at hwf; rw [hwf] at hk; exact absurd hk (Nat.not_lt_zero _)
          · exact h
        have hj : k % nc < IM_NDIMS := lt_of_lt_of_le (Nat.mod_lt k hncpos) hnc
        have e1 : at_ f (k % nc) = f ⟨k % nc, hj⟩ := at_val f ⟨k % nc, hj⟩
        have e2 : at_ (recip f) (k % nc) = 1 / f ⟨k % nc, hj⟩ := at_val (recip f) ⟨k % nc, hj⟩
        have hfj := hf ⟨k % nc, hj⟩
        rw [e1, e2, scale_det_eq, scale_det_eq]
        simp only [recip]
        field_simp
    · simp only [recip]; field_simp
    · simp only [recip]; field_simp
    · simp only [recip]; field_simp
    · rw [mul_assoc, hsf, mul_one]

theorem scale_Descriptor_round_trip (f : Fin IM_NDIMS → ℝ) (hf : ∀ i, 0 < f i) (y : ℝ)
    (x : SIFT3D_Descriptor ℝ H) :
    scale_Descriptor (recip f) (Real.rpow (scale_det (recip f)) y)
      (scale_Descriptor f (Real.rpow (scale_det f) y) x) = x := by
  have h0 := hf 0
  have h1 := hf 1
  have h2 := hf 2
  have hsf := scale_factor_round_trip f hf y
  cases x with
  | mk hists xd yd zd sd =>
    simp only [scale_Descriptor, SIFT3D_Descriptor.mk.injEq, true_and]
    refine ⟨?_, ?_, ?_, ?_⟩
    · simp only [recip]; field_simp
    · simp only [recip]; field_simp
    · simp only [recip]; field_simp
    · rw [mul_assoc, hsf, mul_one]

/-- C5: in real arithmetic, with `pow` the real power function, for positive
factors `f` and orientation matrices that are well formed with at most 3
columns, `scale_SIFT3D` with `f` followed by `scale_SIFT3D` with `1/f` gives
back both stores: every keypoint coordinate, scale and orientation entry and
every descriptor coordinate and scale has its original value. -/
theorem scale_SIFT3D_round_trip (f : Fin IM_NDIMS → ℝ) (kp : Keypoint_store ℝ)
    (d : SIFT3D_Descriptor_store ℝ H) (hf : ∀ i, 0 < f i)
    (hR : ∀ key ∈ kp.buf, key.R.WF ∧ key.R.num_cols ≤ IM_NDIMS) :
    scale_SIFT3D Real.rpow (recip f) (scale_SIFT3D Real.rpow f kp d).1
      (scale_SIFT3D Real.rpow f kp d).2 = (kp, d) := by
  cases kp with
  | mk kbuf slab nx ny nz =>
    cases d with
    | mk dbuf num dx dy dz =>
      simp only at hR
      simp only [scale_SIFT3D, Prod.mk.injEq, Keypoint_store.mk.injEq,
        SIFT3D_Descriptor_store.mk.injEq, and_true]
      constructor
      · apply for_cells_for_cells_id
        intro key hkey
        exact scale_Keypoint_round_trip f hf _ key (hR key hkey).1 (hR key hkey).2
      · apply for_cells_for_cells_id
        intro x _
        exact scale_Descriptor_round_trip f hf _ x

/-- C5, witness: the round trip of one keypoint and descriptor through the
factors `(2, 2, 2)`. -/
theorem scale_SIFT3D_round_trip_witness :
    (∀ i, 0 < Sample.factors2 ℝ i) ∧
    scale_SIFT3D Real.rpow (recip (Sample.factors2 ℝ))
      (scale_SIFT3D Real.rpow (Sample.factors2 ℝ) (Sample.kp ℝ) (Sample.desc ℝ)).1
      (scale_SIFT3D Real.rpow (Sample.factors2 ℝ) (Sample.kp ℝ) (Sample.desc ℝ)).2
      = (Sample.kp ℝ, Sample.desc ℝ) :=
  ⟨fun i => by fin_cases i <;> simp [Sample.factors2],
    scale_SIFT3D_round_trip (Sample.factors2 ℝ) (Sample.kp ℝ) (Sample.desc ℝ)
      (fun i => by fin_cases i <;> simp [Sample.factors2])
      (by simp [Sample.kp, Sample.key, Mat_rm.WF])⟩

/-- C4, witness: the statement at one keypoint and descriptor and the
factors `(2, 2, 2)`. -/
theorem scale_SIFT3D_spec_witness :
    (Sample.kp ℚ).slab.num = (Sample.kp ℚ).buf.length ∧
    (Sample.desc ℚ).num = (Sample.desc ℚ).buf.length ∧
    (∀ key ∈ (Sample.kp ℚ).buf, key.R.WF ∧ key.R.num_cols ≤ IM_NDIMS) ∧
    List.Forall₂ (fun x x' : SIFT3D_Descriptor ℚ Unit =>
        x'.xd = x.xd * Sample.factors2 ℚ 0 ∧ x'.yd = x.yd * Sample.factors2 ℚ 1 ∧
        x'.zd = x.zd * Sample.factors2 ℚ 2 ∧
        x'.sd = x.sd * Sample.pow
          (Sample.factors2 ℚ 0 * Sample.factors2 ℚ 1 * Sample.factors2 ℚ 2) (-1 / 3) ∧
        x'.hists = x.hists)
      (Sample.desc ℚ).buf
      (scale_SIFT3D Sample.pow (Sample.factors2 ℚ) (Sample.kp ℚ) (Sample.desc ℚ)).2.buf ∧
    (scale_SIFT3D Sample.pow (Sample.factors2 ℚ) (Sample.kp ℚ) (Sample.desc ℚ)).1.slab
      = (Sample.kp ℚ).slab ∧
    (scale_SIFT3D Sample.pow (Sample.factors2 ℚ) (Sample.kp ℚ) (Sample.desc ℚ)).2.num
      = (Sample.desc ℚ).num :=
  ⟨by decide, by decide, by decide,
    (scale_SIFT3D_spec Sample.pow (Sample.factors2 ℚ) (Sample.kp ℚ) (Sample.desc ℚ)
      (by decide) (by decide) (by decide)).2⟩

end Scaler

end SIFT3D

namespace SIFT3D

/-! ## Registration session -/

section Session

variable {W K S Rn H I : Type} [LinearOrderedField K]

/-- C7: when the source descriptor store is empty (`num <= 0`), or it is not
and the reference descriptor store is empty, `register_SIFT3D` returns
failure and nothing else happens: the environment, log included, is the one
before the call (no library function, the matcher in particular, was called),
and the session, with its match list and coordinate matrices, and the caller's
transform are unchanged. -/
theorem register_SIFT3D_no_features (c : Collab W K S Rn H I) (e : Env W)
    (reg : Reg_SIFT3D K S Rn H) (tform : Option (Tform K))
    (h : reg.desc_src.num ≤ 0 ∨ (0 < reg.desc_src.num ∧ reg.desc_ref.num ≤ 0)) :
    register_SIFT3D c e reg tform = { env := e, ret := SIFT3D_FAILURE, val := (reg, tform) } := by
  unfold register_SIFT3D
  rcases h with h | ⟨h1, h2⟩
  · rw [if_pos h]
  · rw [if_neg (not_le.mpr h1), if_pos h2]

/-- C7, witness: registration on a session without features. -/
theorem register_SIFT3D_no_features_witness :
    (Sample.blank.desc_src.num ≤ 0 ∨
      (0 < Sample.blank.desc_src.num ∧ Sample.blank.desc_ref.num ≤ 0)) ∧
    register_SIFT3D (Sample.collab 0) Sample.env0 Sample.blank (some (Tform.affine { A := Sample.A }))
      = { env := Sample.env0, ret := SIFT3D_FAILURE,
          val := (Sample.blank, some (Tform.affine { A := Sample.A })) } :=
  ⟨by decide, register_SIFT3D_no_features (Sample.collab 0) Sample.env0 Sample.blank
      (some (Tform.affine { A := Sample.A })) (by decide)⟩

/-- C8: with both descriptor stores non-empty and a null transform,
`register_SIFT3D` runs the matcher on the two stores, the threshold and the
current list, and stores the list it returns; when the matcher succeeds it
runs the coordinate extraction and stores the two matrices it returns; it
reports success exactly when both steps report success; the log grows by the
matcher call, followed by the extraction call when the matcher succeeded, and
nothing else (no `im2mm`, no estimator, no `mm2im`); the session is otherwise
unchanged and the transform stays null. -/
theorem register_SIFT3D_matching_only (c : Collab W K S Rn H I) (e : Env W)
    (reg : Reg_SIFT3D K S Rn H) (hsrc : 0 < reg.desc_src.num) (href : 0 < reg.desc_ref.num) :
    ((register_SIFT3D c e reg none).ret = SIFT3D_SUCCESS ↔
      (c.SIFT3D_nn_match_fb e.w reg.desc_src reg.desc_ref reg.nn_thresh reg.matches_).ret = 0 ∧
      (c.SIFT3D_matches_to_Mat_rm
        (c.SIFT3D_nn_match_fb e.w reg.desc_src reg.desc_ref reg.nn_thresh reg.matches_).env
        reg.desc_src reg.desc_ref
        (c.SIFT3D_nn_match_fb e.w reg.desc_src reg.desc_ref reg.nn_thresh reg.matches_).val
        reg.match_src reg.match_ref).ret = 0) ∧
    (register_SIFT3D c e reg none).val.1.matches_ =
      (c.SIFT3D_nn_match_fb e.w reg.desc_src reg.desc_ref reg.nn_thresh reg.matches_).val ∧
    ((c.SIFT3D_nn_match_fb e.w reg.desc_src reg.desc_ref reg.nn_thresh reg.matches_).ret = 0 →
      (register_SIFT3D c e reg none).val.1 =
        { reg with
          matches_ :=
            (c.SIFT3D_nn_match_fb e.w reg.desc_src reg.desc_ref reg.nn_thresh reg.matches_).val
          match_src := (c.SIFT3D_matches_to_Mat_rm
            (c.SIFT3D_nn_match_fb e.w reg.desc_src reg.desc_ref reg.nn_thresh reg.matches_).env
            reg.desc_src reg.desc_ref
            (c.SIFT3D_nn_match_fb e.w reg.desc_src reg.desc_ref reg.nn_thresh reg.matches_).val
            reg.match_src reg.match_ref).val.1
          match_ref := (c.SIFT3D_matches_to_Mat_rm
            (c.SIFT3D_nn_match_fb e.w reg.desc_src reg.desc_ref reg.nn_thresh reg.matches_).env
            reg.desc_src reg.desc_ref
            (c.SIFT3D_nn_match_fb e.w reg.desc_src reg.desc_ref reg.nn_thresh reg.matches_).val
            reg.match_src reg.match_ref).val.2 } ∧
      (register_SIFT3D c e reg none).env.log =
        e.log ++ [Call.nn_match_fb, Call.matches_to_Mat_rm]) ∧
    ((c.SIFT3D_nn_match_fb e.w reg.desc_src reg.desc_ref reg.nn_thresh reg.matches_).ret ≠ 0 →
      (register_SIFT3D c e reg none).val.1 =
        { reg with
          matches_ :=
            (c.SIFT3D_nn_match_fb e.w reg.desc_src reg.desc_ref reg.nn_thresh reg.matches_).val } ∧
      (register_SIFT3D c e reg none).env.log = e.log ++ [Call.nn_match_fb]) ∧
    (register_SIFT3D c e reg none).val.2 = none := by
  unfold register_SIFT3D
  rw [if_neg (not_le.mpr hsrc), if_neg (not_le.mpr href)]
  simp only [call]
  by_cases h1 : (c.SIFT3D_nn_match_fb e.w reg.desc_src reg.desc_ref reg.nn_thresh
      reg.matches_).ret = 0
  · by_cases h2 : (c.SIFT3D_matches_to_Mat_rm
        (c.SIFT3D_nn_match_fb e.w reg.desc_src reg.desc_ref reg.nn_thresh reg.matches_).env
        reg.desc_src reg.desc_ref
        (c.SIFT3D_nn_match_fb e.w reg.desc_src reg.desc_ref reg.nn_thresh reg.matches_).val
        reg.match_src reg.match_ref).ret = 0
    · simp [h1, h2]
    · simp [h1, h2, SIFT3D_FAILURE, SIFT3D_SUCCESS]
  · simp [h1, SIFT3D_FAILURE, SIFT3D_SUCCESS]

/-- C8, witness: matching-only registration on a session holding one
descriptor per image. -/
theorem register_SIFT3D_matching_only_witness :
    0 < Sample.loaded.desc_src.num ∧ 0 < Sample.loaded.desc_ref.num ∧
    (register_SIFT3D (Sample.collab 0) Sample.env0 Sample.loaded none).val.1.matches_ =
      ((Sample.collab 0).SIFT3D_nn_match_fb Sample.env0.w Sample.loaded.desc_src
        Sample.loaded.desc_ref Sample.loaded.nn_thresh Sample.loaded.matches_).val ∧
    (register_SIFT3D (Sample.collab 0) Sample.env0 Sample.loaded none).val.2 = none :=
  ⟨by decide, by decide,
    (register_SIFT3D_matching_only (Sample.collab 0) Sample.env0 Sample.loaded
      (by decide) (by decide)).2.1,
    (register_SIFT3D_matching_only (Sample.collab 0) Sample.env0 Sample.loaded
      (by decide) (by decide)).2.2.2.2⟩

/-- C9: `set_nn_thresh_Reg_SIFT3D` succeeds if and only if `0 < t <= 1`; on
success the session is the old one with the threshold set to `t`; otherwise it
returns failure and the session, threshold included, is unchanged. -/
theorem set_nn_thresh_Reg_SIFT3D_spec (reg : Reg_SIFT3D K S Rn H) (t : K) :
    ((set_nn_thresh_Reg_SIFT3D reg t).1 = SIFT3D_SUCCESS ↔ 0 < t ∧ t ≤ 1) ∧
    ((set_nn_thresh_Reg_SIFT3D reg t).1 = SIFT3D_SUCCESS →
      (set_nn_thresh_Reg_SIFT3D reg t).2 = { reg with nn_thresh := t }) ∧
    ((set_nn_thresh_Reg_SIFT3D reg t).1 ≠ SIFT3D_SUCCESS →
      (set_nn_thresh_Reg_SIFT3D reg t).1 = SIFT3D_FAILURE ∧
      (set_nn_thresh_Reg_SIFT3D reg t).2 = reg) := by
  unfold set_nn_thresh_Reg_SIFT3D
  by_cases h : t ≤ 0 ∨ t > 1
  · rw [if_pos h]
    have : ¬ (0 < t ∧ t ≤ 1) := by
      rintro ⟨h1, h2⟩
      rcases h with h | h
      · exact absurd h1 (not_lt.mpr h)
      · exact absurd h (not_lt.mpr h2)
    simp [SIFT3D_FAILURE, SIFT3D_SUCCESS, this]
  · rw [if_neg h]
    have : 0 < t ∧ t ≤ 1 := by
      constructor
      · exact not_le.mp (fun h' => h (Or.inl h'))
      · exact not_lt.mp (fun h' => h (Or.inr h'))
    simp [SIFT3D_SUCCESS, this]

end Session

/-! ## The match accessor after sequences of operations -/

section Sequences

variable {W K S Rn H I : Type} [LinearOrderedField K]

theorem mem_im2mm_log (c : Collab W K S Rn H I) (e : Env W) (im : Mat_rm K)
    (u : Fin IM_NDIMS → K) (mm : Mat_rm K) (x : Call) (hx : x ∈ e.log) :
    x ∈ (im2mm c e im u mm).env.log := by
  unfold im2mm
  simp only [call]
  split_ifs <;> simp [hx]

omit [LinearOrderedField K] in
theorem mem_set_src_log (c : Collab W K S Rn H I) (e : Env W) (reg : Reg_SIFT3D K S Rn H)
    (im : Image K I) (x : Call) (hx : x ∈ e.log) :
    x ∈ (set_src_Reg_SIFT3D c e reg im).env.log := by
  unfold set_src_Reg_SIFT3D
  simp only [call]
  split_ifs <;> simp [hx]

omit [LinearOrderedField K] in
theorem mem_set_ref_log (c : Collab W K S Rn H I) (e : Env W) (reg : Reg_SIFT3D K S Rn H)
    (im : Image K I) (x : Call) (hx : x ∈ e.log) :
    x ∈ (set_ref_Reg_SIFT3D c e reg im).env.log := by
  unfold set_ref_Reg_SIFT3D
  simp only [call]
  split_ifs <;> simp [hx]

omit [LinearOrderedField K] in
theorem set_src_matches (c : Collab W K S Rn H I) (e : Env W) (reg : Reg_SIFT3D K S Rn H)
    (im : Image K I) : (set_src_Reg_SIFT3D c e reg im).val.matches_ = reg.matches_ := by
  unfold set_src_Reg_SIFT3D
  simp only [call]
  split_ifs <;> rfl

omit [LinearOrderedField K] in
theorem set_ref_matches (c : Collab W K S Rn H I) (e : Env W) (reg : Reg_SIFT3D K S Rn H)
    (im : Image K I) : (set_ref_Reg_SIFT3D c e reg im).val.matches_ = reg.matches_ := by
  unfold set_ref_Reg_SIFT3D
  simp only [call]
  split_ifs <;> rfl

omit [LinearOrderedField K] in
theorem mem_quit_log {α : Type} (c : Collab W K S Rn H I) (e : Env W) (a b : Mat_rm K)
    (out : α) (x : Call) (hx : x ∈ e.log) :
    x ∈ (register_SIFT3D_quit c e a b out).env.log := by
  simp [register_SIFT3D_quit, call_void, hx]

theorem mem_call_log {α : Type} (tag : Call) (f : W → Ret W α) (e : Env W) (x : Call)
    (hx : x ∈ e.log) : x ∈ (call tag f e).env.log := by
  simp [call, hx]

theorem mem_register_tform_log (c : Collab W K S Rn H I) (e : Env W)
    (reg : Reg_SIFT3D K S Rn H) (t : Tform K) (x : Call) (hx : x ∈ e.log) :
    x ∈ (register_SIFT3D_tform c e reg t).env.log := by
  unfold register_SIFT3D_tform
  lift_lets
  extract_lets r3 r4 r5 r6 r7 r8 e8 e9 e10
  have h3 : x ∈ r3.env.log := mem_call_log _ _ _ _ hx
  clear_value r3
  have h4 : x ∈ r4.env.log := mem_call_log _ _ _ _ h3
  clear_value r4
  have h5 : x ∈ r5.env.log := mem_im2mm_log _ _ _ _ _ _ (by simp [note, h4])
  clear_value r5
  have h6 : x ∈ r6.env.log := mem_im2mm_log _ _ _ _ _ _ (by simp [note, h5])
  clear_value r6
  have h7 : x ∈ r7.env.log := mem_call_log _ _ _ _ h6
  clear_value r7
  have h8 : x ∈ e8.log := by simp [e8, note, h7]
  clear_value e8
  have h10 : x ∈ e10.log := by simp [e10, e9, call_void, h8]
  clear_value e10
  split_ifs
  · exact h3
  · exact h4
  · exact mem_quit_log _ _ _ _ _ _ h5
  · exact mem_quit_log _ _ _ _ _ _ h6
  · exact mem_quit_log _ _ _ _ _ _ h7
  · exact mem_quit_log _ _ _ _ _ _ h8
  · exact h10

theorem mem_register_log (c : Collab W K S Rn H I) (e : Env W) (reg : Reg_SIFT3D K S Rn H)
    (tform : Option (Tform K)) (x : Call)
    (hx : x ∈ e.log ∨ (x = Call.nn_match_fb ∧ 0 < reg.desc_src.num ∧ 0 < reg.desc_ref.num)) :
    x ∈ (register_SIFT3D c e reg tform).env.log := by
  unfold register_SIFT3D
  by_cases c1 : reg.desc_src.num ≤ 0
  · rw [if_pos c1]
    rcases hx with hx | ⟨_, h, _⟩
    · exact hx
    · exact absurd h (not_lt.mpr c1)
  rw [if_neg c1]
  by_cases c2 : reg.desc_ref.num ≤ 0
  · rw [if_pos c2]
    rcases hx with hx | ⟨_, _, h⟩
    · exact hx
    · exact absurd h (not_lt.mpr c2)
  rw [if_neg c2]
  have h0 : x ∈ e.log ++ [Call.nn_match_fb] := by
    rcases hx with hx | ⟨hx, _, _⟩
    · exact List.mem_append_left _ hx
    · simp [hx]
  clear hx
  lift_lets
  extract_lets r1 reg1 r2 reg2
  have h1 : x ∈ r1.env.log := h0
  clear_value r1
  have h2 : x ∈ r2.env.log := mem_call_log _ _ _ _ h1
  clear_value r2
  split_ifs
  · exact h1
  · exact h2
  · cases tform with
    | none => exact h2
    | some t => exact mem_register_tform_log c _ _ t x h2

theorem register_SIFT3D_checks_fail (c : Collab W K S Rn H I) (e : Env W)
    (reg : Reg_SIFT3D K S Rn H) (tform : Option (Tform K))
    (h : reg.desc_src.num ≤ 0 ∨ reg.desc_ref.num ≤ 0) :
    register_SIFT3D c e reg tform = { env := e, ret := SIFT3D_FAILURE, val := (reg, tform) } := by
  unfold register_SIFT3D
  by_cases c1 : reg.desc_src.num ≤ 0
  · rw [if_pos c1]
  · rw [if_neg c1, if_pos (h.resolve_left c1)]

theorem register_matches_of_not_mem (c : Collab W K S Rn H I) (e : Env W)
    (reg : Reg_SIFT3D K S Rn H) (tform : Option (Tform K))
    (h : Call.nn_match_fb ∉ (register_SIFT3D c e reg tform).env.log) :
    (register_SIFT3D c e reg tform).val.1.matches_ = reg.matches_ := by
  by_cases c1 : reg.desc_src.num ≤ 0
  · rw [register_SIFT3D_checks_fail c e reg tform (Or.inl c1)]
  by_cases c2 : reg.desc_ref.num ≤ 0
  · rw [register_SIFT3D_checks_fail c e reg tform (Or.inr c2)]
  exact absurd (mem_register_log c e reg tform _ (Or.inr ⟨rfl, not_le.mp c1, not_le.mp c2⟩)) h

omit [LinearOrderedField K] in
theorem mem_interp_quit_log {α : Type} (c : Collab W K S Rn H I) (e : Env W)
    (a b : Image K I) (out : α) (x : Call) (hx : x ∈ e.log) :
    x ∈ (register_interp_quit c e a b out).env.log := by
  simp [register_interp_quit, call_void, hx]

theorem resample_matches_of_not_mem (c : Collab W K S Rn H I) (e : Env W)
    (reg : Reg_SIFT3D K S Rn H) (src ref : Image K I) (interp : interp_type)
    (tform : Option (Tform K))
    (h : Call.nn_match_fb ∉ (register_SIFT3D_resample c e reg src ref interp tform).env.log) :
    (register_SIFT3D_resample c e reg src ref interp tform).val.1.matches_ = reg.matches_ := by
  generalize hr : register_SIFT3D_resample c e reg src ref interp tform = r at h ⊢
  unfold register_SIFT3D_resample at hr
  by_cases hu : src.units = ref.units
  · rw [if_pos hu] at hr
    lift_lets at hr
    extract_lets r1 r2 r3 at hr
    have m1 : r1.val.matches_ = reg.matches_ := set_src_matches c e reg src
    have m2 : r2.val.matches_ = r1.val.matches_ := set_ref_matches c r1.env r1.val ref
    have m3 : Call.nn_match_fb ∉ r3.env.log → r3.val.1.matches_ = r2.val.matches_ :=
      register_matches_of_not_mem c r2.env r2.val tform
    clear_value r3 r2 r1
    split_ifs at hr <;> subst hr
    · exact m1
    · exact m2.trans m1
    · exact (m3 h).trans (m2.trans m1)
    · exact (m3 h).trans (m2.trans m1)
  · rw [if_neg hu] at hr
    lift_lets at hr
    extract_lets units_min factors_src factors_ref q1 q2 r1 r2 s1 s2 reg2 reg3 e3 r3 e4 e5 at hr
    have m1 : r1.val.matches_ = reg.matches_ := set_src_matches c _ reg _
    have m2 : r2.val.matches_ = r1.val.matches_ := set_ref_matches c r1.env r1.val _
    have m3 : Call.nn_match_fb ∉ r3.env.log → r3.val.1.matches_ = reg3.matches_ :=
      register_matches_of_not_mem c e3 reg3 tform
    have m4 : reg3.matches_ = r2.val.matches_ := rfl
    clear_value reg2
    have m5 : Call.nn_match_fb ∈ r3.env.log → Call.nn_match_fb ∈ e5.log := by
      intro hm
      simp [e5, e4, call_void, hm]
    clear_value r3 reg3 r2 r1 e5
    split_ifs at hr <;> subst hr
    · rfl
    · rfl
    · exact m1
    · exact m2.trans m1
    · exact (m3 (fun hm => h (mem_interp_quit_log _ _ _ _ _ _ hm))).trans (m4.trans (m2.trans m1))
    · exact (m3 (fun hm => h (m5 hm))).trans (m4.trans (m2.trans m1))

theorem mem_resample_log (c : Collab W K S Rn H I) (e : Env W)
    (reg : Reg_SIFT3D K S Rn H) (src ref : Image K I) (interp : interp_type)
    (tform : Option (Tform K)) (x : Call) (hx : x ∈ e.log) :
    x ∈ (register_SIFT3D_resample c e reg src ref interp tform).env.log := by
  unfold register_SIFT3D_resample
  by_cases hu : src.units = ref.units
  · rw [if_pos hu]
    lift_lets
    extract_lets r1 r2 r3
    have h1 : x ∈ r1.env.log := mem_set_src_log c e reg src x hx
    have h2 : x ∈ r2.env.log := mem_set_ref_log c r1.env r1.val ref x h1
    have h3 : x ∈ r3.env.log := mem_register_log c r2.env r2.val tform x (Or.inl h2)
    clear_value r3 r2 r1
    split_ifs
    · exact h1
    · exact h2
    · exact h3
    · exact h3
  · rw [if_neg hu]
    lift_lets
    extract_lets units_min factors_src factors_ref q1 q2 r1 r2 s1 s2 reg2 reg3 e3 r3 e4 e5
    have g1 : x ∈ q1.env.log := mem_call_log _ _ _ _ hx
    have g2 : x ∈ q2.env.log := mem_call_log _ _ _ _ g1
    have h1 : x ∈ r1.env.log := mem_set_src_log c _ reg _ x g2
    have h2 : x ∈ r2.env.log := mem_set_ref_log c r1.env r1.val _ x h1
    have h3 : x ∈ r3.env.log :=
      mem_register_log c e3 reg3 tform x (Or.inl (by simp [e3, note, h2]))
    have h5 : x ∈ e5.log := by simp [e5, e4, call_void, h3]
    clear_value r3 reg3 r2 r1 e5 q2 q1
    split_ifs
    · exact mem_interp_quit_log _ _ _ _ _ _ g1
    · exact mem_interp_quit_log _ _ _ _ _ _ g2
    · exact mem_interp_quit_log _ _ _ _ _ _ h1
    · exact mem_interp_quit_log _ _ _ _ _ _ h2
    · exact mem_interp_quit_log _ _ _ _ _ _ h3
    · exact h5

theorem mem_step_log (c : Collab W K S Rn H I) (e : Env W) (reg : Reg_SIFT3D K S Rn H)
    (op : Op K S Rn I) (x : Call) (hx : x ∈ e.log) : x ∈ (step c e reg op).env.log := by
  cases op with
  | set_nn_thresh t => exact hx
  | set_Ransac ran => simp [step, set_Ransac_Reg_SIFT3D, call, hx]
  | set_SIFT3D s => simp [step, set_SIFT3D_Reg_SIFT3D, call, hx]
  | set_src im => exact mem_set_src_log c e reg im x hx
  | set_ref im => exact mem_set_ref_log c e reg im x hx
  | register tform => exact mem_register_log c e reg tform x (Or.inl hx)
  | register_resample src ref interp tform =>
    exact mem_resample_log c e reg src ref interp tform x hx

theorem step_matches_of_not_mem (c : Collab W K S Rn H I) (e : Env W)
    (reg : Reg_SIFT3D K S Rn H) (op : Op K S Rn I)
    (h : Call.nn_match_fb ∉ (step c e reg op).env.log) :
    (step c e reg op).val.matches_ = reg.matches_ := by
  cases op with
  | set_nn_thresh t =>
    simp only [step, set_nn_thresh_Reg_SIFT3D]
    split_ifs <;> rfl
  | set_Ransac ran => rfl
  | set_SIFT3D s => rfl
  | set_src im => exact set_src_matches c e reg im
  | set_ref im => exact set_ref_matches c e reg im
  | register tform => exact register_matches_of_not_mem c e reg tform h
  | register_resample src ref interp tform =>
    exact resample_matches_of_not_mem c e reg src ref interp tform h

theorem mem_run_log (c : Collab W K S Rn H I) (ops : List (Op K S Rn I)) :
    ∀ (e : Env W) (reg : Reg_SIFT3D K S Rn H) (x : Call),
      x ∈ e.log → x ∈ (run c e reg ops).1.env.log := by
  induction ops with
  | nil => intro e reg x hx; exact hx
  | cons op ops ih =>
    intro e reg x hx
    exact ih _ _ x (mem_step_log c e reg op x hx)

theorem run_matches_of_not_mem (c : Collab W K S Rn H I) (ops : List (Op K S Rn I)) :
    ∀ (e : Env W) (reg : Reg_SIFT3D K S Rn H),
      Call.nn_match_fb ∉ (run c e reg ops).1.env.log →
      (run c e reg ops).1.val.matches_ = reg.matches_ := by
  induction ops with
  | nil => intro e reg _; rfl
  | cons op ops ih =>
    intro e reg h
    have h1 : Call.nn_match_fb ∉ (step c e reg op).env.log :=
      fun hm => h (mem_run_log c ops _ _ _ hm)
    exact (ih _ _ h).trans (step_matches_of_not_mem c e reg op h1)

theorem init_matches (c : Collab W K S Rn H I) (e : Env W) (reg : Reg_SIFT3D K S Rn H) :
    (init_Reg_SIFT3D c e reg).val.matches_ = none := by
  unfold init_Reg_SIFT3D
  lift_lets
  extract_lets reg0 r1 reg1 r2 reg2 r3 reg3
  have m3 : reg3.matches_ = none := rfl
  have m2 : reg2.matches_ = none := rfl
  have m1 : reg1.matches_ = none := rfl
  clear_value reg3 reg2 reg1
  split_ifs
  · exact m1
  · exact m2
  · exact m3
  · exact m3

/-- C10, as the code has it: after `init_Reg_SIFT3D` and any sequence of
session operations in which the matcher was never called (every register call
stopped at its descriptor-store checks or before reaching `register_SIFT3D`),
`get_matches_Reg_SIFT3D` fails. -/
theorem get_matches_fails_if_matcher_never_ran (c : Collab W K S Rn H I) (e : Env W)
    (reg : Reg_SIFT3D K S Rn H) (ops : List (Op K S Rn I)) (match_src match_ref : Mat_rm K)
    (h : Call.nn_match_fb ∉
      (run c (init_Reg_SIFT3D c e reg).env (init_Reg_SIFT3D c e reg).val ops).1.env.log) :
    (get_matches_Reg_SIFT3D c
      (run c (init_Reg_SIFT3D c e reg).env (init_Reg_SIFT3D c e reg).val ops).1.env
      (run c (init_Reg_SIFT3D c e reg).env (init_Reg_SIFT3D c e reg).val ops).1.val
      match_src match_ref).ret = SIFT3D_FAILURE := by
  have hm := (run_matches_of_not_mem c ops _ _ h).trans (init_matches c e reg)
  unfold get_matches_Reg_SIFT3D
  rw [hm]

/-- C10, witness: configure, set the source image only and register, which
fails for want of reference descriptors; the matcher never ran. -/
theorem get_matches_fails_if_matcher_never_ran_witness :
    Call.nn_match_fb ∉
      (run (Sample.collab 0) (init_Reg_SIFT3D (Sample.collab 0) Sample.env0 Sample.blank).env
        (init_Reg_SIFT3D (Sample.collab 0) Sample.env0 Sample.blank).val
        Sample.ops_no_reference).1.env.log ∧
    (get_matches_Reg_SIFT3D (Sample.collab 0)
      (run (Sample.collab 0) (init_Reg_SIFT3D (Sample.collab 0) Sample.env0 Sample.blank).env
        (init_Reg_SIFT3D (Sample.collab 0) Sample.env0 Sample.blank).val
        Sample.ops_no_reference).1.env
      (run (Sample.collab 0) (init_Reg_SIFT3D (Sample.collab 0) Sample.env0 Sample.blank).env
        (init_Reg_SIFT3D (Sample.collab 0) Sample.env0 Sample.blank).val
        Sample.ops_no_reference).1.val
      Sample.empty Sample.empty).ret = SIFT3D_FAILURE :=
  ⟨by decide,
    get_matches_fails_if_matcher_never_ran (Sample.collab 0) Sample.env0 Sample.blank
      Sample.ops_no_reference Sample.empty Sample.empty (by decide)⟩

/-- C10, counterexample: after `init`, `set_src`, `set_ref` and one register
call that fails at the robust estimator, the sequence holds no successful
register call, yet `get_matches_Reg_SIFT3D` succeeds: the match list written
by the matcher is still in the session. -/
theorem get_matches_after_failed_register_counterexample :
    (init_Reg_SIFT3D (Sample.collab (-1)) Sample.env0 Sample.blank).ret = SIFT3D_SUCCESS ∧
    (run (Sample.collab (-1))
      (init_Reg_SIFT3D (Sample.collab (-1)) Sample.env0 Sample.blank).env
      (init_Reg_SIFT3D (Sample.collab (-1)) Sample.env0 Sample.blank).val
      Sample.ops_register).2 = [SIFT3D_SUCCESS, SIFT3D_SUCCESS, SIFT3D_FAILURE] ∧
    (get_matches_Reg_SIFT3D (Sample.collab (-1))
      (run (Sample.collab (-1))
        (init_Reg_SIFT3D (Sample.collab (-1)) Sample.env0 Sample.blank).env
        (init_Reg_SIFT3D (Sample.collab (-1)) Sample.env0 Sample.blank).val
        Sample.ops_register).1.env
      (run (Sample.collab (-1))
        (init_Reg_SIFT3D (Sample.collab (-1)) Sample.env0 Sample.blank).env
        (init_Reg_SIFT3D (Sample.collab (-1)) Sample.env0 Sample.blank).val
        Sample.ops_register).1.val
      Sample.empty Sample.empty).ret = SIFT3D_SUCCESS := by
  refine ⟨by decide, by decide, by decide⟩

end Sequences

end SIFT3D

namespace SIFT3D

/-! ## Failure cases of the converters, and the match accessor -/

section Failures

variable {W K S Rn H I : Type} [LinearOrderedField K]

/-- C15: for a transform whose tag is not affine `mm2im` fails, and for an
affine transform whose matrix does not have 3 rows it fails; in both cases the
transform it leaves is the one it was given.  For an affine transform with
exactly 3 rows it succeeds. -/
theorem mm2im_failure_cases (src_units ref_units : Fin IM_NDIMS → K) (tform : Tform K) :
    (tform_get_type tform ≠ tform_type.AFFINE →
      mm2im src_units ref_units tform = (SIFT3D_FAILURE, tform)) ∧
    (∀ aff : Affine K, tform = Tform.affine aff → aff.A.num_rows ≠ IM_NDIMS →
      mm2im src_units ref_units tform = (SIFT3D_FAILURE, tform)) ∧
    (∀ aff : Affine K, tform = Tform.affine aff → aff.A.num_rows = IM_NDIMS →
      (mm2im src_units ref_units tform).1 = SIFT3D_SUCCESS) := by
  refine ⟨?_, ?_, ?_⟩
  · intro h
    cases tform with
    | affine aff => exact absurd rfl h
    | tps t => rfl
  · intro aff h hrows
    subst h
    simp [mm2im, hrows]
  · intro aff h hrows
    subst h
    simp [mm2im, hrows]

/-- C16: for an input whose column count is not 3 `im2mm` fails, whatever the
element type (the shape check comes first), and for an input with 3 columns
whose element type is not double it fails; in both cases the output matrix is
the one passed in and the environment is untouched (no copy was attempted).
The input is a read-only argument.  Both failures return `SIFT3D_FAILURE`:
they differ only in the message written to `stderr`. -/
theorem im2mm_failure_cases (c : Collab W K S Rn H I) (e : Env W) (im : Mat_rm K)
    (units : Fin IM_NDIMS → K) (mm : Mat_rm K) :
    (im.num_cols ≠ IM_NDIMS →
      im2mm c e im units mm = { env := e, ret := SIFT3D_FAILURE, val := mm }) ∧
    (im.num_cols = IM_NDIMS → im.type ≠ Mat_rm_type.DOUBLE →
      im2mm c e im units mm = { env := e, ret := SIFT3D_FAILURE, val := mm }) := by
  refine ⟨?_, ?_⟩
  · intro h
    unfold im2mm
    rw [if_pos h]
  · intro h1 h2
    unfold im2mm
    rw [if_neg (not_not.mpr h1), if_pos h2]

theorem register_tform_session (c : Collab W K S Rn H I) (e : Env W)
    (reg : Reg_SIFT3D K S Rn H) (t : Tform K) :
    (register_SIFT3D_tform c e reg t).val.1 = reg := by
  unfold register_SIFT3D_tform
  lift_lets
  extract_lets r3 r4 r5 r6 r7 r8 e8 e9 e10
  split_ifs <;> rfl

theorem register_session_after_step2 (c : Collab W K S Rn H I) (e : Env W)
    (reg : Reg_SIFT3D K S Rn H) (tform : Option (Tform K))
    (hsrc : 0 < reg.desc_src.num) (href : 0 < reg.desc_ref.num)
    (hm : (c.SIFT3D_nn_match_fb e.w reg.desc_src reg.desc_ref reg.nn_thresh reg.matches_).ret = 0) :
    (register_SIFT3D c e reg tform).val.1 =
      { reg with
        matches_ :=
          (c.SIFT3D_nn_match_fb e.w reg.desc_src reg.desc_ref reg.nn_thresh reg.matches_).val
        match_src := (c.SIFT3D_matches_to_Mat_rm
          (c.SIFT3D_nn_match_fb e.w reg.desc_src reg.desc_ref reg.nn_thresh reg.matches_).env
          reg.desc_src reg.desc_ref
          (c.SIFT3D_nn_match_fb e.w reg.desc_src reg.desc_ref reg.nn_thresh reg.matches_).val
          reg.match_src reg.match_ref).val.1
        match_ref := (c.SIFT3D_matches_to_Mat_rm
          (c.SIFT3D_nn_match_fb e.w reg.desc_src reg.desc_ref reg.nn_thresh reg.matches_).env
          reg.desc_src reg.desc_ref
          (c.SIFT3D_nn_match_fb e.w reg.desc_src reg.desc_ref reg.nn_thresh reg.matches_).val
          reg.match_src reg.match_ref).val.2 } := by
  unfold register_SIFT3D
  rw [if_neg (not_le.mpr hsrc), if_neg (not_le.mpr href)]
  simp only [call, hm, ne_eq, not_true_eq_false, if_false]
  split_ifs
  all_goals first
    | rfl
    | (cases tform with
       | none => rfl
       | some t => exact register_tform_session c _ _ t)

/-- C11: `get_matches_Reg_SIFT3D` fails when the match list is absent, leaving
both outputs and the environment as they were; when the list is present and
both copies succeed it succeeds and the outputs are the session's current
`match_src` and `match_ref`, shape and entries.  The session is a read-only
argument.  Those current matrices are the pair written by step 2 of the
register run that left the session, whenever that run reached step 2,
whatever happened to it afterwards; their row counts are those delivered by
`SIFT3D_matches_to_Mat_rm`. -/
theorem get_matches_Reg_SIFT3D_spec (c : Collab W K S Rn H I) (e : Env W)
    (reg : Reg_SIFT3D K S Rn H) (match_src match_ref : Mat_rm K) :
    (reg.matches_ = none →
      get_matches_Reg_SIFT3D c e reg match_src match_ref =
        { env := e, ret := SIFT3D_FAILURE, val := (match_src, match_ref) }) ∧
    (reg.matches_ ≠ none → c.copy_faithful →
      (c.copy_Mat_rm e.w reg.match_src match_src).ret = 0 →
      (c.copy_Mat_rm (c.copy_Mat_rm e.w reg.match_src match_src).env
        reg.match_ref match_ref).ret = 0 →
      (get_matches_Reg_SIFT3D c e reg match_src match_ref).ret = SIFT3D_SUCCESS ∧
      (get_matches_Reg_SIFT3D c e reg match_src match_ref).val =
        (reg.match_src, reg.match_ref)) ∧
    (∀ (e0 : Env W) (reg0 : Reg_SIFT3D K S Rn H) (tform : Option (Tform K)),
      reg = (register_SIFT3D c e0 reg0 tform).val.1 →
      0 < reg0.desc_src.num → 0 < reg0.desc_ref.num →
      (c.SIFT3D_nn_match_fb e0.w reg0.desc_src reg0.desc_ref reg0.nn_thresh
        reg0.matches_).ret = 0 →
      reg.match_src = (c.SIFT3D_matches_to_Mat_rm
        (c.SIFT3D_nn_match_fb e0.w reg0.desc_src reg0.desc_ref reg0.nn_thresh reg0.matches_).env
        reg0.desc_src reg0.desc_ref
        (c.SIFT3D_nn_match_fb e0.w reg0.desc_src reg0.desc_ref reg0.nn_thresh reg0.matches_).val
        reg0.match_src reg0.match_ref).val.1 ∧
      reg.match_ref = (c.SIFT3D_matches_to_Mat_rm
        (c.SIFT3D_nn_match_fb e0.w reg0.desc_src reg0.desc_ref reg0.nn_thresh reg0.matches_).env
        reg0.desc_src reg0.desc_ref
        (c.SIFT3D_nn_match_fb e0.w reg0.desc_src reg0.desc_ref reg0.nn_thresh reg0.matches_).val
        reg0.match_src reg0.match_ref).val.2) := by
  refine ⟨?_, ?_, ?_⟩
  · intro h
    unfold get_matches_Reg_SIFT3D
    rw [h]
  · intro h hcopy h1 h2
    unfold get_matches_Reg_SIFT3D
    rcases hm : reg.matches_ with _ | l
    · exact absurd hm h
    · simp [call, h1, h2, hcopy _ _ _ h1, hcopy _ _ _ h2, SIFT3D_SUCCESS]
  · intro e0 reg0 tform hreg hsrc href hm
    rw [hreg, register_session_after_step2 c e0 reg0 tform hsrc href hm]
    exact ⟨rfl, rfl⟩

/-- C11, witness: the accessor on a session left by a matching-only
registration. -/
theorem get_matches_Reg_SIFT3D_spec_witness :
    Sample.matched.matches_ ≠ none ∧
    (get_matches_Reg_SIFT3D (Sample.collab 0) Sample.env0 Sample.matched
      Sample.empty Sample.empty).ret = SIFT3D_SUCCESS ∧
    (get_matches_Reg_SIFT3D (Sample.collab 0) Sample.env0 Sample.matched
      Sample.empty Sample.empty).val = (Sample.matched.match_src, Sample.matched.match_ref) :=
  ⟨by decide,
    (get_matches_Reg_SIFT3D_spec (Sample.collab 0) Sample.env0 Sample.matched
      Sample.empty Sample.empty).2.1 (by decide) (Sample.collab_copy_faithful 0) rfl rfl⟩

end Failures

end SIFT3D

namespace SIFT3D

/-! ## The resampling bypass -/

section Bypass

variable {W K S Rn H I : Type} [LinearOrderedField K]

theorem grows_by_refl (P : Call → Prop) (l : List Call) : grows_by P l l :=
  ⟨[], by simp, by simp⟩

theorem grows_by_trans (P : Call → Prop) {a b d : List Call}
    (h1 : grows_by P a b) (h2 : grows_by P b d) : grows_by P a d := by
  obtain ⟨l1, e1, p1⟩ := h1
  obtain ⟨l2, e2, p2⟩ := h2
  refine ⟨l1 ++ l2, by rw [e2, e1, List.append_assoc], ?_⟩
  intro x hx
  rcases List.mem_append.mp hx with h | h
  · exact p1 x h
  · exact p2 x h

theorem grows_by_snoc (P : Call → Prop) {a b : List Call} (tag : Call)
    (h1 : grows_by P a b) (ht : P tag) : grows_by P a (b ++ [tag]) :=
  grows_by_trans P h1 ⟨[tag], rfl, by simpa using ht⟩

omit [LinearOrderedField K] in
theorem set_src_ret (c : Collab W K S Rn H I) (e : Env W) (reg : Reg_SIFT3D K S Rn H)
    (im : Image K I) :
    ((set_src_Reg_SIFT3D c e reg im).ret = SIFT3D_SUCCESS ∨
      (set_src_Reg_SIFT3D c e reg im).ret = SIFT3D_FAILURE) := by
  unfold set_src_Reg_SIFT3D
  simp only [call]
  split_ifs <;> simp

omit [LinearOrderedField K] in
theorem set_ref_ret (c : Collab W K S Rn H I) (e : Env W) (reg : Reg_SIFT3D K S Rn H)
    (im : Image K I) :
    ((set_ref_Reg_SIFT3D c e reg im).ret = SIFT3D_SUCCESS ∨
      (set_ref_Reg_SIFT3D c e reg im).ret = SIFT3D_FAILURE) := by
  unfold set_ref_Reg_SIFT3D
  simp only [call]
  split_ifs <;> simp

theorem register_tform_ret (c : Collab W K S Rn H I) (e : Env W)
    (reg : Reg_SIFT3D K S Rn H) (t : Tform K) :
    ((register_SIFT3D_tform c e reg t).ret = SIFT3D_SUCCESS ∨
      (register_SIFT3D_tform c e reg t).ret = SIFT3D_FAILURE) := by
  unfold register_SIFT3D_tform
  lift_lets
  extract_lets r3 r4 r5 r6 r7 r8 e8 e9 e10
  split_ifs <;> simp [register_SIFT3D_quit]

theorem register_ret (c : Collab W K S Rn H I) (e : Env W) (reg : Reg_SIFT3D K S Rn H)
    (tform : Option (Tform K)) :
    ((register_SIFT3D c e reg tform).ret = SIFT3D_SUCCESS ∨
      (register_SIFT3D c e reg tform).ret = SIFT3D_FAILURE) := by
  unfold register_SIFT3D
  lift_lets
  extract_lets r1 reg1 r2 reg2
  split_ifs
  all_goals first
    | simp
    | (cases tform with
       | none => simp
       | some t => exact register_tform_ret c _ _ t)

theorem grows_im2mm (P : Call → Prop) (hc : P Call.copy_Mat_rm) (c : Collab W K S Rn H I)
    (e : Env W) (im : Mat_rm K) (u : Fin IM_NDIMS → K) (mm : Mat_rm K) :
    grows_by P e.log (im2mm c e im u mm).env.log := by
  unfold im2mm
  simp only [call]
  split_ifs
  · exact grows_by_refl P _
  · exact grows_by_refl P _
  · exact grows_by_snoc P _ (grows_by_refl P _) hc
  · exact grows_by_snoc P _ (grows_by_refl P _) hc

omit [LinearOrderedField K] in
theorem grows_set_src (P : Call → Prop) (h1 : P Call.detect_keypoints)
    (h2 : P Call.extract_descriptors) (c : Collab W K S Rn H I) (e : Env W)
    (reg : Reg_SIFT3D K S Rn H) (im : Image K I) :
    grows_by P e.log (set_src_Reg_SIFT3D c e reg im).env.log := by
  unfold set_src_Reg_SIFT3D
  simp only [call]
  split_ifs
  · exact grows_by_snoc P _ (grows_by_refl P _) h1
  · exact grows_by_snoc P _ (grows_by_snoc P _ (grows_by_refl P _) h1) h2
  · exact grows_by_snoc P _ (grows_by_snoc P _ (grows_by_refl P _) h1) h2

omit [LinearOrderedField K] in
theorem grows_set_ref (P : Call → Prop) (h1 : P Call.detect_keypoints)
    (h2 : P Call.extract_descriptors) (c : Collab W K S Rn H I) (e : Env W)
    (reg : Reg_SIFT3D K S Rn H) (im : Image K I) :
    grows_by P e.log (set_ref_Reg_SIFT3D c e reg im).env.log := by
  unfold set_ref_Reg_SIFT3D
  simp only [call]
  split_ifs
  · exact grows_by_snoc P _ (grows_by_refl P _) h1
  · exact grows_by_snoc P _ (grows_by_snoc P _ (grows_by_refl P _) h1) h2
  · exact grows_by_snoc P _ (grows_by_snoc P _ (grows_by_refl P _) h1) h2

omit [LinearOrderedField K] in
theorem grows_quit {α : Type} (P : Call → Prop) (hs : ∀ s, P (Call.cleanup_Mat_rm s))
    (c : Collab W K S Rn H I) (e : Env W) (a b : Mat_rm K) (out : α) :
    grows_by P e.log (register_SIFT3D_quit c e a b out).env.log :=
  grows_by_snoc P _ (grows_by_snoc P _ (grows_by_refl P _) (hs _)) (hs _)

theorem grows_register_tform (P : Call → Prop) (hi : P Call.init_Mat_rm)
    (hc : P Call.copy_Mat_rm) (hm : ∀ s, P (Call.im2mm s)) (hf : P Call.find_tform_ransac)
    (hv : P Call.mm2im) (hs : ∀ s, P (Call.cleanup_Mat_rm s))
    (c : Collab W K S Rn H I) (e : Env W) (reg : Reg_SIFT3D K S Rn H) (t : Tform K) :
    grows_by P e.log (register_SIFT3D_tform c e reg t).env.log := by
  unfold register_SIFT3D_tform
  lift_lets
  extract_lets r3 r4 r5 r6 r7 r8 e8 e9 e10
  have h3 : grows_by P e.log r3.env.log := grows_by_snoc P _ (grows_by_refl P _) hi
  clear_value r3
  have h4 : grows_by P e.log r4.env.log := grows_by_snoc P _ h3 hi
  clear_value r4
  have h5 : grows_by P e.log r5.env.log :=
    grows_by_trans P (grows_by_snoc P _ h4 (hm Side.src)) (grows_im2mm P hc c _ _ _ _)
  clear_value r5
  have h6 : grows_by P e.log r6.env.log :=
    grows_by_trans P (grows_by_snoc P _ h5 (hm Side.ref)) (grows_im2mm P hc c _ _ _ _)
  clear_value r6
  have h7 : grows_by P e.log r7.env.log := grows_by_snoc P _ h6 hf
  clear_value r7
  have h8 : grows_by P e.log e8.log := grows_by_snoc P _ h7 hv
  clear_value e8
  have h10 : grows_by P e.log e10.log := grows_by_snoc P _ (grows_by_snoc P _ h8 (hs _)) (hs _)
  clear_value e10
  split_ifs
  · exact h3
  · exact h4
  · exact grows_by_trans P h5 (grows_quit P hs c _ _ _ _)
  · exact grows_by_trans P h6 (grows_quit P hs c _ _ _ _)
  · exact grows_by_trans P h7 (grows_quit P hs c _ _ _ _)
  · exact grows_by_trans P h8 (grows_quit P hs c _ _ _ _)
  · exact h10

theorem grows_register (P : Call → Prop) (hn : P Call.nn_match_fb)
    (hx : P Call.matches_to_Mat_rm) (hi : P Call.init_Mat_rm)
    (hc : P Call.copy_Mat_rm) (hm : ∀ s, P (Call.im2mm s)) (hf : P Call.find_tform_ransac)
    (hv : P Call.mm2im) (hs : ∀ s, P (Call.cleanup_Mat_rm s))
    (c : Collab W K S Rn H I) (e : Env W) (reg : Reg_SIFT3D K S Rn H)
    (tform : Option (Tform K)) :
    grows_by P e.log (register_SIFT3D c e reg tform).env.log := by
  unfold register_SIFT3D
  lift_lets
  extract_lets r1 reg1 r2 reg2
  have h1 : grows_by P e.log r1.env.log := grows_by_snoc P _ (grows_by_refl P _) hn
  clear_value r1
  have h2 : grows_by P e.log r2.env.log := grows_by_snoc P _ h1 hx
  clear_value r2
  split_ifs
  · exact grows_by_refl P _
  · exact grows_by_refl P _
  · exact h1
  · exact h2
  · cases tform with
    | none => exact h2
    | some t => exact grows_by_trans P h2 (grows_register_tform P hi hc hm hf hv hs c _ _ t)

theorem grows_direct_register (c : Collab W K S Rn H I) (e : Env W)
    (reg : Reg_SIFT3D K S Rn H) (src ref : Image K I) (tform : Option (Tform K)) :
    grows_by (fun x => x.resamples = false) e.log
      (direct_register c e reg src ref tform).env.log := by
  unfold direct_register
  lift_lets
  extract_lets r1 r2
  have h1 : grows_by (fun x => x.resamples = false) e.log r1.env.log :=
    grows_set_src (fun x => x.resamples = false) rfl rfl c e reg src
  have h2 : grows_by (fun x => x.resamples = false) e.log r2.env.log :=
    grows_by_trans _ h1 (grows_set_ref (fun x => x.resamples = false) rfl rfl c r1.env r1.val ref)
  have h3 : grows_by (fun x => x.resamples = false) e.log
      (register_SIFT3D c r2.env r2.val tform).env.log :=
    grows_by_trans _ h2
      (grows_register (fun x => x.resamples = false) rfl rfl rfl rfl (fun _ => rfl) rfl rfl
        (fun _ => rfl) c _ _ tform)
  clear_value r2 r1
  split_ifs
  · exact h1
  · exact h2
  · exact h3

theorem resample_eq_direct (c : Collab W K S Rn H I) (e : Env W)
    (reg : Reg_SIFT3D K S Rn H) (src ref : Image K I) (interp : interp_type)
    (tform : Option (Tform K)) (hu : src.units = ref.units) :
    register_SIFT3D_resample c e reg src ref interp tform =
      direct_register c e reg src ref tform := by
  unfold register_SIFT3D_resample direct_register
  rw [if_pos hu]
  lift_lets
  extract_lets r1 r2 r3
  have t1 : r1.ret = SIFT3D_SUCCESS ∨ r1.ret = SIFT3D_FAILURE := set_src_ret c e reg src
  have t2 : r2.ret = SIFT3D_SUCCESS ∨ r2.ret = SIFT3D_FAILURE := set_ref_ret c _ _ ref
  have t3 : r3.ret = SIFT3D_SUCCESS ∨ r3.ret = SIFT3D_FAILURE := register_ret c _ _ tform
  have hr3 : r3 = register_SIFT3D c r2.env r2.val tform := rfl
  clear_value r3 r2 r1
  subst hr3
  simp only [SIFT3D_SUCCESS, SIFT3D_FAILURE] at t1 t2 t3 ⊢
  rcases t1 with t1 | t1 <;> rcases t2 with t2 | t2 <;> rcases t3 with t3 | t3 <;>
    simp [t1, t2, t3] <;> rw [← t3]

/-- C12: when the unit vectors of `src` and `ref` are equal,
`register_SIFT3D_resample` gives, for every session, interpolation mode and
transform argument, what `set_src`, `set_ref` and `register_SIFT3D` called in
turn on the images themselves give (each later call only after the earlier
ones succeeded): the same status, the same session (units, stores, match list,
match matrices), the same transform and the same environment; and the calls
it adds to the log include no call of the resampler and no run of the feature
scaler. -/
theorem register_SIFT3D_resample_bypass (c : Collab W K S Rn H I) (e : Env W)
    (reg : Reg_SIFT3D K S Rn H) (src ref : Image K I) (interp : interp_type)
    (tform : Option (Tform K)) (hu : src.units = ref.units) :
    register_SIFT3D_resample c e reg src ref interp tform =
      direct_register c e reg src ref tform ∧
    grows_by (fun x => x.resamples = false) e.log
      (register_SIFT3D_resample c e reg src ref interp tform).env.log := by
  rw [resample_eq_direct c e reg src ref interp tform hu]
  exact ⟨rfl, grows_direct_register c e reg src ref tform⟩

/-- C12, witness: two images with 1 mm voxels. -/
theorem register_SIFT3D_resample_bypass_witness :
    Sample.im1.units = Sample.im1.units ∧
    register_SIFT3D_resample (Sample.collab 0) Sample.env0 Sample.blank Sample.im1 Sample.im1
        interp_type.LINEAR (some (Tform.affine { A := Sample.A })) =
      direct_register (Sample.collab 0) Sample.env0 Sample.blank Sample.im1 Sample.im1
        (some (Tform.affine { A := Sample.A })) ∧
    grows_by (fun x => x.resamples = false) Sample.env0.log
      (register_SIFT3D_resample (Sample.collab 0) Sample.env0 Sample.blank Sample.im1 Sample.im1
        interp_type.LINEAR (some (Tform.affine { A := Sample.A }))).env.log :=
  ⟨rfl, register_SIFT3D_resample_bypass (Sample.collab 0) Sample.env0 Sample.blank Sample.im1
    Sample.im1 interp_type.LINEAR (some (Tform.affine { A := Sample.A })) rfl⟩

end Bypass

end SIFT3D

namespace SIFT3D

/-! ## The stored units -/

section Units

variable {W K S Rn H I : Type} [LinearOrderedField K]

theorem register_units (c : Collab W K S Rn H I) (e : Env W) (reg : Reg_SIFT3D K S Rn H)
    (tform : Option (Tform K)) :
    (register_SIFT3D c e reg tform).val.1.src_units = reg.src_units ∧
    (register_SIFT3D c e reg tform).val.1.ref_units = reg.ref_units := by
  unfold register_SIFT3D
  lift_lets
  extract_lets r1 reg1 r2 reg2
  have h2 : reg2.src_units = reg.src_units ∧ reg2.ref_units = reg.ref_units := ⟨rfl, rfl⟩
  have h1 : reg1.src_units = reg.src_units ∧ reg1.ref_units = reg.ref_units := ⟨rfl, rfl⟩
  clear_value reg2 reg1
  split_ifs
  · exact ⟨rfl, rfl⟩
  · exact ⟨rfl, rfl⟩
  · exact h1
  · exact h2
  · cases tform with
    | none => exact h2
    | some t =>
      simp only
      rw [register_tform_session c _ _ t]
      exact h2

omit [LinearOrderedField K] in
theorem set_src_units (c : Collab W K S Rn H I) (e : Env W) (reg : Reg_SIFT3D K S Rn H)
    (im : Image K I) :
    (set_src_Reg_SIFT3D c e reg im).val.src_units = im.units ∧
    (set_src_Reg_SIFT3D c e reg im).val.ref_units = reg.ref_units := by
  unfold set_src_Reg_SIFT3D
  simp only [call]
  split_ifs <;> exact ⟨rfl, rfl⟩

omit [LinearOrderedField K] in
theorem set_ref_units (c : Collab W K S Rn H I) (e : Env W) (reg : Reg_SIFT3D K S Rn H)
    (im : Image K I) :
    (set_ref_Reg_SIFT3D c e reg im).val.src_units = reg.src_units ∧
    (set_ref_Reg_SIFT3D c e reg im).val.ref_units = im.units := by
  unfold set_ref_Reg_SIFT3D
  simp only [call]
  split_ifs <;> exact ⟨rfl, rfl⟩

theorem set_nn_thresh_units (reg : Reg_SIFT3D K S Rn H) (t : K) :
    (set_nn_thresh_Reg_SIFT3D reg t).2.src_units = reg.src_units ∧
    (set_nn_thresh_Reg_SIFT3D reg t).2.ref_units = reg.ref_units := by
  unfold set_nn_thresh_Reg_SIFT3D
  split_ifs <;> exact ⟨rfl, rfl⟩

theorem run_units (c : Collab W K S Rn H I) (ops : List (Op K S Rn I))
    (h : ∀ op ∈ ops, op.is_resample = false) :
    ∀ (e : Env W) (reg : Reg_SIFT3D K S Rn H),
      (run c e reg ops).1.val.src_units = last_src_units reg.src_units ops ∧
      (run c e reg ops).1.val.ref_units = last_ref_units reg.ref_units ops := by
  induction ops with
  | nil => intro e reg; exact ⟨rfl, rfl⟩
  | cons op ops ih =>
    intro e reg
    have ih' := ih (fun o ho => h o (List.mem_cons_of_mem op ho)) (step c e reg op).env
      (step c e reg op).val
    have hop := h op (List.mem_cons_self op ops)
    simp only [run, last_src_units, last_ref_units, List.foldl_cons]
    simp only [last_src_units, last_ref_units] at ih'
    rw [ih'.1, ih'.2]
    cases op with
    | set_nn_thresh t =>
      simp only [step]
      rw [(set_nn_thresh_units reg t).1, (set_nn_thresh_units reg t).2]
      exact ⟨rfl, rfl⟩
    | set_Ransac ran => exact ⟨rfl, rfl⟩
    | set_SIFT3D s => exact ⟨rfl, rfl⟩
    | set_src im =>
      simp only [step]
      rw [(set_src_units c e reg im).1, (set_src_units c e reg im).2]
      exact ⟨rfl, rfl⟩
    | set_ref im =>
      simp only [step]
      rw [(set_ref_units c e reg im).1, (set_ref_units c e reg im).2]
      exact ⟨rfl, rfl⟩
    | register tform =>
      simp only [step]
      rw [(register_units c e reg tform).1, (register_units c e reg tform).2]
      exact ⟨rfl, rfl⟩
    | register_resample src ref interp tform => exact absurd hop (by simp [Op.is_resample])

/-- C13, as the code has it: after `init_Reg_SIFT3D` and any sequence of
configuration setters, `set_src`, `set_ref` and `register_SIFT3D` calls, the
stored source units are the units of the image passed to the last `set_src`
call, whether it succeeded or failed, and what `init_Reg_SIFT3D` left when
there was none; likewise the reference units and the last `set_ref` call. -/
theorem units_follow_last_set_call (c : Collab W K S Rn H I) (e : Env W)
    (reg : Reg_SIFT3D K S Rn H) (ops : List (Op K S Rn I))
    (h : ∀ op ∈ ops, op.is_resample = false) :
    (run c (init_Reg_SIFT3D c e reg).env (init_Reg_SIFT3D c e reg).val ops).1.val.src_units =
      last_src_units (init_Reg_SIFT3D c e reg).val.src_units ops ∧
    (run c (init_Reg_SIFT3D c e reg).env (init_Reg_SIFT3D c e reg).val ops).1.val.ref_units =
      last_ref_units (init_Reg_SIFT3D c e reg).val.ref_units ops :=
  run_units c ops h _ _

/-- C13, witness: configure, set both images, register, set the source image
again. -/
theorem units_follow_last_set_call_witness :
    (∀ op ∈ Sample.ops_plain, op.is_resample = false) ∧
    (run (Sample.collab 0) (init_Reg_SIFT3D (Sample.collab 0) Sample.env0 Sample.blank).env
      (init_Reg_SIFT3D (Sample.collab 0) Sample.env0 Sample.blank).val
      Sample.ops_plain).1.val.src_units =
      last_src_units (init_Reg_SIFT3D (Sample.collab 0) Sample.env0 Sample.blank).val.src_units
        Sample.ops_plain ∧
    (run (Sample.collab 0) (init_Reg_SIFT3D (Sample.collab 0) Sample.env0 Sample.blank).env
      (init_Reg_SIFT3D (Sample.collab 0) Sample.env0 Sample.blank).val
      Sample.ops_plain).1.val.ref_units =
      last_ref_units (init_Reg_SIFT3D (Sample.collab 0) Sample.env0 Sample.blank).val.ref_units
        Sample.ops_plain :=
  ⟨by simp [Sample.ops_plain, Op.is_resample],
    units_follow_last_set_call (Sample.collab 0) Sample.env0 Sample.blank Sample.ops_plain
      (by simp [Sample.ops_plain, Op.is_resample])⟩

/-- C13, counterexample: with a detector that fails on the second image,
`set_src` on an image with 1 mm voxels succeeds and `set_src` on an image with
2 mm voxels then fails, yet the stored source units are those of the second
image, not those of the image of the last successful call. -/
theorem units_after_failed_set_src_counterexample :
    (run (Sample.rejecting Sample.units2)
      (init_Reg_SIFT3D (Sample.rejecting Sample.units2) Sample.env0 Sample.blank).env
      (init_Reg_SIFT3D (Sample.rejecting Sample.units2) Sample.env0 Sample.blank).val
      Sample.ops_two_sources).2 = [SIFT3D_SUCCESS, SIFT3D_FAILURE] ∧
    (run (Sample.rejecting Sample.units2)
      (init_Reg_SIFT3D (Sample.rejecting Sample.units2) Sample.env0 Sample.blank).env
      (init_Reg_SIFT3D (Sample.rejecting Sample.units2) Sample.env0 Sample.blank).val
      Sample.ops_two_sources).1.val.src_units = Sample.im2.units ∧
    Sample.im2.units ≠ Sample.im1.units := by
  refine ⟨by decide, by decide, by decide⟩

end Units

end SIFT3D

namespace SIFT3D

/-! ## Matches are committed before the estimation -/

section Commit

variable {W K S Rn H I : Type} [LinearOrderedField K]

omit [LinearOrderedField K] in
theorem get_matches_of_copies (c : Collab W K S Rn H I) (e : Env W)
    (reg : Reg_SIFT3D K S Rn H) (match_src match_ref : Mat_rm K)
    (h : reg.matches_ ≠ none) (hcopy : c.copy_faithful)
    (h1 : (c.copy_Mat_rm e.w reg.match_src match_src).ret = 0)
    (h2 : (c.copy_Mat_rm (c.copy_Mat_rm e.w reg.match_src match_src).env
      reg.match_ref match_ref).ret = 0) :
    (get_matches_Reg_SIFT3D c e reg match_src match_ref).ret = SIFT3D_SUCCESS ∧
    (get_matches_Reg_SIFT3D c e reg match_src match_ref).val =
      (reg.match_src, reg.match_ref) := by
  unfold get_matches_Reg_SIFT3D
  rcases hm : reg.matches_ with _ | l
  · exact absurd hm h
  · simp [call, h1, h2, hcopy _ _ _ h1, hcopy _ _ _ h2, SIFT3D_SUCCESS]

/-- C19: with both descriptor stores non-empty and a non-null transform, when
the matcher and the coordinate extraction succeed and the call nevertheless
does not return success (a later step failed), `register_SIFT3D` returns
failure and the session it leaves is the old one with the match list written
by the matcher and the two matrices written by the extraction; a
`get_matches_Reg_SIFT3D` that follows succeeds and returns exactly those two
matrices, given that the successful matcher left a list and that the two
copies succeed. -/
theorem register_SIFT3D_commits_matches (c : Collab W K S Rn H I) (e : Env W)
    (reg : Reg_SIFT3D K S Rn H) (t : Tform K) (match_src match_ref : Mat_rm K)
    (hsrc : 0 < reg.desc_src.num) (href : 0 < reg.desc_ref.num)
    (hm : (c.SIFT3D_nn_match_fb e.w reg.desc_src reg.desc_ref reg.nn_thresh reg.matches_).ret = 0)
    (hlist :
      (c.SIFT3D_nn_match_fb e.w reg.desc_src reg.desc_ref reg.nn_thresh reg.matches_).val ≠ none)
    (_hx : (c.SIFT3D_matches_to_Mat_rm
      (c.SIFT3D_nn_match_fb e.w reg.desc_src reg.desc_ref reg.nn_thresh reg.matches_).env
      reg.desc_src reg.desc_ref
      (c.SIFT3D_nn_match_fb e.w reg.desc_src reg.desc_ref reg.nn_thresh reg.matches_).val
      reg.match_src reg.match_ref).ret = 0)
    (hfail : (register_SIFT3D c e reg (some t)).ret ≠ SIFT3D_SUCCESS)
    (hcopy : c.copy_faithful)
    (h1 : (c.copy_Mat_rm (register_SIFT3D c e reg (some t)).env.w
      (register_SIFT3D c e reg (some t)).val.1.match_src match_src).ret = 0)
    (h2 : (c.copy_Mat_rm
      (c.copy_Mat_rm (register_SIFT3D c e reg (some t)).env.w
        (register_SIFT3D c e reg (some t)).val.1.match_src match_src).env
      (register_SIFT3D c e reg (some t)).val.1.match_ref match_ref).ret = 0) :
    (register_SIFT3D c e reg (some t)).ret = SIFT3D_FAILURE ∧
    (register_SIFT3D c e reg (some t)).val.1 =
      { reg with
        matches_ :=
          (c.SIFT3D_nn_match_fb e.w reg.desc_src reg.desc_ref reg.nn_thresh reg.matches_).val
        match_src := (c.SIFT3D_matches_to_Mat_rm
          (c.SIFT3D_nn_match_fb e.w reg.desc_src reg.desc_ref reg.nn_thresh reg.matches_).env
          reg.desc_src reg.desc_ref
          (c.SIFT3D_nn_match_fb e.w reg.desc_src reg.desc_ref reg.nn_thresh reg.matches_).val
          reg.match_src reg.match_ref).val.1
        match_ref := (c.SIFT3D_matches_to_Mat_rm
          (c.SIFT3D_nn_match_fb e.w reg.desc_src reg.desc_ref reg.nn_thresh reg.matches_).env
          reg.desc_src reg.desc_ref
          (c.SIFT3D_nn_match_fb e.w reg.desc_src reg.desc_ref reg.nn_thresh reg.matches_).val
          reg.match_src reg.match_ref).val.2 } ∧
    (get_matches_Reg_SIFT3D c (register_SIFT3D c e reg (some t)).env
      (register_SIFT3D c e reg (some t)).val.1 match_src match_ref).ret = SIFT3D_SUCCESS ∧
    (get_matches_Reg_SIFT3D c (register_SIFT3D c e reg (some t)).env
      (register_SIFT3D c e reg (some t)).val.1 match_src match_ref).val =
      ((c.SIFT3D_matches_to_Mat_rm
          (c.SIFT3D_nn_match_fb e.w reg.desc_src reg.desc_ref reg.nn_thresh reg.matches_).env
          reg.desc_src reg.desc_ref
          (c.SIFT3D_nn_match_fb e.w reg.desc_src reg.desc_ref reg.nn_thresh reg.matches_).val
          reg.match_src reg.match_ref).val.1,
       (c.SIFT3D_matches_to_Mat_rm
          (c.SIFT3D_nn_match_fb e.w reg.desc_src reg.desc_ref reg.nn_thresh reg.matches_).env
          reg.desc_src reg.desc_ref
          (c.SIFT3D_nn_match_fb e.w reg.desc_src reg.desc_ref reg.nn_thresh reg.matches_).val
          reg.match_src reg.match_ref).val.2) := by
  have hs := register_session_after_step2 c e reg (some t) hsrc href hm
  have hl : (register_SIFT3D c e reg (some t)).val.1.matches_ ≠ none := by
    rw [hs]; exact hlist
  have hg := get_matches_of_copies c (register_SIFT3D c e reg (some t)).env
    (register_SIFT3D c e reg (some t)).val.1 match_src match_ref hl hcopy h1 h2
  refine ⟨(register_ret c e reg (some t)).resolve_left hfail, hs, hg.1, ?_⟩
  rw [hg.2, hs]

/-- C19, witness: a registration that fails at the robust estimator. -/
theorem register_SIFT3D_commits_matches_witness :
    0 < Sample.loaded.desc_src.num ∧ 0 < Sample.loaded.desc_ref.num ∧
    (register_SIFT3D (Sample.collab (-1)) Sample.env0 Sample.loaded
      (some (Tform.affine { A := Sample.A }))).ret ≠ SIFT3D_SUCCESS ∧
    (register_SIFT3D (Sample.collab (-1)) Sample.env0 Sample.loaded
      (some (Tform.affine { A := Sample.A }))).ret = SIFT3D_FAILURE ∧
    (get_matches_Reg_SIFT3D (Sample.collab (-1))
      (register_SIFT3D (Sample.collab (-1)) Sample.env0 Sample.loaded
        (some (Tform.affine { A := Sample.A }))).env
      (register_SIFT3D (Sample.collab (-1)) Sample.env0 Sample.loaded
        (some (Tform.affine { A := Sample.A }))).val.1
      Sample.empty Sample.empty).ret = SIFT3D_SUCCESS :=
  ⟨by decide, by decide, by decide,
    (register_SIFT3D_commits_matches (Sample.collab (-1)) Sample.env0 Sample.loaded
      (Tform.affine { A := Sample.A }) Sample.empty Sample.empty
      (by decide) (by decide) rfl (by decide) rfl (by decide)
      (Sample.collab_copy_faithful (-1)) rfl rfl).1,
    (register_SIFT3D_commits_matches (Sample.collab (-1)) Sample.env0 Sample.loaded
      (Tform.affine { A := Sample.A }) Sample.empty Sample.empty
      (by decide) (by decide) rfl (by decide) rfl (by decide)
      (Sample.collab_copy_faithful (-1)) rfl rfl).2.2.1⟩

end Commit

end SIFT3D

namespace SIFT3D

/-! ## The strict failure chain of `register_SIFT3D` -/

section Chain

variable {W K S Rn H I : Type} [LinearOrderedField K]

theorem failure_chain_nil {σ : Type} (p : σ) : failure_chain ([] : List (σ → Int × σ)) p = (0, p) :=
  rfl

theorem failure_chain_cons {σ : Type} (s : σ → Int × σ) (rest : List (σ → Int × σ)) (p : σ) :
    failure_chain (s :: rest) p = if (s p).1 ≠ 0 then s p else failure_chain rest (s p).2 :=
  rfl

theorem register_tform_eq_chain (c : Collab W K S Rn H I) (e : Env W)
    (reg : Reg_SIFT3D K S Rn H) (t : Tform K) (u v : Mat_rm K) :
    register_SIFT3D_tform c e reg t =
      (if (failure_chain [step_init_src c, step_init_ref c]
            { env := e, reg := reg, tform := t, src_mm := u, ref_mm := v }).1 ≠ 0 then
        { env := (failure_chain [step_init_src c, step_init_ref c]
            { env := e, reg := reg, tform := t, src_mm := u, ref_mm := v }).2.env,
          ret := SIFT3D_FAILURE,
          val := (reg, some t) }
      else
        { env := release c (failure_chain (chain_tail c)
            (failure_chain [step_init_src c, step_init_ref c]
              { env := e, reg := reg, tform := t, src_mm := u, ref_mm := v }).2).2,
          ret := if (failure_chain (chain_tail c)
            (failure_chain [step_init_src c, step_init_ref c]
              { env := e, reg := reg, tform := t, src_mm := u, ref_mm := v }).2).1 ≠ 0
            then SIFT3D_FAILURE else SIFT3D_SUCCESS,
          val := (reg, some (failure_chain (chain_tail c)
            (failure_chain [step_init_src c, step_init_ref c]
              { env := e, reg := reg, tform := t, src_mm := u, ref_mm := v }).2).2.tform) }) := by
  unfold register_SIFT3D_tform
  lift_lets
  extract_lets r3 r4 r5 r6 r7 r8 e8 e9 e10
  have s1 : step_init_src c { env := e, reg := reg, tform := t, src_mm := u, ref_mm := v } =
      (r3.ret, { env := r3.env, reg := reg, tform := t, src_mm := r3.val, ref_mm := v }) := rfl
  have s2 : step_init_ref c
      { env := r3.env, reg := reg, tform := t, src_mm := r3.val, ref_mm := v } =
      (r4.ret, { env := r4.env, reg := reg, tform := t, src_mm := r3.val, ref_mm := r4.val }) :=
    rfl
  have s3 : step_toPhysical_src c
      { env := r4.env, reg := reg, tform := t, src_mm := r3.val, ref_mm := r4.val } =
      (r5.ret, { env := r5.env, reg := reg, tform := t, src_mm := r5.val, ref_mm := r4.val }) :=
    rfl
  have s4 : step_toPhysical_ref c
      { env := r5.env, reg := reg, tform := t, src_mm := r5.val, ref_mm := r4.val } =
      (r6.ret, { env := r6.env, reg := reg, tform := t, src_mm := r5.val, ref_mm := r6.val }) :=
    rfl
  have s5 : step_estimate c
      { env := r6.env, reg := reg, tform := t, src_mm := r5.val, ref_mm := r6.val } =
      (r7.ret,
        { env := r7.env, reg := reg, tform := r7.val, src_mm := r5.val, ref_mm := r6.val }) :=
    rfl
  have s6 : step_toVoxel
      ({ env := r7.env, reg := reg, tform := r7.val, src_mm := r5.val, ref_mm := r6.val } :
        Pipe W K S Rn H) =
      (r8.1, { env := e8, reg := reg, tform := r8.2, src_mm := r5.val, ref_mm := r6.val }) :=
    rfl
  have q : ∀ (e' : Env W) (a b : Mat_rm K) (t' : Tform K)
      (out : Reg_SIFT3D K S Rn H × Option (Tform K)),
      register_SIFT3D_quit c e' a b out =
        { env := release c { env := e', reg := reg, tform := t', src_mm := a, ref_mm := b },
          ret := SIFT3D_FAILURE, val := out } := fun _ _ _ _ _ => rfl
  have f10 : e10 =
      release c { env := e8, reg := reg, tform := r8.2, src_mm := r5.val, ref_mm := r6.val } :=
    rfl
  clear_value e10 e8 r8 r7 r6 r5 r4 r3
  simp only [chain_tail, failure_chain_cons, failure_chain_nil, s1, ne_eq]
  by_cases c3 : r3.ret = 0
  swap
  · simp only [c3, not_false_eq_true, if_true]
  simp only [c3, not_true_eq_false, if_false, s2]
  by_cases c4 : r4.ret = 0
  swap
  · simp only [c4, not_false_eq_true, if_true]
  simp only [c4, not_true_eq_false, if_false, s3]
  by_cases c5 : r5.ret = 0
  swap
  · simp only [c5, not_false_eq_true, if_true, q _ _ _ t]
  simp only [c5, not_true_eq_false, if_false, s4]
  by_cases c6 : r6.ret = 0
  swap
  · simp only [c6, not_false_eq_true, if_true, q _ _ _ t]
  simp only [c6, not_true_eq_false, if_false, s5]
  by_cases c7 : r7.ret = 0
  swap
  · simp only [c7, not_false_eq_true, if_true, q _ _ _ r7.val]
  simp only [c7, not_true_eq_false, if_false, s6]
  by_cases c8 : r8.1 = 0
  swap
  · simp only [c8, not_false_eq_true, if_true, q _ _ _ r8.2]
  simp only [c8, not_true_eq_false, if_false, f10]

theorem failure_chain_preserves {σ α : Type} (f : σ → α) (steps : List (σ → Int × σ))
    (h : ∀ s ∈ steps, ∀ p, f (s p).2 = f p) : ∀ p, f (failure_chain steps p).2 = f p := by
  induction steps with
  | nil => intro p; rfl
  | cons s rest ih =>
    intro p
    rw [failure_chain_cons]
    have hs := h s (List.mem_cons_self s rest)
    have ih' := ih (fun s' hs' => h s' (List.mem_cons_of_mem s hs'))
    split_ifs
    · exact hs p
    · rw [ih', hs p]

theorem chain_tail_reg (c : Collab W K S Rn H I) (p : Pipe W K S Rn H) :
    (failure_chain (chain_tail c) p).2.reg = p.reg := by
  apply failure_chain_preserves (fun q : Pipe W K S Rn H => q.reg)
  intro s hs q
  simp only [chain_tail, List.mem_cons, List.mem_singleton, List.not_mem_nil, or_false] at hs
  rcases hs with h | h | h | h <;> subst h <;> rfl

omit [LinearOrderedField K] in
theorem chain_init_reg_tform (c : Collab W K S Rn H I) (p : Pipe W K S Rn H) :
    (failure_chain [step_init_src c, step_init_ref c] p).2.reg = p.reg ∧
    (failure_chain [step_init_src c, step_init_ref c] p).2.tform = p.tform := by
  constructor
  · apply failure_chain_preserves (fun q : Pipe W K S Rn H => q.reg)
    intro s hs q
    simp only [List.mem_cons, List.mem_singleton, List.not_mem_nil, or_false] at hs
    rcases hs with h | h <;> subst h <;> rfl
  · apply failure_chain_preserves (fun q : Pipe W K S Rn H => q.tform)
    intro s hs q
    simp only [List.mem_cons, List.mem_singleton, List.not_mem_nil, or_false] at hs
    rcases hs with h | h <;> subst h <;> rfl

theorem register_eq_chain (c : Collab W K S Rn H I) (e : Env W)
    (reg : Reg_SIFT3D K S Rn H) (t : Tform K) (u : Mat_rm K)
    (hsrc : 0 < reg.desc_src.num) (href : 0 < reg.desc_ref.num) :
    register_SIFT3D c e reg (some t) = register_chain c e reg t u := by
  unfold register_SIFT3D register_chain
  rw [if_neg (not_le.mpr hsrc), if_neg (not_le.mpr href)]
  lift_lets
  extract_lets r1 reg1 r2 reg2 a b
  have s1 : step_match c { env := e, reg := reg, tform := t, src_mm := u, ref_mm := u } =
      (r1.ret, { env := r1.env, reg := reg1, tform := t, src_mm := u, ref_mm := u }) := rfl
  have s2 : step_coords c { env := r1.env, reg := reg1, tform := t, src_mm := u, ref_mm := u } =
      (r2.ret, { env := r2.env, reg := reg2, tform := t, src_mm := u, ref_mm := u }) := rfl
  have ha : a = failure_chain (chain_head c)
      { env := e, reg := reg, tform := t, src_mm := u, ref_mm := u } := rfl
  have hb : b = failure_chain (chain_tail c) a.2 := rfl
  have ht := register_tform_eq_chain c r2.env reg2 t u u
  have hi := chain_init_reg_tform c
    { env := r2.env, reg := reg2, tform := t, src_mm := u, ref_mm := u }
  have hr := chain_tail_reg c (failure_chain [step_init_src c, step_init_ref c]
    { env := r2.env, reg := reg2, tform := t, src_mm := u, ref_mm := u }).2
  clear_value b a reg2 r2 reg1 r1
  subst hb
  simp only [chain_head, failure_chain_cons, s1, ne_eq] at ha
  by_cases c1 : r1.ret = 0
  swap
  · simp only [c1, not_false_eq_true, if_true] at ha
    subst ha
    simp only [c1, ne_eq, not_false_eq_true, if_true]
  simp only [c1, not_true_eq_false, if_false, s2] at ha
  by_cases c2 : r2.ret = 0
  swap
  · simp only [c2, not_false_eq_true, if_true] at ha
    subst ha
    simp only [c1, c2, ne_eq, not_true_eq_false, not_false_eq_true, if_true, if_false]
  simp only [c2, not_true_eq_false, if_false, ← failure_chain_cons] at ha
  subst ha
  simp only [c1, c2, ne_eq, not_true_eq_false, if_false, ht]
  simp only [hi.1, hi.2, hr]

omit [LinearOrderedField K] in
theorem step_logs_match (c : Collab W K S Rn H I) :
    Step_logs (step_match c) [Call.nn_match_fb] := by
  intro p
  exact ⟨[Call.nn_match_fb], rfl, rfl, by simp⟩

omit [LinearOrderedField K] in
theorem step_logs_coords (c : Collab W K S Rn H I) :
    Step_logs (step_coords c) [Call.matches_to_Mat_rm] := by
  intro p
  exact ⟨[Call.matches_to_Mat_rm], rfl, rfl, by simp⟩

omit [LinearOrderedField K] in
theorem step_logs_init_src (c : Collab W K S Rn H I) :
    Step_logs (step_init_src c) [] := by
  intro p
  exact ⟨[Call.init_Mat_rm], rfl, rfl, by simp⟩

omit [LinearOrderedField K] in
theorem step_logs_init_ref (c : Collab W K S Rn H I) :
    Step_logs (step_init_ref c) [] := by
  intro p
  exact ⟨[Call.init_Mat_rm], rfl, rfl, by simp⟩

theorem filter_copies (l : List Call) (h : ∀ x ∈ l, x = Call.copy_Mat_rm) :
    l.filter Call.is_step = [] ∧ ∀ x : Side, Call.cleanup_Mat_rm x ∉ l := by
  constructor
  · rw [List.filter_eq_nil_iff]
    intro x hx
    rw [h x hx]
    decide
  · intro x hx
    have := h _ hx
    exact Call.noConfusion this

theorem step_logs_toPhysical_src (c : Collab W K S Rn H I) :
    Step_logs (step_toPhysical_src c) [Call.im2mm Side.src] := by
  intro p
  obtain ⟨l, hl, hP⟩ := grows_im2mm (fun x => x = Call.copy_Mat_rm) rfl c
    (note (Call.im2mm Side.src) p.env) p.reg.match_src p.reg.src_units p.src_mm
  obtain ⟨hf, hc⟩ := filter_copies l hP
  refine ⟨[Call.im2mm Side.src] ++ l, ?_, ?_, ?_⟩
  · show (im2mm c (note (Call.im2mm Side.src) p.env) p.reg.match_src p.reg.src_units
      p.src_mm).env.log = _
    rw [hl, ← List.append_assoc]
    rfl
  · rw [List.filter_append, hf]
    rfl
  · intro x hx
    rcases List.mem_append.mp hx with h | h
    · simp at h
    · exact hc x h

theorem step_logs_toPhysical_ref (c : Collab W K S Rn H I) :
    Step_logs (step_toPhysical_ref c) [Call.im2mm Side.ref] := by
  intro p
  obtain ⟨l, hl, hP⟩ := grows_im2mm (fun x => x = Call.copy_Mat_rm) rfl c
    (note (Call.im2mm Side.ref) p.env) p.reg.match_ref p.reg.ref_units p.ref_mm
  obtain ⟨hf, hc⟩ := filter_copies l hP
  refine ⟨[Call.im2mm Side.ref] ++ l, ?_, ?_, ?_⟩
  · show (im2mm c (note (Call.im2mm Side.ref) p.env) p.reg.match_ref p.reg.ref_units
      p.ref_mm).env.log = _
    rw [hl, ← List.append_assoc]
    rfl
  · rw [List.filter_append, hf]
    rfl
  · intro x hx
    rcases List.mem_append.mp hx with h | h
    · simp at h
    · exact hc x h

omit [LinearOrderedField K] in
theorem step_logs_estimate (c : Collab W K S Rn H I) :
    Step_logs (step_estimate c) [Call.find_tform_ransac] := by
  intro p
  exact ⟨[Call.find_tform_ransac], rfl, rfl, by simp⟩

theorem step_logs_toVoxel :
    Step_logs (step_toVoxel : Pipe W K S Rn H → Int × Pipe W K S Rn H) [Call.mm2im] := by
  intro p
  exact ⟨[Call.mm2im], rfl, rfl, by simp⟩

omit [LinearOrderedField K] in
theorem chain_logs_nil :
    Chain_logs (failure_chain ([] : List (Pipe W K S Rn H → Int × Pipe W K S Rn H))) [] := by
  intro p
  exact ⟨[], 0, by simp [failure_chain_nil], rfl, fun _ => rfl, by simp⟩

omit [LinearOrderedField K] in
theorem chain_logs_cons (s : Pipe W K S Rn H → Int × Pipe W K S Rn H)
    (rest : List (Pipe W K S Rn H → Int × Pipe W K S Rn H)) (ts T : List Call)
    (hs : Step_logs s ts) (hrest : Chain_logs (failure_chain rest) T) :
    Chain_logs (failure_chain (s :: rest)) (ts ++ T) := by
  intro p
  obtain ⟨l1, e1, f1, c1⟩ := hs p
  rw [failure_chain_cons]
  by_cases h : (s p).1 ≠ 0
  · rw [if_pos h]
    refine ⟨l1, ts.length, e1, ?_, ?_, c1⟩
    · rw [f1, List.take_left]
    · intro h0
      exact absurd h0 h
  · rw [if_neg h]
    obtain ⟨l2, n2, e2, f2, g2, c2⟩ := hrest (s p).2
    refine ⟨l1 ++ l2, ts.length + n2, ?_, ?_, ?_, ?_⟩
    · rw [e2, e1, List.append_assoc]
    · rw [List.filter_append, f1, f2, List.take_append]
    · intro h0
      rw [List.filter_append, f1, g2 h0]
    · intro x hx
      rcases List.mem_append.mp hx with h' | h'
      · exact c1 x h'
      · exact c2 x h'

omit [LinearOrderedField K] in
theorem chain_logs_head (c : Collab W K S Rn H I) :
    Chain_logs (failure_chain (chain_head c))
      [Call.nn_match_fb, Call.matches_to_Mat_rm] :=
  chain_logs_cons _ _ _ _ (step_logs_match c)
    (chain_logs_cons _ _ _ _ (step_logs_coords c)
      (chain_logs_cons _ _ _ _ (step_logs_init_src c)
        (chain_logs_cons _ _ _ _ (step_logs_init_ref c) chain_logs_nil)))

theorem chain_logs_tail (c : Collab W K S Rn H I) :
    Chain_logs (failure_chain (chain_tail c))
      [Call.im2mm Side.src, Call.im2mm Side.ref, Call.find_tform_ransac, Call.mm2im] :=
  chain_logs_cons _ _ _ _ (step_logs_toPhysical_src c)
    (chain_logs_cons _ _ _ _ (step_logs_toPhysical_ref c)
      (chain_logs_cons _ _ _ _ (step_logs_estimate c)
        (chain_logs_cons _ _ _ _ step_logs_toVoxel chain_logs_nil)))

/-- C14: with both descriptor stores non-empty and a non-null transform,
`register_SIFT3D` is the strict failure chain `register_chain`: match,
coordinate extraction, initialisation of the two temporaries, `toPhysical` of
the source side, of the reference side, robust estimation, `toVoxel`, the
first step with a non-zero status ending the call in failure with no later
step attempted, and the two temporaries released on every exit taken once
both are initialised.  On the log: the steps proper among the calls added are
an initial segment of the six in the order of the specification, all six when
the call succeeds; each temporary is released exactly once when the chain up
to the initialisations went through, and not at all otherwise. -/
theorem register_SIFT3D_failure_chain (c : Collab W K S Rn H I) (e : Env W)
    (reg : Reg_SIFT3D K S Rn H) (t : Tform K) (u : Mat_rm K)
    (hsrc : 0 < reg.desc_src.num) (href : 0 < reg.desc_ref.num) :
    register_SIFT3D c e reg (some t) = register_chain c e reg t u ∧
    ∃ (l : List Call) (n : Nat),
      (register_SIFT3D c e reg (some t)).env.log = e.log ++ l ∧
      l.filter Call.is_step = pipeline_steps.take n ∧
      ((register_SIFT3D c e reg (some t)).ret = SIFT3D_SUCCESS →
        l.filter Call.is_step = pipeline_steps) ∧
      ((failure_chain (chain_head c)
          { env := e, reg := reg, tform := t, src_mm := u, ref_mm := u }).1 = 0 →
        l.count (Call.cleanup_Mat_rm Side.src) = 1 ∧
        l.count (Call.cleanup_Mat_rm Side.ref) = 1) ∧
      ((failure_chain (chain_head c)
          { env := e, reg := reg, tform := t, src_mm := u, ref_mm := u }).1 ≠ 0 →
        l.count (Call.cleanup_Mat_rm Side.src) = 0 ∧
        l.count (Call.cleanup_Mat_rm Side.ref) = 0) := by
  refine ⟨register_eq_chain c e reg t u hsrc href, ?_⟩
  rw [register_eq_chain c e reg t u hsrc href]
  unfold register_chain
  obtain ⟨la, na, ea, fa, ga, ca⟩ := chain_logs_head c
    { env := e, reg := reg, tform := t, src_mm := u, ref_mm := u }
  generalize failure_chain (chain_head c)
    { env := e, reg := reg, tform := t, src_mm := u, ref_mm := u } = a at ea fa ga ca ⊢
  simp only at ea
  by_cases h : a.1 ≠ 0
  · simp only [if_pos h]
    refine ⟨la, min na 2, ea, ?_, ?_, ?_, ?_⟩
    · rw [fa, ← List.take_take]
      rfl
    · intro hs
      exact absurd hs (by decide)
    · intro h0
      exact absurd h0 h
    · intro _
      exact ⟨List.count_eq_zero_of_not_mem (ca _), List.count_eq_zero_of_not_mem (ca _)⟩
  · simp only [if_neg h]
    have h0 : a.1 = 0 := not_not.mp h
    obtain ⟨lb, nb, eb, fb, gb, cb⟩ := chain_logs_tail c a.2
    generalize failure_chain (chain_tail c) a.2 = b at eb fb gb cb ⊢
    refine ⟨la ++ lb ++ [Call.cleanup_Mat_rm Side.src, Call.cleanup_Mat_rm Side.ref], 2 + nb,
      ?_, ?_, ?_, ?_, ?_⟩
    · simp only [release, call_void]
      rw [eb, ea]
      simp
    · rw [List.filter_append, List.filter_append, ga h0, fb]
      have : pipeline_steps = [Call.nn_match_fb, Call.matches_to_Mat_rm] ++
          [Call.im2mm Side.src, Call.im2mm Side.ref, Call.find_tform_ransac, Call.mm2im] := rfl
      rw [this, show 2 = [Call.nn_match_fb, Call.matches_to_Mat_rm].length from rfl,
        List.take_append]
      simp [Call.is_step]
    · intro hs
      have hb0 : b.1 = 0 := by
        by_contra hb
        simp [hb, SIFT3D_FAILURE, SIFT3D_SUCCESS] at hs
      rw [List.filter_append, List.filter_append, ga h0, gb hb0]
      rfl
    · intro _
      simp only [List.count_append, List.count_eq_zero_of_not_mem (ca _),
        List.count_eq_zero_of_not_mem (cb _)]
      exact ⟨by decide, by decide⟩
    · intro hne
      exact absurd h0 hne

/-- C14, witness: a registration that fails at the robust estimator. -/
theorem register_SIFT3D_failure_chain_witness :
    0 < Sample.loaded.desc_src.num ∧ 0 < Sample.loaded.desc_ref.num ∧
    register_SIFT3D (Sample.collab (-1)) Sample.env0 Sample.loaded
        (some (Tform.affine { A := Sample.A })) =
      register_chain (Sample.collab (-1)) Sample.env0 Sample.loaded
        (Tform.affine { A := Sample.A }) Sample.empty :=
  ⟨by decide, by decide,
    (register_SIFT3D_failure_chain (Sample.collab (-1)) Sample.env0 Sample.loaded
      (Tform.affine { A := Sample.A }) Sample.empty (by decide) (by decide)).1⟩

end Chain

end SIFT3D

namespace SIFT3D

/-! ## Harmonisation factors and rescaling -/

section Harmonise

variable {W K S Rn H I : Type} [LinearOrderedField K]

theorem SIFT3D_MIN_eq_min (a b : K) : SIFT3D_MIN a b = min a b := by
  unfold SIFT3D_MIN
  split_ifs with h
  · exact (min_eq_left (le_of_lt h)).symm
  · exact (min_eq_right (not_lt.mp h)).symm

theorem register_stores (c : Collab W K S Rn H I) (e : Env W) (reg : Reg_SIFT3D K S Rn H)
    (tform : Option (Tform K)) :
    (register_SIFT3D c e reg tform).val.1.kp_src = reg.kp_src ∧
    (register_SIFT3D c e reg tform).val.1.desc_src = reg.desc_src ∧
    (register_SIFT3D c e reg tform).val.1.kp_ref = reg.kp_ref ∧
    (register_SIFT3D c e reg tform).val.1.desc_ref = reg.desc_ref := by
  unfold register_SIFT3D
  lift_lets
  extract_lets r1 reg1 r2 reg2
  have h2 : reg2.kp_src = reg.kp_src ∧ reg2.desc_src = reg.desc_src ∧
      reg2.kp_ref = reg.kp_ref ∧ reg2.desc_ref = reg.desc_ref := ⟨rfl, rfl, rfl, rfl⟩
  have h1 : reg1.kp_src = reg.kp_src ∧ reg1.desc_src = reg.desc_src ∧
      reg1.kp_ref = reg.kp_ref ∧ reg1.desc_ref = reg.desc_ref := ⟨rfl, rfl, rfl, rfl⟩
  clear_value reg2 reg1
  split_ifs
  · exact ⟨rfl, rfl, rfl, rfl⟩
  · exact ⟨rfl, rfl, rfl, rfl⟩
  · exact h1
  · exact h2
  · cases tform with
    | none => exact h2
    | some t =>
      simp only
      rw [register_tform_session c _ _ t]
      exact h2

theorem resample_session (c : Collab W K S Rn H I) (e : Env W)
    (reg : Reg_SIFT3D K S Rn H) (src ref : Image K I) (interp : interp_type)
    (tform : Option (Tform K)) (hne : src.units ≠ ref.units)
    (q1 q2 : Ret (Env W) (Image K I)) (r1 r2 : Ret (Env W) (Reg_SIFT3D K S Rn H))
    (hq1 : q1 = call (Call.im_resample Side.src)
      (fun w => c.im_resample w src (fun i => SIFT3D_MIN (src.units i) (ref.units i)) interp
        c.init_im) e)
    (hq2 : q2 = call (Call.im_resample Side.ref)
      (fun w => c.im_resample w ref (fun i => SIFT3D_MIN (src.units i) (ref.units i)) interp
        c.init_im) q1.env)
    (hr1 : r1 = set_src_Reg_SIFT3D c q2.env reg q1.val)
    (hr2 : r2 = set_ref_Reg_SIFT3D c r1.env r1.val q2.val)
    (ok1 : q1.ret = 0) (ok2 : q2.ret = 0) (ok3 : r1.ret = 0) (ok4 : r2.ret = 0) :
    (register_SIFT3D_resample c e reg src ref interp tform).val.1.kp_src =
      (scale_SIFT3D c.pow
        (fun i => SIFT3D_MIN (src.units i) (ref.units i) / src.units i)
        r2.val.kp_src r2.val.desc_src).1 ∧
    (register_SIFT3D_resample c e reg src ref interp tform).val.1.desc_src =
      (scale_SIFT3D c.pow
        (fun i => SIFT3D_MIN (src.units i) (ref.units i) / src.units i)
        r2.val.kp_src r2.val.desc_src).2 ∧
    (register_SIFT3D_resample c e reg src ref interp tform).val.1.kp_ref =
      (scale_SIFT3D c.pow
        (fun i => SIFT3D_MIN (src.units i) (ref.units i) / ref.units i)
        r2.val.kp_ref r2.val.desc_ref).1 ∧
    (register_SIFT3D_resample c e reg src ref interp tform).val.1.desc_ref =
      (scale_SIFT3D c.pow
        (fun i => SIFT3D_MIN (src.units i) (ref.units i) / ref.units i)
        r2.val.kp_ref r2.val.desc_ref).2 := by
  unfold register_SIFT3D_resample
  rw [if_neg hne]
  lift_lets
  extract_lets umin fs fr q1' q2' r1' r2' s1 s2 reg2 reg3 e3 r3 e4 e5
  have e1 : q1' = q1 := hq1.symm
  clear_value q1'
  subst e1
  have e2 : q2' = q2 := hq2.symm
  clear_value q2'
  subst e2
  have e3' : r1' = r1 := hr1.symm
  clear_value r1'
  subst e3'
  have e4' : r2' = r2 := hr2.symm
  clear_value r2'
  subst e4'
  have hst := register_stores c e3 reg3 tform
  have hr3 : r3 = register_SIFT3D c e3 reg3 tform := rfl
  have k1 : reg3.kp_src = s1.1 := rfl
  have k2 : reg3.desc_src = s1.2 := rfl
  have k3 : reg3.kp_ref = s2.1 := rfl
  have k4 : reg3.desc_ref = s2.2 := rfl
  clear_value r3 reg3
  subst hr3
  rw [k1, k2, k3, k4] at hst
  simp only [ok1, ok2, ok3, ok4, ne_eq, not_true_eq_false, if_false]
  split_ifs <;> exact hst

theorem scale_Keypoint_coord (f : Fin IM_NDIMS → K) (det sf : K) (key : Keypoint K)
    (i : Fin IM_NDIMS) : (scale_Keypoint f det sf key).coord i = key.coord i * f i := by
  fin_cases i <;> rfl

theorem scale_Descriptor_coord (f : Fin IM_NDIMS → K) (sf : K) (d : SIFT3D_Descriptor K H)
    (i : Fin IM_NDIMS) : (scale_Descriptor f sf d).coord i = d.coord i * f i := by
  fin_cases i <;> rfl

theorem factors_range (a b : Fin IM_NDIMS → K) (ha : ∀ i, 0 < a i) (hb : ∀ i, 0 < b i)
    (i : Fin IM_NDIMS) :
    (0 < factors (units_min a b) a i ∧ factors (units_min a b) a i ≤ 1) ∧
    (0 < factors (units_min a b) b i ∧ factors (units_min a b) b i ≤ 1) := by
  have hm : 0 < min (a i) (b i) := lt_min (ha i) (hb i)
  refine ⟨⟨div_pos hm (ha i), ?_⟩, ⟨div_pos hm (hb i), ?_⟩⟩
  · exact (div_le_one (ha i)).mpr (min_le_left _ _)
  · exact (div_le_one (hb i)).mpr (min_le_right _ _)

theorem scaled_keypoints (pow : K → K → K) (f orig umin : Fin IM_NDIMS → K)
    (hf : ∀ i, f i * orig i = umin i)
    (kp : Keypoint_store K) (d : SIFT3D_Descriptor_store K H)
    (hkp : kp.slab.num = kp.buf.length) (hd : d.num = d.buf.length) :
    List.Forall₂ (fun key key' : Keypoint K => ∀ i : Fin IM_NDIMS,
        key'.coord i = key.coord i * f i ∧ key'.coord i * orig i = key.coord i * umin i)
      kp.buf (scale_SIFT3D pow f kp d).1.buf ∧
    List.Forall₂ (fun x x' : SIFT3D_Descriptor K H => ∀ i : Fin IM_NDIMS,
        x'.coord i = x.coord i * f i ∧ x'.coord i * orig i = x.coord i * umin i)
      d.buf (scale_SIFT3D pow f kp d).2.buf := by
  have hk : kp.slab.num.toNat = kp.buf.length := by rw [hkp]; exact Int.toNat_ofNat _
  have hdn : d.num.toNat = d.buf.length := by rw [hd]; exact Int.toNat_ofNat _
  simp only [scale_SIFT3D, hk, hdn, for_cells_length]
  constructor
  · apply forall₂_map_of_forall
    intro key _ i
    rw [scale_Keypoint_coord]
    exact ⟨rfl, by rw [mul_assoc, hf i]⟩
  · apply forall₂_map_of_forall
    intro x _ i
    rw [scale_Descriptor_coord]
    exact ⟨rfl, by rw [mul_assoc, hf i]⟩

/-- C17: for images with positive, differing unit vectors,
`register_SIFT3D_resample` resamples both to `unitsMin[i] = min(srcUnits[i],
refUnits[i])` and, when both resamplings and both feature extractions
succeed, rescales the features with `factorsSrc[i] = unitsMin[i]/srcUnits[i]`
and `factorsRef[i] = unitsMin[i]/refUnits[i]`: every factor lies in `(0, 1]`,
and every keypoint and descriptor extracted at coordinate `x` on axis `i` of
the resampled image is stored in the session the call leaves at
`c = x·factor[i]`, so that `c·origUnits[i] = x·unitsMin[i]`.  The stores after
step 5 are those of the final session: `register_SIFT3D` does not write them.
`q1`, `q2`, `r1`, `r2` name the results of the two resamplings and of the two
extractions; the counts of the extracted stores are their buffer lengths. -/
theorem resample_rescales_to_original_voxels (c : Collab W K S Rn H I) (e : Env W)
    (reg : Reg_SIFT3D K S Rn H) (src ref : Image K I) (interp : interp_type)
    (tform : Option (Tform K))
    (hs : ∀ i, 0 < src.units i) (hr : ∀ i, 0 < ref.units i) (hne : src.units ≠ ref.units)
    (q1 q2 : Ret (Env W) (Image K I)) (r1 r2 : Ret (Env W) (Reg_SIFT3D K S Rn H))
    (hq1 : q1 = call (Call.im_resample Side.src)
      (fun w => c.im_resample w src (units_min src.units ref.units) interp c.init_im) e)
    (hq2 : q2 = call (Call.im_resample Side.ref)
      (fun w => c.im_resample w ref (units_min src.units ref.units) interp c.init_im) q1.env)
    (hr1 : r1 = set_src_Reg_SIFT3D c q2.env reg q1.val)
    (hr2 : r2 = set_ref_Reg_SIFT3D c r1.env r1.val q2.val)
    (ok1 : q1.ret = 0) (ok2 : q2.ret = 0) (ok3 : r1.ret = 0) (ok4 : r2.ret = 0)
    (wks : r2.val.kp_src.slab.num = r2.val.kp_src.buf.length)
    (wds : r2.val.desc_src.num = r2.val.desc_src.buf.length)
    (wkr : r2.val.kp_ref.slab.num = r2.val.kp_ref.buf.length)
    (wdr : r2.val.desc_ref.num = r2.val.desc_ref.buf.length) :
    (∀ i, (0 < factors (units_min src.units ref.units) src.units i ∧
        factors (units_min src.units ref.units) src.units i ≤ 1) ∧
      (0 < factors (units_min src.units ref.units) ref.units i ∧
        factors (units_min src.units ref.units) ref.units i ≤ 1)) ∧
    List.Forall₂ (fun key key' : Keypoint K => ∀ i : Fin IM_NDIMS,
        key'.coord i = key.coord i * factors (units_min src.units ref.units) src.units i ∧
        key'.coord i * src.units i = key.coord i * units_min src.units ref.units i)
      r2.val.kp_src.buf
      (register_SIFT3D_resample c e reg src ref interp tform).val.1.kp_src.buf ∧
    List.Forall₂ (fun x x' : SIFT3D_Descriptor K H => ∀ i : Fin IM_NDIMS,
        x'.coord i = x.coord i * factors (units_min src.units ref.units) src.units i ∧
        x'.coord i * src.units i = x.coord i * units_min src.units ref.units i)
      r2.val.desc_src.buf
      (register_SIFT3D_resample c e reg src ref interp tform).val.1.desc_src.buf ∧
    List.Forall₂ (fun key key' : Keypoint K => ∀ i : Fin IM_NDIMS,
        key'.coord i = key.coord i * factors (units_min src.units ref.units) ref.units i ∧
        key'.coord i * ref.units i = key.coord i * units_min src.units ref.units i)
      r2.val.kp_ref.buf
      (register_SIFT3D_resample c e reg src ref interp tform).val.1.kp_ref.buf ∧
    List.Forall₂ (fun x x' : SIFT3D_Descriptor K H => ∀ i : Fin IM_NDIMS,
        x'.coord i = x.coord i * factors (units_min src.units ref.units) ref.units i ∧
        x'.coord i * ref.units i = x.coord i * units_min src.units ref.units i)
      r2.val.desc_ref.buf
      (register_SIFT3D_resample c e reg src ref interp tform).val.1.desc_ref.buf := by
  have hmin : (fun i => SIFT3D_MIN (src.units i) (ref.units i)) =
      units_min src.units ref.units := by
    funext i
    exact SIFT3D_MIN_eq_min _ _
  have hfs : (fun i => SIFT3D_MIN (src.units i) (ref.units i) / src.units i) =
      factors (units_min src.units ref.units) src.units := by
    funext i
    simp only [factors, units_min, SIFT3D_MIN_eq_min]
  have hfr : (fun i => SIFT3D_MIN (src.units i) (ref.units i) / ref.units i) =
      factors (units_min src.units ref.units) ref.units := by
    funext i
    simp only [factors, units_min, SIFT3D_MIN_eq_min]
  rw [← hmin] at hq1 hq2
  obtain ⟨g1, g2, g3, g4⟩ := resample_session c e reg src ref interp tform hne q1 q2 r1 r2
    hq1 hq2 hr1 hr2 ok1 ok2 ok3 ok4
  rw [g1, g2, g3, g4, hfs, hfr]
  have as : ∀ i, factors (units_min src.units ref.units) src.units i * src.units i =
      units_min src.units ref.units i := by
    intro i
    simp only [factors]
    exact div_mul_cancel₀ _ (ne_of_gt (hs i))
  have ar : ∀ i, factors (units_min src.units ref.units) ref.units i * ref.units i =
      units_min src.units ref.units i := by
    intro i
    simp only [factors]
    exact div_mul_cancel₀ _ (ne_of_gt (hr i))
  obtain ⟨a1, a2⟩ := scaled_keypoints c.pow _ src.units _ as r2.val.kp_src r2.val.desc_src wks wds
  obtain ⟨b1, b2⟩ := scaled_keypoints c.pow _ ref.units _ ar r2.val.kp_ref r2.val.desc_ref wkr wdr
  exact ⟨factors_range src.units ref.units hs hr, a1, a2, b1, b2⟩

/-- C17, witness: a source image with 2 mm voxels and a reference image with
1 mm voxels. -/
theorem resample_rescales_to_original_voxels_witness :
    (∀ i, 0 < Sample.im2.units i) ∧ (∀ i, 0 < Sample.im1.units i) ∧
    Sample.im2.units ≠ Sample.im1.units ∧
    (∀ i, (0 < factors (units_min Sample.im2.units Sample.im1.units) Sample.im2.units i ∧
        factors (units_min Sample.im2.units Sample.im1.units) Sample.im2.units i ≤ 1) ∧
      (0 < factors (units_min Sample.im2.units Sample.im1.units) Sample.im1.units i ∧
        factors (units_min Sample.im2.units Sample.im1.units) Sample.im1.units i ≤ 1)) ∧
    List.Forall₂ (fun key key' : Keypoint ℚ => ∀ i : Fin IM_NDIMS,
        key'.coord i =
          key.coord i * factors (units_min Sample.im2.units Sample.im1.units) Sample.im2.units i ∧
        key'.coord i * Sample.im2.units i =
          key.coord i * units_min Sample.im2.units Sample.im1.units i)
      (Sample.kp ℚ).buf
      (register_SIFT3D_resample (Sample.collab 0) Sample.env0 Sample.blank Sample.im2 Sample.im1
        interp_type.LINEAR none).val.1.kp_src.buf :=
  ⟨by decide, by decide, by decide,
    (resample_rescales_to_original_voxels (Sample.collab 0) Sample.env0 Sample.blank
      Sample.im2 Sample.im1 interp_type.LINEAR none (by decide) (by decide) (by decide)
      _ _ _ _ rfl rfl rfl rfl rfl rfl rfl rfl rfl rfl rfl rfl).1,
    (resample_rescales_to_original_voxels (Sample.collab 0) Sample.env0 Sample.blank
      Sample.im2 Sample.im1 interp_type.LINEAR none (by decide) (by decide) (by decide)
      _ _ _ _ rfl rfl rfl rfl rfl rfl rfl rfl rfl rfl rfl rfl).2.1⟩

end Harmonise

end SIFT3D

namespace SIFT3D

/-! ## Coordinates handed to the estimator on the resampling path -/

section Physical

/-- C18: evaluation at a pair of images with different units (source units 2, reference
units 1, one keypoint detected at voxel (1, 2, 3) of each resampled image). The combined
entry point succeeds; the coordinate matrices it hands to the estimator are (1/2, 1, 3/2) for
the source and (1, 2, 3) for the reference; the stored source coordinate is (1/2, 1, 3/2),
whose physical position (coordinate times the units of the original source image) is
(1, 2, 3); and the units stored for the source are the minimum units, not the units of the
original image. So the source matrix handed to the estimator is the stored coordinate times
the minimum units, not the physical position. -/
theorem resample_hands_estimator_unscaled_coordinates :
    (register_SIFT3D_resample Sample.probe Sample.probe_env0 Sample.blank Sample.im2 Sample.im1
      interp_type.LINEAR (some (Tform.affine { A := Sample.A }))).ret = SIFT3D_SUCCESS ∧
    (register_SIFT3D_resample Sample.probe Sample.probe_env0 Sample.blank Sample.im2 Sample.im1
      interp_type.LINEAR (some (Tform.affine { A := Sample.A }))).env.w =
      [{ num_rows := 1, num_cols := 3, type := Mat_rm_type.DOUBLE, data := [1 / 2, 1, 3 / 2] },
       { num_rows := 1, num_cols := 3, type := Mat_rm_type.DOUBLE, data := [1, 2, 3] }] ∧
    (register_SIFT3D_resample Sample.probe Sample.probe_env0 Sample.blank Sample.im2 Sample.im1
      interp_type.LINEAR (some (Tform.affine { A := Sample.A }))).val.1.desc_src.buf.map
        (fun d => [d.xd, d.yd, d.zd]) = [[1 / 2, 1, 3 / 2]] ∧
    (register_SIFT3D_resample Sample.probe Sample.probe_env0 Sample.blank Sample.im2 Sample.im1
      interp_type.LINEAR (some (Tform.affine { A := Sample.A }))).val.1.desc_src.buf.map
        (fun d => [d.xd * Sample.im2.units 0, d.yd * Sample.im2.units 1,
          d.zd * Sample.im2.units 2]) = [[1, 2, 3]] ∧
    (register_SIFT3D_resample Sample.probe Sample.probe_env0 Sample.blank Sample.im2 Sample.im1
      interp_type.LINEAR (some (Tform.affine { A := Sample.A }))).val.1.src_units =
      units_min Sample.im2.units Sample.im1.units := by
  have hne : ¬ ((![2, 2, 2] : Fin IM_NDIMS → ℚ) = ![1, 1, 1]) := by decide
  have hu : units_min Sample.im2.units Sample.im1.units = ![1, 1, 1] := by
    funext i
    fin_cases i <;> simp [units_min, Sample.im2, Sample.im1, Sample.units2, Sample.units1]
  rw [hu]
  simp [register_SIFT3D_resample, hne, Sample.probe, Sample.probe_env0, Sample.blank,
    Sample.im2, Sample.im1, Sample.units2, Sample.units1, call, call_void, note,
    set_src_Reg_SIFT3D, set_ref_Reg_SIFT3D, register_SIFT3D, register_SIFT3D_tform,
    register_SIFT3D_quit, register_interp_quit, scale_SIFT3D, scale_det, scale_Keypoint,
    scale_Descriptor, for_cells, Sample.kp, Sample.key, Sample.coords, Sample.collab, im2mm,
    mm2im, SIFT3D_MAT_RM_LOOP, Mat_rm.loop_rows, Mat_rm.loop_cols, Mat_rm.SET, Mat_rm.GET, at_,
    SIFT3D_MIN, Sample.A, Sample.pow, Sample.empty, SIFT3D_SUCCESS, SIFT3D_FAILURE]
  norm_num
  funext i
  fin_cases i <;> simp

end Physical

end SIFT3D

namespace SIFT3D

/-! ## Consistency of the two conversions -/

section Consistency

variable {W K S Rn H I : Type} [LinearOrderedField K]

theorem mm2im_loop_apply (A : Mat_rm K) (src_units ref_units q : Fin IM_NDIMS → K)
    (hwf : A.WF) (hrows : A.num_rows = IM_NDIMS) (hcols : A.num_cols = IM_NDIMS + 1)
    (hsrc : ∀ i, 0 < src_units i) (i : Fin IM_NDIMS) :
    apply_Affine (SIFT3D_MAT_RM_LOOP A (fun i j a =>
        a * (if j < IM_NDIMS then at_ ref_units j else 1) / at_ src_units i)) q i * src_units i =
      apply_Affine A (fun j => q j * ref_units j) i := by
  have hi : i.val < A.num_rows := by rw [hrows]; exact i.isLt
  have g : ∀ j, j < 4 → (SIFT3D_MAT_RM_LOOP A (fun i j a =>
        a * (if j < IM_NDIMS then at_ ref_units j else 1) / at_ src_units i)).GET i j =
        A.GET i j * (if j < IM_NDIMS then at_ ref_units j else 1) / at_ src_units i := by
    intro j hj
    exact SIFT3D_MAT_RM_LOOP_GET _ A hwf i j hi (by rw [hcols]; exact hj)
  simp only [apply_Affine, g 0 (by omega), g 1 (by omega), g 2 (by omega), g 3 (by omega)]
  have e0 : at_ ref_units 0 = ref_units 0 := at_val ref_units 0
  have e1 : at_ ref_units 1 = ref_units 1 := at_val ref_units 1
  have e2 : at_ ref_units 2 = ref_units 2 := at_val ref_units 2
  simp only [e0, e1, e2, at_val src_units i]
  have hne : src_units i ≠ 0 := ne_of_gt (hsrc i)
  norm_num
  field_simp
  ring

theorem point_row_GET (q : Fin IM_NDIMS → K) (i : Fin IM_NDIMS) :
    (point_row q).GET 0 i = q i := by
  fin_cases i <;> (simp [point_row, Mat_rm.GET]; try rfl)

theorem im2mm_point_row (c : Collab W K S Rn H I) (e : Env W) (q u : Fin IM_NDIMS → K)
    (mm : Mat_rm K) (hcopy : c.copy_faithful)
    (hok : (c.copy_Mat_rm e.w (point_row q) mm).ret = 0) (i : Fin IM_NDIMS) :
    (im2mm c e (point_row q) u mm).val.GET 0 i = q i * u i := by
  rw [im2mm_ok c e (point_row q) u mm rfl rfl hok hcopy]
  simp only
  rw [SIFT3D_MAT_RM_LOOP_GET _ _ (by simp [Mat_rm.WF, point_row]) 0 i (by simp [point_row])
    (by simp [point_row])]
  rw [point_row_GET, at_val]

theorem im2mm_success (c : Collab W K S Rn H I) (e : Env W) (P : Mat_rm K)
    (u : Fin IM_NDIMS → K) (mm : Mat_rm K) (hcopy : c.copy_faithful)
    (h : (im2mm c e P u mm).ret = 0) :
    (im2mm c e P u mm).val = SIFT3D_MAT_RM_LOOP P (fun _ j a => a * at_ u j) ∧
      P.num_cols = IM_NDIMS := by
  unfold im2mm at h ⊢
  simp only [call] at h ⊢
  split_ifs at h ⊢ with h1 h2 h3
  · simp [SIFT3D_FAILURE] at h
  · simp [SIFT3D_FAILURE] at h
  · simp [SIFT3D_FAILURE] at h
  · refine ⟨?_, not_not.mp h1⟩
    simp only
    rw [hcopy _ _ _ (not_not.mp h3)]

theorem register_tform_success (c : Collab W K S Rn H I) (e : Env W)
    (reg : Reg_SIFT3D K S Rn H) (t : Tform K) (hcopy : c.copy_faithful)
    (hret : (register_SIFT3D_tform c e reg t).ret = SIFT3D_SUCCESS) :
    reg.match_src.num_cols = IM_NDIMS ∧ reg.match_ref.num_cols = IM_NDIMS ∧ ∃ w : W,
      (c.find_tform_ransac w reg.ran
        (SIFT3D_MAT_RM_LOOP reg.match_src (fun _ j a => a * at_ reg.src_units j))
        (SIFT3D_MAT_RM_LOOP reg.match_ref (fun _ j a => a * at_ reg.ref_units j)) t).ret = 0 ∧
      (register_SIFT3D_tform c e reg t).val.2 = some (mm2im reg.src_units reg.ref_units
        (c.find_tform_ransac w reg.ran
          (SIFT3D_MAT_RM_LOOP reg.match_src (fun _ j a => a * at_ reg.src_units j))
          (SIFT3D_MAT_RM_LOOP reg.match_ref (fun _ j a => a * at_ reg.ref_units j)) t).val).2 := by
  generalize hr : register_SIFT3D_tform c e reg t = r at hret ⊢
  unfold register_SIFT3D_tform at hr
  lift_lets at hr
  extract_lets r3 r4 r5 r6 r7 r8 e8 e9 e10 at hr
  have h5 : r5.ret = 0 → r5.val = _ := fun h => (im2mm_success c _ _ _ _ hcopy h).1
  have h6 : r6.ret = 0 → r6.val = _ := fun h => (im2mm_success c _ _ _ _ hcopy h).1
  have k5 : r5.ret = 0 → reg.match_src.num_cols = IM_NDIMS :=
    fun h => (im2mm_success c _ _ _ _ hcopy h).2
  have k6 : r6.ret = 0 → reg.match_ref.num_cols = IM_NDIMS :=
    fun h => (im2mm_success c _ _ _ _ hcopy h).2
  have h7 : r7 = call Call.find_tform_ransac
      (fun w => c.find_tform_ransac w reg.ran r5.val r6.val t) r6.env := rfl
  have h8 : r8 = mm2im reg.src_units reg.ref_units r7.val := rfl
  clear_value r8 r7 r6 r5
  split_ifs at hr with c3 c4 c5 c6 c7 c8 <;> subst hr
  all_goals try (simp [SIFT3D_FAILURE, SIFT3D_SUCCESS, register_SIFT3D_quit] at hret; done)
  refine ⟨k5 (not_not.mp c5), k6 (not_not.mp c6), r6.env.w, ?_, ?_⟩
  · rw [← h5 (not_not.mp c5), ← h6 (not_not.mp c6)]
    have := not_not.mp c7
    rw [h7] at this
    exact this
  · rw [← h5 (not_not.mp c5), ← h6 (not_not.mp c6)]
    simp only [h8, h7, call]

theorem register_success_tform (c : Collab W K S Rn H I) (e : Env W)
    (reg : Reg_SIFT3D K S Rn H) (t : Tform K)
    (hret : (register_SIFT3D c e reg (some t)).ret = SIFT3D_SUCCESS) :
    (register_SIFT3D c e reg (some t)).val.1.ran = reg.ran ∧
    ∃ e1 : Env W, register_SIFT3D c e reg (some t) =
      register_SIFT3D_tform c e1 (register_SIFT3D c e reg (some t)).val.1 t := by
  generalize hr : register_SIFT3D c e reg (some t) = r at hret ⊢
  unfold register_SIFT3D at hr
  lift_lets at hr
  extract_lets r1 reg1 r2 reg2 at hr
  have h2 : reg2.ran = reg.ran := rfl
  clear_value reg2 reg1
  split_ifs at hr <;> subst hr
  all_goals try (simp [SIFT3D_FAILURE, SIFT3D_SUCCESS] at hret; done)
  simp only
  rw [register_tform_session c _ _ t]
  exact ⟨h2, r2.env, rfl⟩

/-- C20: for a well-formed 3 x 4 affine matrix `A`, positive units and a library whose
successful matrix copies are faithful, `mm2im` succeeds and leaves a matrix `A'` such that
(1) for every reference voxel point `q`, converting `A'·[q; 1]` to mm with the source units
gives `A·[q in mm with the reference units; 1]`, both conversions done by `im2mm` on one-row
matrices whose copy succeeds; and (2) whenever `register_SIFT3D` succeeds on a session with
these units and leaves the session `s`, whose two coordinate matrices are well formed with
the same number of rows, if the estimator's result on the matrices it is handed (`src_mm` and
`ref_mm`: `match_src` and `match_ref` with column `j` multiplied by the units, the value of
`im2mm`) is `A`, and every row `k` of `src_mm` is `A·[row k of ref_mm; 1]`, then the
transform returned is `A'` and every row `k` of `match_src` is `A'·[row k of match_ref; 1]`. -/
theorem mm2im_im2mm_consistent (c : Collab W K S Rn H I) (A : Mat_rm K)
    (src_units ref_units : Fin IM_NDIMS → K)
    (hwf : A.WF) (hrows : A.num_rows = IM_NDIMS) (hcols : A.num_cols = IM_NDIMS + 1)
    (hsrc : ∀ i, 0 < src_units i) (_href : ∀ i, 0 < ref_units i) (hcopy : c.copy_faithful) :
    ∃ A' : Mat_rm K,
      mm2im src_units ref_units (Tform.affine { A := A }) =
        (SIFT3D_SUCCESS, Tform.affine { A := A' }) ∧
      (∀ (q : Fin IM_NDIMS → K) (e1 e2 : Env W) (m1 m2 : Mat_rm K),
        (c.copy_Mat_rm e1.w (point_row (fun i => apply_Affine A' q i)) m1).ret = 0 →
        (c.copy_Mat_rm e2.w (point_row q) m2).ret = 0 →
        ∀ i : Fin IM_NDIMS,
          (im2mm c e1 (point_row (fun i => apply_Affine A' q i)) src_units m1).val.GET 0 i =
            apply_Affine A (fun j => (im2mm c e2 (point_row q) ref_units m2).val.GET 0 j) i) ∧
      (∀ (e : Env W) (reg s : Reg_SIFT3D K S Rn H) (t : Tform K) (src_mm ref_mm : Mat_rm K),
        reg.src_units = src_units → reg.ref_units = ref_units →
        (register_SIFT3D c e reg (some t)).ret = SIFT3D_SUCCESS →
        (register_SIFT3D c e reg (some t)).val.1 = s →
        s.match_src.WF → s.match_ref.WF → s.match_ref.num_rows = s.match_src.num_rows →
        SIFT3D_MAT_RM_LOOP s.match_src (fun _ j a => a * at_ src_units j) = src_mm →
        SIFT3D_MAT_RM_LOOP s.match_ref (fun _ j a => a * at_ ref_units j) = ref_mm →
        (∀ w : W, (c.find_tform_ransac w reg.ran src_mm ref_mm t).ret = 0 →
          (c.find_tform_ransac w reg.ran src_mm ref_mm t).val = Tform.affine { A := A }) →
        (∀ k, k < s.match_src.num_rows → ∀ i : Fin IM_NDIMS,
          src_mm.GET k i = apply_Affine A (fun j => ref_mm.GET k j) i) →
        (register_SIFT3D c e reg (some t)).val.2 = some (Tform.affine { A := A' }) ∧
        ∀ k, k < s.match_src.num_rows → ∀ i : Fin IM_NDIMS,
          s.match_src.GET k i = apply_Affine A' (fun j => s.match_ref.GET k j) i) := by
  refine ⟨_, mm2im_affine A src_units ref_units hrows, ?_, ?_⟩
  · intro q e1 e2 m1 m2 h1 h2 i
    rw [im2mm_point_row c e1 _ src_units m1 hcopy h1 i]
    have h : (fun j : Fin IM_NDIMS => (im2mm c e2 (point_row q) ref_units m2).val.GET 0 j) =
        fun j => q j * ref_units j := by
      funext j
      exact im2mm_point_row c e2 q ref_units m2 hcopy h2 j
    rw [h]
    exact mm2im_loop_apply A src_units ref_units q hwf hrows hcols hsrc i
  · intro e reg s t src_mm ref_mm hsu hru hret hs hws hwr hnr hsm hrm hval hfit
    obtain ⟨hran, e1, he1⟩ := register_success_tform c e reg t hret
    obtain ⟨hu1, hu2⟩ := register_units c e reg (some t)
    rw [hs] at he1 hran hu1 hu2
    rw [he1] at hret
    obtain ⟨hcs, hcr, w, hw0, hw2⟩ := register_tform_success c e1 s t hcopy hret
    rw [hu1, hu2, hsu, hru, hsm, hrm, hran] at hw0 hw2
    rw [hval w hw0, mm2im_affine A src_units ref_units hrows] at hw2
    rw [he1]
    refine ⟨hw2, ?_⟩
    intro k hk i
    have hne : src_units i ≠ 0 := ne_of_gt (hsrc i)
    have key := mm2im_loop_apply A src_units ref_units (fun j => s.match_ref.GET k j)
      hwf hrows hcols hsrc i
    have hf := hfit k hk i
    rw [← hsm, ← hrm] at hf
    rw [SIFT3D_MAT_RM_LOOP_GET _ _ hws k i hk (by rw [hcs]; exact i.isLt), at_val] at hf
    have hg : (fun j : Fin IM_NDIMS => (SIFT3D_MAT_RM_LOOP s.match_ref
        (fun _ j a => a * at_ ref_units j)).GET k j) =
        fun j : Fin IM_NDIMS => s.match_ref.GET k j * ref_units j := by
      funext j
      rw [SIFT3D_MAT_RM_LOOP_GET _ _ hwr k j (by rw [hnr]; exact hk) (by rw [hcr]; exact j.isLt),
        at_val]
    rw [hg, ← key] at hf
    exact mul_right_cancel₀ hne hf

theorem Sample.matched_match_src :
    Sample.matched.match_src =
      { num_rows := 1, num_cols := 3, type := Mat_rm_type.DOUBLE, data := [1, 2, 3] } := rfl

theorem Sample.matched_match_ref :
    Sample.matched.match_ref =
      { num_rows := 1, num_cols := 3, type := Mat_rm_type.DOUBLE, data := [1, 2, 3] } := rfl

theorem Sample.A2_fits (k : Nat) (hk : k < Sample.matched.match_src.num_rows)
    (i : Fin IM_NDIMS) :
    (SIFT3D_MAT_RM_LOOP Sample.matched.match_src (fun _ j a => a * at_ Sample.units2 j)).GET k i =
      apply_Affine Sample.A2 (fun j => (SIFT3D_MAT_RM_LOOP Sample.matched.match_ref
        (fun _ j a => a * at_ Sample.units1 j)).GET k j) i := by
  rw [Sample.matched_match_src] at hk ⊢
  rw [Sample.matched_match_ref]
  have h0 : k = 0 := by
    simp only at hk
    omega
  subst h0
  fin_cases i <;>
    norm_num [SIFT3D_MAT_RM_LOOP, Mat_rm.loop_rows, Mat_rm.loop_cols, Mat_rm.SET, Mat_rm.GET,
      at_, apply_Affine, Sample.A2, Sample.units2, Sample.units1]

/-- C20, witness: the session `Sample.loaded` (source voxels of 2 mm, reference voxels of
1 mm, one matched pair at voxel `(1, 2, 3)` of each image), an estimator that returns
`[2·I | 0]`, and the reference voxel `(1, 0, 0)`. -/
theorem mm2im_im2mm_consistent_witness :
    Sample.A2.WF ∧ Sample.A2.num_rows = IM_NDIMS ∧ Sample.A2.num_cols = IM_NDIMS + 1 ∧
    (∀ i, 0 < Sample.units2 i) ∧ (∀ i, 0 < Sample.units1 i) ∧
    (Sample.collab 0).copy_faithful ∧
    (register_SIFT3D (Sample.collab 0) Sample.env0 Sample.loaded
      (some (Tform.affine { A := Sample.A2 }))).ret = SIFT3D_SUCCESS ∧
    ∃ A' : Mat_rm ℚ,
      mm2im Sample.units2 Sample.units1 (Tform.affine { A := Sample.A2 }) =
        (SIFT3D_SUCCESS, Tform.affine { A := A' }) ∧
      (∀ i : Fin IM_NDIMS,
        (im2mm (Sample.collab 0) Sample.env0 (point_row (fun i => apply_Affine A' Sample.p i))
          Sample.units2 Sample.empty).val.GET 0 i =
        apply_Affine Sample.A2 (fun j => (im2mm (Sample.collab 0) Sample.env0
          (point_row Sample.p) Sample.units1 Sample.empty).val.GET 0 j) i) ∧
      (register_SIFT3D (Sample.collab 0) Sample.env0 Sample.loaded
        (some (Tform.affine { A := Sample.A2 }))).val.2 = some (Tform.affine { A := A' }) ∧
      ∀ k, k < Sample.matched.match_src.num_rows → ∀ i : Fin IM_NDIMS,
        Sample.matched.match_src.GET k i =
          apply_Affine A' (fun j => Sample.matched.match_ref.GET k j) i := by
  obtain ⟨A', h1, h2, h3⟩ := mm2im_im2mm_consistent (Sample.collab 0) Sample.A2 Sample.units2
    Sample.units1 (by decide) (by decide) (by decide) (by decide) (by decide)
    (Sample.collab_copy_faithful 0)
  exact ⟨by decide, by decide, by decide, by decide, by decide, Sample.collab_copy_faithful 0,
    by decide, A', h1,
    h2 Sample.p Sample.env0 Sample.env0 Sample.empty Sample.empty rfl rfl,
    h3 Sample.env0 Sample.loaded Sample.matched (Tform.affine { A := Sample.A2 }) _ _ rfl rfl
      (by decide) rfl (by decide) (by decide) rfl rfl rfl (fun _ _ => rfl) Sample.A2_fits⟩

end Consistency

end SIFT3D

namespace SIFT3D

/-! ## Round trip of `im2mm` in double arithmetic -/

section DoubleLemmas

theorem round_even_error (q : ℚ) : |(round_even q : ℚ) - q| ≤ 1 / 2 := by
  have h1 : (⌊q⌋ : ℚ) ≤ q := Int.floor_le q
  have h2 : q < ⌊q⌋ + 1 := Int.lt_floor_add_one q
  unfold round_even
  rw [abs_le]
  split_ifs with a b d
  · constructor <;> linarith
  · constructor <;> push_cast <;> linarith
  · constructor <;> linarith
  · constructor <;> push_cast <;> linarith

theorem binary64_exponent_normal (x : ℚ) (hx : 1 / 2 ^ 1022 ≤ |x|) :
    binary64_exponent x = Int.log 2 |x| := by
  have h0 : (0 : ℚ) < |x| := lt_of_lt_of_le (by positivity) hx
  have h : (-1022 : ℤ) ≤ Int.log 2 |x| := by
    rw [← Int.zpow_le_iff_le_log (by norm_num) h0]
    refine le_trans (le_of_eq ?_) hx
    norm_num [zpow_neg]
  exact max_eq_left h

theorem binary64_error (x : ℚ) (hx : 1 / 2 ^ 1022 ≤ |x|) :
    |binary64 x - x| ≤ |x| * (1 / 2 ^ 53) := by
  have h0 : (0 : ℚ) < |x| := lt_of_lt_of_le (by positivity) hx
  unfold binary64
  rw [binary64_exponent_normal x hx]
  generalize he : Int.log 2 |x| = e
  have hlog : ((2 : ℕ) : ℚ) ^ e ≤ |x| := by
    rw [← he]
    exact Int.zpow_log_le_self (by norm_num) h0
  have hs : (0 : ℚ) < 2 ^ (e - 52) := by positivity
  have hsplit : (2 : ℚ) ^ (e - 52) = 2 ^ e / 2 ^ 52 := by
    rw [zpow_sub₀ (by norm_num)]
    norm_num
  have hr := round_even_error (x / 2 ^ (e - 52))
  have hx' : x = x / 2 ^ (e - 52) * 2 ^ (e - 52) := by
    field_simp
  have key : |(round_even (x / 2 ^ (e - 52)) : ℚ) * 2 ^ (e - 52) - x| =
      |(round_even (x / 2 ^ (e - 52)) : ℚ) - x / 2 ^ (e - 52)| * 2 ^ (e - 52) := by
    rw [← abs_of_pos hs, ← abs_mul, abs_of_pos hs, sub_mul, ← hx']
  rw [key]
  calc |(round_even (x / 2 ^ (e - 52)) : ℚ) - x / 2 ^ (e - 52)| * 2 ^ (e - 52)
      ≤ 1 / 2 * 2 ^ (e - 52) := mul_le_mul_of_nonneg_right hr (le_of_lt hs)
    _ = 2 ^ e * (1 / 2 ^ 53) := by rw [hsplit]; ring
    _ ≤ |x| * (1 / 2 ^ 53) := by
        refine mul_le_mul_of_nonneg_right ?_ (by positivity)
        exact_mod_cast hlog

theorem binary64_eval (x : ℚ) (e m : ℤ) (h1 : (2 : ℚ) ^ e ≤ |x|) (h2 : |x| < 2 ^ (e + 1))
    (hmin : -1022 ≤ e) (hm : round_even (x / 2 ^ (e - 52)) = m) :
    binary64 x = m * 2 ^ (e - 52) := by
  have h0 : (0 : ℚ) < |x| := lt_of_lt_of_le (by positivity) h1
  have hlog : Int.log 2 |x| = e := by
    apply le_antisymm
    · have := (Int.lt_zpow_iff_log_lt (R := ℚ) (b := 2) (by norm_num) h0 (x := e + 1)).mp
        (by exact_mod_cast h2)
      omega
    · exact (Int.zpow_le_iff_le_log (R := ℚ) (b := 2) (by norm_num) h0).mp (by exact_mod_cast h1)
  unfold binary64 binary64_exponent
  rw [hlog, max_eq_left hmin, hm]

theorem round_even_eval (q : ℚ) (f m : ℤ) (h1 : (f : ℚ) ≤ q) (h2 : q < f + 1)
    (hm : (if q - f < 1 / 2 then f else if 1 / 2 < q - f then f + 1
      else if f % 2 = 0 then f else f + 1) = m) : round_even q = m := by
  have hf : ⌊q⌋ = f := Int.floor_eq_iff.mpr ⟨h1, h2⟩
  unfold round_even
  rw [hf]
  exact hm


variable {W S Rn H I : Type}

theorem im2mm_fl_id {K : Type} [LinearOrderedField K] (c : Collab W K S Rn H I) (e : Env W)
    (im : Mat_rm K) (units : Fin IM_NDIMS → K) (mm : Mat_rm K) :
    im2mm_fl id c e im units mm = im2mm c e im units mm := rfl

theorem im2mm_fl_ok {K : Type} [LinearOrderedField K] (fl : K → K) (c : Collab W K S Rn H I)
    (e : Env W) (P : Mat_rm K) (u : Fin IM_NDIMS → K) (mm : Mat_rm K)
    (hcols : P.num_cols = IM_NDIMS) (htype : P.type = Mat_rm_type.DOUBLE)
    (hok : (c.copy_Mat_rm e.w P mm).ret = 0) (hcopy : c.copy_faithful) :
    im2mm_fl fl c e P u mm =
      { env := { w := (c.copy_Mat_rm e.w P mm).env, log := e.log ++ [Call.copy_Mat_rm] },
        ret := SIFT3D_SUCCESS,
        val := SIFT3D_MAT_RM_LOOP P (fun _ j a => fl (a * at_ u j)) } := by
  simp [im2mm_fl, hcols, htype, call, hok, hcopy e.w P mm hok]

theorem binary64_zero : binary64 0 = 0 := by
  simp [binary64, round_even]

theorem three_roundings (a v r y z ε : ℚ) (hv : 0 < v) (hε0 : 0 ≤ ε) (hε : ε ≤ 1 / 8)
    (h1 : |r - 1 / v| ≤ |1 / v| * ε) (h2 : |y - a * v| ≤ |a * v| * ε) :
    |y * r - a| ≤ |a| * (ε * (2 + ε)) ∧
    (|z - y * r| ≤ |y * r| * ε → |z - a| ≤ |a| * (4 * ε)) := by
  have hv0 : v ≠ 0 := ne_of_gt hv
  have hva : |v| = v := abs_of_pos hv
  have hiv : |1 / v| = 1 / v := abs_of_pos (by positivity)
  have hr : |r| ≤ 1 / v * (1 + ε) := by
    have := abs_sub_abs_le_abs_sub r (1 / v)
    rw [hiv] at this h1
    linarith
  have hav : |a * v| = |a| * v := by rw [abs_mul, hva]
  rw [hav] at h2
  rw [hiv] at h1
  have ha0 : 0 ≤ |a| := abs_nonneg a
  have e1 : y * r - a = (y - a * v) * r + a * v * (r - 1 / v) := by
    field_simp
    ring
  have b1 : |y * r - a| ≤ |a| * (ε * (2 + ε)) := by
    rw [e1]
    refine le_trans (abs_add _ _) ?_
    rw [abs_mul, abs_mul, hav]
    have t1 : |y - a * v| * |r| ≤ (|a| * v * ε) * (1 / v * (1 + ε)) :=
      mul_le_mul h2 hr (abs_nonneg r) (by positivity)
    have t2 : |a| * v * |r - 1 / v| ≤ |a| * v * (1 / v * ε) :=
      mul_le_mul_of_nonneg_left h1 (by positivity)
    have t3 : (|a| * v * ε) * (1 / v * (1 + ε)) + |a| * v * (1 / v * ε) = |a| * (ε * (2 + ε)) := by
      field_simp
      ring
    linarith
  refine ⟨b1, ?_⟩
  intro h3
  have b2 : |y * r| ≤ |a| * (1 + ε * (2 + ε)) := by
    have := abs_sub_abs_le_abs_sub (y * r) a
    linarith
  have b3 : |z - a| ≤ |z - y * r| + |y * r - a| := by
    have : z - a = (z - y * r) + (y * r - a) := by ring
    rw [this]
    exact abs_add _ _
  have b4 : |y * r| * ε ≤ |a| * (1 + ε * (2 + ε)) * ε := mul_le_mul_of_nonneg_right b2 hε0
  have b5 : |a| * (1 + ε * (2 + ε)) * ε + |a| * (ε * (2 + ε)) ≤ |a| * (4 * ε) := by
    have q1 : ε * ε ≤ ε * (1 / 8) := mul_le_mul_of_nonneg_left hε hε0
    have q2 : ε * (3 * ε + ε * ε) ≤ ε * 1 :=
      mul_le_mul_of_nonneg_left (by linarith) hε0
    have : (1 + ε * (2 + ε)) * ε + ε * (2 + ε) ≤ 4 * ε := by linarith
    calc |a| * (1 + ε * (2 + ε)) * ε + |a| * (ε * (2 + ε))
        = |a| * ((1 + ε * (2 + ε)) * ε + ε * (2 + ε)) := by ring
      _ ≤ |a| * (4 * ε) := mul_le_mul_of_nonneg_left this ha0
  linarith

theorem round_trip_entry (a v : ℚ) (hv1 : 1 / 2 ^ 500 ≤ v) (hv2 : v ≤ 2 ^ 500)
    (ha : a = 0 ∨ (1 / 2 ^ 500 ≤ |a| ∧ |a| ≤ 2 ^ 500)) :
    |binary64 (binary64 (a * v) * binary64 (1 / v)) - a| ≤ |a| * (1 / 2 ^ 51) := by
  rcases ha with ha | ⟨ha1, _⟩
  · subst ha
    simp [binary64_zero]
  have hv : 0 < v := lt_of_lt_of_le (by positivity) hv1
  have hiv : |1 / v| = 1 / v := abs_of_pos (by positivity)
  have hav : |a * v| = |a| * v := by rw [abs_mul, abs_of_pos hv]
  have ha0 : 0 < |a| := lt_of_lt_of_le (by positivity) ha1
  have n1 : (1 : ℚ) / 2 ^ 1022 ≤ |1 / v| := by
    rw [hiv]
    refine le_trans ?_ (one_div_le_one_div_of_le hv hv2)
    norm_num
  have n2 : (1 : ℚ) / 2 ^ 1022 ≤ |a * v| := by
    rw [hav]
    have : (1 : ℚ) / 2 ^ 500 * (1 / 2 ^ 500) ≤ |a| * v :=
      mul_le_mul ha1 hv1 (by positivity) (le_of_lt ha0)
    refine le_trans ?_ this
    norm_num
  obtain ⟨b1, b⟩ := three_roundings a v (binary64 (1 / v)) (binary64 (a * v))
    (binary64 (binary64 (a * v) * binary64 (1 / v))) (1 / 2 ^ 53) hv (by positivity)
    (by norm_num) (binary64_error (1 / v) n1) (binary64_error (a * v) n2)
  have n3 : (1 : ℚ) / 2 ^ 1022 ≤ |binary64 (a * v) * binary64 (1 / v)| := by
    have t := abs_sub_abs_le_abs_sub a (binary64 (a * v) * binary64 (1 / v))
    rw [abs_sub_comm] at t
    have t2 : |a| * (1 / 2 ^ 53 * (2 + 1 / 2 ^ 53)) ≤ |a| * (1 / 2) :=
      mul_le_mul_of_nonneg_left (by norm_num) (le_of_lt ha0)
    have t3 : (1 : ℚ) / 2 ^ 1022 ≤ 1 / 2 ^ 500 * (1 / 2) := by norm_num
    linarith
  have := b (binary64_error _ n3)
  refine le_trans this (le_of_eq ?_)
  norm_num

theorem Sample.fl_tenth : binary64 (1 / 10) = Sample.tenth := by
  rw [binary64_eval (1 / 10) (-4) 7205759403792794 (by norm_num [abs_of_pos])
    (by norm_num [abs_of_pos]) (by norm_num)
    (round_even_eval _ 7205759403792793 _ (by norm_num) (by norm_num) (by norm_num))]
  norm_num [Sample.tenth]

theorem Sample.fl_3_tenth :
    binary64 (3 * Sample.tenth) = 1351079888211149 / 4503599627370496 := by
  rw [binary64_eval (3 * Sample.tenth) (-2) 5404319552844596
    (by norm_num [Sample.tenth, abs_of_pos]) (by norm_num [Sample.tenth, abs_of_pos])
    (by norm_num)
    (round_even_eval _ 5404319552844595 _ (by norm_num [Sample.tenth])
      (by norm_num [Sample.tenth]) (by norm_num [Sample.tenth]))]
  norm_num

theorem Sample.fl_recip_tenth : binary64 (1 / Sample.tenth) = 10 := by
  rw [binary64_eval (1 / Sample.tenth) 3 5629499534213120
    (by norm_num [Sample.tenth, abs_of_pos]) (by norm_num [Sample.tenth, abs_of_pos])
    (by norm_num)
    (round_even_eval _ 5629499534213119 _ (by norm_num [Sample.tenth])
      (by norm_num [Sample.tenth]) (by norm_num [Sample.tenth]))]
  norm_num

theorem Sample.fl_back : binary64 (1351079888211149 / 4503599627370496 * 10) =
    6755399441055745 / 2251799813685248 := by
  rw [binary64_eval _ 1 6755399441055745 (by norm_num [abs_of_pos])
    (by norm_num [abs_of_pos]) (by norm_num)
    (round_even_eval _ 6755399441055745 _ (by norm_num) (by norm_num) (by norm_num))]
  norm_num

theorem Sample.round_trip_tenth :
    (im2mm_fl binary64 (Sample.collab 0) Sample.env0 Sample.P3 Sample.units_tenth
      Sample.empty).ret = SIFT3D_SUCCESS ∧
    (im2mm_fl binary64 (Sample.collab 0)
      (im2mm_fl binary64 (Sample.collab 0) Sample.env0 Sample.P3 Sample.units_tenth
        Sample.empty).env
      (im2mm_fl binary64 (Sample.collab 0) Sample.env0 Sample.P3 Sample.units_tenth
        Sample.empty).val
      (fun j => binary64 (1 / Sample.units_tenth j)) Sample.empty).ret = SIFT3D_SUCCESS ∧
    (im2mm_fl binary64 (Sample.collab 0)
      (im2mm_fl binary64 (Sample.collab 0) Sample.env0 Sample.P3 Sample.units_tenth
        Sample.empty).env
      (im2mm_fl binary64 (Sample.collab 0) Sample.env0 Sample.P3 Sample.units_tenth
        Sample.empty).val
      (fun j => binary64 (1 / Sample.units_tenth j)) Sample.empty).val =
      { num_rows := 1, num_cols := 3, type := Mat_rm_type.DOUBLE,
        data := [6755399441055745 / 2251799813685248, 6755399441055745 / 2251799813685248,
          6755399441055745 / 2251799813685248] } := by
  have h1 := im2mm_fl_ok binary64 (Sample.collab 0) Sample.env0 Sample.P3 Sample.units_tenth
    Sample.empty rfl rfl rfl (Sample.collab_copy_faithful 0)
  have v1 : SIFT3D_MAT_RM_LOOP Sample.P3 (fun _ j a => binary64 (a * at_ Sample.units_tenth j)) =
      { num_rows := 1, num_cols := 3, type := Mat_rm_type.DOUBLE,
        data := [1351079888211149 / 4503599627370496, 1351079888211149 / 4503599627370496,
          1351079888211149 / 4503599627370496] } := by
    simp [SIFT3D_MAT_RM_LOOP, Mat_rm.loop_rows, Mat_rm.loop_cols, Mat_rm.SET, Mat_rm.GET, at_,
      Sample.P3, Sample.units_tenth, Sample.fl_3_tenth]
  have hr : binary64 Sample.tenth⁻¹ = 10 := by
    rw [← one_div]
    exact Sample.fl_recip_tenth
  rw [v1] at h1
  rw [h1]
  rw [im2mm_fl_ok binary64 (Sample.collab 0) _ _ _ Sample.empty rfl rfl rfl
    (Sample.collab_copy_faithful 0)]
  refine ⟨rfl, rfl, ?_⟩
  simp [SIFT3D_MAT_RM_LOOP, Mat_rm.loop_rows, Mat_rm.loop_cols, Mat_rm.SET, Mat_rm.GET, at_,
    Sample.units_tenth, hr, Sample.fl_back]

theorem Sample.fl_tenth_fixed : binary64 Sample.tenth = Sample.tenth := by
  rw [binary64_eval Sample.tenth (-4) 7205759403792794 (by norm_num [Sample.tenth, abs_of_pos])
    (by norm_num [Sample.tenth, abs_of_pos]) (by norm_num)
    (round_even_eval _ 7205759403792794 _ (by norm_num [Sample.tenth])
      (by norm_num [Sample.tenth]) (by norm_num [Sample.tenth]))]
  norm_num [Sample.tenth]

theorem Sample.fl_three : binary64 3 = 3 := by
  rw [binary64_eval 3 1 6755399441055744 (by norm_num [abs_of_pos])
    (by norm_num [abs_of_pos]) (by norm_num)
    (round_even_eval _ 6755399441055744 _ (by norm_num) (by norm_num) (by norm_num))]
  norm_num

theorem Sample.units_tenth_range (j : Fin IM_NDIMS) :
    1 / 2 ^ 500 ≤ Sample.units_tenth j ∧ Sample.units_tenth j ≤ 2 ^ 500 := by
  fin_cases j <;> norm_num [Sample.units_tenth, Sample.tenth]

theorem Sample.P3_range (i : Nat) (hi : i < Sample.P3.num_rows) (j : Fin IM_NDIMS) :
    Sample.P3.GET i j = 0 ∨
      (1 / 2 ^ 500 ≤ |Sample.P3.GET i j| ∧ |Sample.P3.GET i j| ≤ 2 ^ 500) := by
  have h0 : i = 0 := by
    simp only [Sample.P3] at hi
    omega
  subst h0
  right
  fin_cases j <;> norm_num [Sample.P3, Mat_rm.GET, abs_of_pos]

/-- C6, as the code has it: in double arithmetic (every product of the loop body rounded to
binary64, the reciprocal units being the doubles `1.0 / u[j]`), for a well-formed N x 3
matrix `P` of doubles and units `u` whose components, like the non-zero entries of `P`, have
magnitude between `2^-500` and `2^500` (so that no product overflows or is subnormal),
converting `P` with `u` and the result with `1/u`, both copies succeeding, succeeds twice
and gives a matrix with the rows, columns and type of `P` whose entry `(i, j)` differs from
`P(i, j)` by at most `|P(i, j)|·2^-51`. -/
theorem im2mm_round_trip_within_tolerance (c : Collab W ℚ S Rn H I) (e : Env W) (P : Mat_rm ℚ)
    (u : Fin IM_NDIMS → ℚ) (mm mm' : Mat_rm ℚ)
    (hwf : P.WF) (hcols : P.num_cols = IM_NDIMS) (htype : P.type = Mat_rm_type.DOUBLE)
    (hu : ∀ j, 1 / 2 ^ 500 ≤ u j ∧ u j ≤ 2 ^ 500)
    (hP : ∀ i, i < P.num_rows → ∀ j : Fin IM_NDIMS,
      P.GET i j = 0 ∨ (1 / 2 ^ 500 ≤ |P.GET i j| ∧ |P.GET i j| ≤ 2 ^ 500))
    (hcopy : c.copy_faithful)
    (hok : (c.copy_Mat_rm e.w P mm).ret = 0)
    (hok' : (c.copy_Mat_rm (im2mm_fl binary64 c e P u mm).env.w
      (im2mm_fl binary64 c e P u mm).val mm').ret = 0) :
    (im2mm_fl binary64 c e P u mm).ret = SIFT3D_SUCCESS ∧
    (im2mm_fl binary64 c (im2mm_fl binary64 c e P u mm).env (im2mm_fl binary64 c e P u mm).val
      (fun j => binary64 (1 / u j)) mm').ret = SIFT3D_SUCCESS ∧
    (im2mm_fl binary64 c (im2mm_fl binary64 c e P u mm).env (im2mm_fl binary64 c e P u mm).val
      (fun j => binary64 (1 / u j)) mm').val.num_rows = P.num_rows ∧
    (im2mm_fl binary64 c (im2mm_fl binary64 c e P u mm).env (im2mm_fl binary64 c e P u mm).val
      (fun j => binary64 (1 / u j)) mm').val.num_cols = P.num_cols ∧
    (im2mm_fl binary64 c (im2mm_fl binary64 c e P u mm).env (im2mm_fl binary64 c e P u mm).val
      (fun j => binary64 (1 / u j)) mm').val.type = P.type ∧
    ∀ i, i < P.num_rows → ∀ j : Fin IM_NDIMS,
      |(im2mm_fl binary64 c (im2mm_fl binary64 c e P u mm).env
          (im2mm_fl binary64 c e P u mm).val (fun j => binary64 (1 / u j)) mm').val.GET i j -
        P.GET i j| ≤ |P.GET i j| * (1 / 2 ^ 51) := by
  have h1 := im2mm_fl_ok binary64 c e P u mm hcols htype hok hcopy
  obtain ⟨s1, s2, s3, _⟩ := SIFT3D_MAT_RM_LOOP_shape (fun _ j a => binary64 (a * at_ u j)) P
  have hwf1 := SIFT3D_MAT_RM_LOOP_WF (fun _ j a => binary64 (a * at_ u j)) P hwf
  rw [h1] at hok' ⊢
  have h2 := im2mm_fl_ok binary64 c
    { w := (c.copy_Mat_rm e.w P mm).env, log := e.log ++ [Call.copy_Mat_rm] }
    (SIFT3D_MAT_RM_LOOP P (fun _ j a => binary64 (a * at_ u j)))
    (fun j => binary64 (1 / u j)) mm'
    (by rw [s2, hcols]) (by rw [s3, htype]) hok' hcopy
  simp only at h2 ⊢
  rw [h2]
  obtain ⟨t1, t2, t3, _⟩ := SIFT3D_MAT_RM_LOOP_shape
    (fun _ j a => binary64 (a * at_ (fun j => binary64 (1 / u j)) j))
    (SIFT3D_MAT_RM_LOOP P (fun _ j a => binary64 (a * at_ u j)))
  refine ⟨trivial, rfl, by rw [t1, s1], by rw [t2, s2], by rw [t3, s3], ?_⟩
  intro i hi j
  have hj : j.val < P.num_cols := by rw [hcols]; exact j.isLt
  simp only
  rw [SIFT3D_MAT_RM_LOOP_GET _ _ hwf1 i j (by rw [s1]; exact hi) (by rw [s2]; exact hj),
    SIFT3D_MAT_RM_LOOP_GET _ _ hwf i j hi hj, at_val, at_val]
  exact round_trip_entry (P.GET i j) (u j) (hu j).1 (hu j).2 (hP i hi j)

/-- C6, witness: the matrix `(3, 3, 3)` and voxels of 0.1 mm, the double nearest to 1/10. -/
theorem im2mm_round_trip_within_tolerance_witness :
    Sample.P3.WF ∧ Sample.P3.num_cols = IM_NDIMS ∧ Sample.P3.type = Mat_rm_type.DOUBLE ∧
    (∀ j, 1 / 2 ^ 500 ≤ Sample.units_tenth j ∧ Sample.units_tenth j ≤ 2 ^ 500) ∧
    (∀ i, i < Sample.P3.num_rows → ∀ j : Fin IM_NDIMS, Sample.P3.GET i j = 0 ∨
      (1 / 2 ^ 500 ≤ |Sample.P3.GET i j| ∧ |Sample.P3.GET i j| ≤ 2 ^ 500)) ∧
    (Sample.collab 0).copy_faithful ∧
    ∀ i, i < Sample.P3.num_rows → ∀ j : Fin IM_NDIMS,
      |(im2mm_fl binary64 (Sample.collab 0)
          (im2mm_fl binary64 (Sample.collab 0) Sample.env0 Sample.P3 Sample.units_tenth
            Sample.empty).env
          (im2mm_fl binary64 (Sample.collab 0) Sample.env0 Sample.P3 Sample.units_tenth
            Sample.empty).val
          (fun j => binary64 (1 / Sample.units_tenth j)) Sample.empty).val.GET i j -
        Sample.P3.GET i j| ≤ |Sample.P3.GET i j| * (1 / 2 ^ 51) :=
  ⟨by decide, by decide, by decide, Sample.units_tenth_range, Sample.P3_range,
    Sample.collab_copy_faithful 0,
    (im2mm_round_trip_within_tolerance (Sample.collab 0) Sample.env0 Sample.P3
      Sample.units_tenth Sample.empty Sample.empty (by decide) (by decide) (by decide)
      Sample.units_tenth_range Sample.P3_range (Sample.collab_copy_faithful 0) rfl rfl).2.2.2.2.2⟩

/-- C6, counterexample: in double arithmetic, with voxels of 0.1 mm (the double nearest to
1/10, whose reciprocal in doubles is 10) and the matrix `(3, 3, 3)` of doubles, both
conversions succeed and the round trip leaves 6755399441055745 / 2^51 =
3.0000000000000004 in each entry, not 3: the result is not `P`. -/
theorem im2mm_round_trip_double_counterexample :
    Sample.P3.WF ∧ Sample.P3.num_cols = IM_NDIMS ∧ Sample.P3.type = Mat_rm_type.DOUBLE ∧
    (∀ j, 0 < Sample.units_tenth j) ∧
    (∀ j, binary64 (Sample.units_tenth j) = Sample.units_tenth j) ∧
    (∀ x ∈ Sample.P3.data, binary64 x = x) ∧
    (∀ j, binary64 (1 / Sample.units_tenth j) = 10) ∧
    (im2mm_fl binary64 (Sample.collab 0) Sample.env0 Sample.P3 Sample.units_tenth
      Sample.empty).ret = SIFT3D_SUCCESS ∧
    (im2mm_fl binary64 (Sample.collab 0)
      (im2mm_fl binary64 (Sample.collab 0) Sample.env0 Sample.P3 Sample.units_tenth
        Sample.empty).env
      (im2mm_fl binary64 (Sample.collab 0) Sample.env0 Sample.P3 Sample.units_tenth
        Sample.empty).val
      (fun j => binary64 (1 / Sample.units_tenth j)) Sample.empty).ret = SIFT3D_SUCCESS ∧
    (im2mm_fl binary64 (Sample.collab 0)
      (im2mm_fl binary64 (Sample.collab 0) Sample.env0 Sample.P3 Sample.units_tenth
        Sample.empty).env
      (im2mm_fl binary64 (Sample.collab 0) Sample.env0 Sample.P3 Sample.units_tenth
        Sample.empty).val
      (fun j => binary64 (1 / Sample.units_tenth j)) Sample.empty).val =
      { num_rows := 1, num_cols := 3, type := Mat_rm_type.DOUBLE,
        data := [6755399441055745 / 2251799813685248, 6755399441055745 / 2251799813685248,
          6755399441055745 / 2251799813685248] } ∧
    (im2mm_fl binary64 (Sample.collab 0)
      (im2mm_fl binary64 (Sample.collab 0) Sample.env0 Sample.P3 Sample.units_tenth
        Sample.empty).env
      (im2mm_fl binary64 (Sample.collab 0) Sample.env0 Sample.P3 Sample.units_tenth
        Sample.empty).val
      (fun j => binary64 (1 / Sample.units_tenth j)) Sample.empty).val ≠ Sample.P3 := by
  obtain ⟨r1, r2, hv⟩ := Sample.round_trip_tenth
  refine ⟨by decide, by decide, by decide, ?_, ?_, ?_, ?_, r1, r2, hv, ?_⟩
  · intro j
    fin_cases j <;> norm_num [Sample.units_tenth, Sample.tenth]
  · intro j
    fin_cases j <;> simp [Sample.units_tenth, Sample.fl_tenth_fixed]
  · intro x hx
    simp only [Sample.P3, List.mem_cons, List.mem_singleton, List.not_mem_nil, or_false,
      or_self] at hx
    subst hx
    exact Sample.fl_three
  · intro j
    fin_cases j <;> simp [Sample.units_tenth] <;> rw [← one_div] <;>
      exact Sample.fl_recip_tenth
  · rw [hv]
    norm_num [Sample.P3]

end DoubleLemmas

end SIFT3D
